import Mathlib

/-!
# DWC2 USB host-controller driver core: embedding and verified properties

Shallow embedding of `drivers/usb/uhc/uhc_dwc2.c` and of the low-level register
helpers of `drivers/usb/common/usb_dwc2_ll.h`.

Conventions of the embedding

* A C function that updates driver or register state is a function from the
  state before the call to its result and the state after the call.
* The interrupt status registers (GINTSTS, HPRT, HAINT, HCINT) are driven by the
  hardware: every value the code reads from one of them is an argument of the
  embedded function, in the order of the reads.  The register block records the
  last value the driver wrote to them.  So are the polls of GRSTCTL and of the
  current-mode bit in the wait loops.  All other registers behave as memory.
* A sleep of the worker thread during which the interrupt handler may run takes
  as argument what the interrupt context does to the device meanwhile.
* Register bit-fields are record fields.  The bit-field layouts and the GINTSTS
  bit masks are declared in `usb_dwc2_hw.h`, which is not part of the sources;
  they are parameters (`usb_dwc2_hw`).
* Machine integers are `Nat`/`Int` with explicit reduction where a narrower C
  type stores the value.
* A failed `__ASSERT` and undefined behaviour (a NULL dereference, an
  out-of-bounds access) make the embedded function return `none`.  So does a
  wait that does not end: a poll loop without bound whose polls are used up, or
  `k_event_wait` with no event posted.
-/

namespace Dwc2

/-! ## Machine arithmetic -/

/-- The C macro `BIT(n)`. -/
def BIT (n : Nat) : Nat := 2 ^ n

/-- Bitwise complement of a 32-bit value (`~x` on `uint32_t`). -/
def NOT32 (x : Nat) : Nat := (2 ^ 32 - 1) - x % 2 ^ 32

/-- Conversion of an integer result to `uint16_t`. -/
def to_u16 (x : Int) : Nat := (x % 65536).toNat

/-- Conversion of an integer result to `uint8_t`. -/
def to_u8 (x : Int) : Nat := (x % 256).toNat

/-- Conversion of an integer result to `uint32_t`. -/
def to_u32 (x : Int) : Nat := (x % 4294967296).toNat

/-! ## Constants of `usb_dwc2_ll.h` and `uhc_dwc2.c` -/

def USB_DWC2_LL_HPRT_W1C_MSK : Nat := 0x2E
def USB_DWC2_LL_HPRT_ENA_MSK : Nat := 0x04

def USB_DWC2_HCINT_XFERCOMPL : Nat := BIT 0
def USB_DWC2_HCINT_CHHLTD : Nat := BIT 1
def USB_DWC2_HCINT_STALL : Nat := BIT 3
def USB_DWC2_HCINT_XACTERR : Nat := BIT 7
def USB_DWC2_HCINT_BBLERR : Nat := BIT 8

def CHAN_INTRS_EN_MSK : Nat := USB_DWC2_HCINT_XFERCOMPL ||| USB_DWC2_HCINT_CHHLTD

def CHAN_INTRS_ERROR_MSK : Nat :=
  USB_DWC2_HCINT_STALL ||| USB_DWC2_HCINT_BBLERR ||| USB_DWC2_HCINT_XACTERR

def USB_DWC2_HPRT_PRTENCHNG : Nat := BIT 3
def USB_DWC2_HPRT_PRTOVRCURRCHNG : Nat := BIT 5
def USB_DWC2_HPRT_PRTCONNDET : Nat := BIT 1

def PORT_EVENTS_INTRS_MSK : Nat :=
  USB_DWC2_HPRT_PRTCONNDET ||| USB_DWC2_HPRT_PRTENCHNG ||| USB_DWC2_HPRT_PRTOVRCURRCHNG

def SET_ADDR_DELAY_MS : Nat := 10
def CTRL_EP_MAX_MPS_LS : Nat := 8
def CTRL_EP_MAX_MPS_HSFS : Nat := 64
def BENDPOINTADDRESS_NUM_MSK : Nat := 0x0F
def BENDPOINTADDRESS_DIR_MSK : Nat := 0x80

def EPSIZE_BULK_FS : Nat := 64

def USB_SREQ_SET_ADDRESS : Nat := 5

def EIO : Int := 5
def ENOMEM : Int := 12
def ENODEV : Int := 19
def EINVAL : Int := 22
def ENOTSUP : Int := 134

def UHC_DWC2_SPEED_HIGH : Nat := 0
def UHC_DWC2_SPEED_FULL : Nat := 1
def UHC_DWC2_SPEED_LOW : Nat := 2

/-- The anonymous enum `uhc_dwc2_event_t`: the bit numbers of the driver events. -/
def UHC_DWC2_EVENT_PORT : Nat := 0
def UHC_DWC2_EVENT_PIPE : Nat := 1

/-- What the driver takes from `usb_dwc2_hw.h`: the GINTSTS masks, the position
of the EPInfoBaseAddr field of GDFIFOCFG, and the accessors of the HPRT
bit-fields it reads or writes through `usb_dwc2_hprt_reg_t`. -/
structure usb_dwc2_hw where
  USB_DWC2_GINTSTS_PRTINT : Nat
  USB_DWC2_GINTSTS_HCHINT : Nat
  USB_DWC2_GINTSTS_DISCONNINT : Nat
  USB_DWC2_GINTSTS_CURMOD : Nat
  USB_DWC2_GRSTCTL_RXFFLSH : Nat
  USB_DWC2_GRSTCTL_TXFFLSH : Nat
  USB_DWC2_GDFIFOCFG_EPINFOBASEADDR_POS : Nat
  prtconnsts : Nat → Bool
  prtena : Nat → Bool
  prtovrcurract : Nat → Bool
  prtspd : Nat → Nat
  set_prtrst : Nat → Bool → Nat
  set_prtpwr : Nat → Bool → Nat

def CORE_EVENTS_INTRS_MSK (hw : usb_dwc2_hw) : Nat :=
  hw.USB_DWC2_GINTSTS_DISCONNINT ||| hw.USB_DWC2_GINTSTS_HCHINT

/-! ## Enumerations -/

inductive uhc_port_event_t where
  | UHC_PORT_EVENT_NONE
  | UHC_PORT_EVENT_CONNECTION
  | UHC_PORT_EVENT_ENABLED
  | UHC_PORT_EVENT_DISCONNECTION
  | UHC_PORT_EVENT_ERROR
  | UHC_PORT_EVENT_OVERCURRENT
  deriving DecidableEq, Repr

inductive uhc_port_state_t where
  | UHC_PORT_STATE_NOT_POWERED
  | UHC_PORT_STATE_DISCONNECTED
  | UHC_PORT_STATE_DISABLED
  | UHC_PORT_STATE_RESETTING
  | UHC_PORT_STATE_SUSPENDED
  | UHC_PORT_STATE_RESUMING
  | UHC_PORT_STATE_ENABLED
  | UHC_PORT_STATE_RECOVERY
  deriving DecidableEq, Repr

inductive uhc_dwc2_core_event_t where
  | UHC_DWC2_CORE_EVENT_NONE
  | UHC_DWC2_CORE_EVENT_CHAN
  | UHC_DWC2_CORE_EVENT_CONN
  | UHC_DWC2_CORE_EVENT_DISCONN
  | UHC_DWC2_CORE_EVENT_ENABLED
  | UHC_DWC2_CORE_EVENT_DISABLED
  | UHC_DWC2_CORE_EVENT_OVRCUR
  | UHC_DWC2_CORE_EVENT_OVRCUR_CLR
  deriving DecidableEq, Repr

inductive pipe_event_t where
  | PIPE_EVENT_NONE
  | PIPE_EVENT_URB_DONE
  | PIPE_EVENT_ERROR
  | PIPE_EVENT_HALTED
  deriving DecidableEq, Repr

inductive uhc_dwc2_xfer_type_t where
  | UHC_DWC2_XFER_TYPE_CTRL
  | UHC_DWC2_XFER_TYPE_ISOCHRONOUS
  | UHC_DWC2_XFER_TYPE_BULK
  | UHC_DWC2_XFER_TYPE_INTR
  deriving DecidableEq, Repr

inductive pipe_state_t where
  | UHC_PIPE_STATE_ACTIVE
  | UHC_PIPE_STATE_HALTED
  deriving DecidableEq, Repr

inductive dwc2_hal_chan_event_t where
  | DWC2_CHAN_EVENT_CPLT
  | DWC2_CHAN_EVENT_ERROR
  | DWC2_CHAN_EVENT_HALT_REQ
  | DWC2_CHAN_EVENT_NONE
  deriving DecidableEq, Repr

/-- The anonymous enum `ctrl_stage_t`: the PID codes written to HCTSIZ. -/
def CTRL_STAGE_DATA0 : Nat := 0
def CTRL_STAGE_DATA2 : Nat := 1
def CTRL_STAGE_DATA1 : Nat := 2
def CTRL_STAGE_SETUP : Nat := 3

/-! ## Registers -/

/-- The HCCHAR bit-fields the driver accesses (`usb_dwc2_hcchar_reg_t`). -/
structure usb_dwc2_hcchar_reg_t where
  mps : Nat
  epnum : Nat
  epdir : Bool
  lspddev : Bool
  eptype : Nat
  devaddr : Nat
  oddfrm : Bool
  chdis : Bool
  chena : Bool
  deriving DecidableEq, Repr

/-- The HCTSIZ bit-fields the driver accesses (`usb_dwc2_hctsiz_reg_t`). -/
structure usb_dwc2_hctsiz_reg_t where
  xfersize : Nat
  pktcnt : Nat
  pid : Nat
  dopng : Bool
  deriving DecidableEq, Repr

/-- One host-channel register set.  `hcint` holds the last value written to the
write-one-to-clear register HCINT. -/
structure usb_dwc2_host_chan_regs_t where
  hcchar : usb_dwc2_hcchar_reg_t
  hcint : Nat
  hcintmsk : Nat
  hctsiz : usb_dwc2_hctsiz_reg_t
  hcdma : Nat
  deriving DecidableEq, Repr

/-- The GAHBCFG bit-fields the driver accesses (`usb_dwc2_gahbcfg_reg_t`). -/
structure usb_dwc2_gahbcfg_reg_t where
  glbllntrmsk : Bool
  dmaen : Bool
  deriving DecidableEq, Repr

/-- The GUSBCFG bit-field the driver accesses (`usb_dwc2_gusbcfg_reg_t`). -/
structure usb_dwc2_gusbcfg_reg_t where
  forcehstmode : Bool
  deriving DecidableEq, Repr

/-- The GRSTCTL bit-fields the driver accesses (`usb_dwc2_grstctl_reg_t`). -/
structure usb_dwc2_grstctl_reg_t where
  csftrst : Bool
  rxfflsh : Bool
  txfflsh : Bool
  txfnum : Nat
  deriving DecidableEq, Repr

/-- The HCFG bit-fields the driver accesses (`usb_dwc2_hcfg_reg_t`). -/
structure usb_dwc2_hcfg_reg_t where
  descdma : Bool
  perschedena : Bool
  fslspclksel : Nat
  deriving DecidableEq, Repr

/-- The HFIR bit-fields the driver accesses (`usb_dwc2_hfir_reg_t`). -/
structure usb_dwc2_hfir_reg_t where
  hfirrldctrl : Bool
  frint : Nat
  deriving DecidableEq, Repr

/-- The part of the register block `struct usb_dwc2_reg` the embedded functions
touch.  `gintsts`, `hprt` and `grstctl` hold the last value written to them. -/
structure usb_dwc2_reg where
  gahbcfg : usb_dwc2_gahbcfg_reg_t
  gusbcfg : usb_dwc2_gusbcfg_reg_t
  grstctl : usb_dwc2_grstctl_reg_t
  gintsts : Nat
  gintmsk : Nat
  hcfg : usb_dwc2_hcfg_reg_t
  hfir : usb_dwc2_hfir_reg_t
  hprt : Nat
  haintmsk : Nat
  gdfifocfg : Nat
  grxfsiz : Nat
  gnptxfsiz : Nat
  hptxfsiz : Nat
  host_chans : Nat → usb_dwc2_host_chan_regs_t

/-! ## Driver data -/

structure uhc_dwc2_fifo_config_t where
  top : Nat
  nptxfsiz : Nat
  rxfsiz : Nat
  ptxfsiz : Nat
  deriving DecidableEq, Repr

/-- The record `uhc_dwc2_constant_config_t`; `fifo_depth` is `fifo.depth`. -/
structure uhc_dwc2_constant_config_t where
  num_channels : Nat
  hsphy_type : Nat
  fsphy_type : Nat
  dma : Bool
  fifo_depth : Nat
  deriving DecidableEq, Repr

/-- The record `uhc_dwc2_ep_char_t` without its periodic part. -/
structure uhc_dwc2_ep_char_t where
  type : uhc_dwc2_xfer_type_t
  bEndpointAddress : Nat
  mps : Nat
  dev_addr : Nat
  ls_via_fs_hub : Bool
  deriving DecidableEq, Repr

/-- The channel object.  `regs` is the index in `host_chans` of the register set
the C pointer `regs` refers to; `chan_ctx` is the owner pointer. -/
structure uhc_dwc2_channel_t where
  active : Bool
  halt_requested : Bool
  chan_idx : Nat
  regs : Nat
  type : uhc_dwc2_xfer_type_t
  chan_ctx : Nat
  deriving DecidableEq, Repr

structure usb_setup_packet where
  bmRequestType : Nat
  bRequest : Nat
  wValue : Nat
  wIndex : Nat
  wLength : Nat
  deriving DecidableEq, Repr

/-- The fields of `struct net_buf` the driver and the buffer routines it calls
use; `data` is the address of the data and `__buf` the address of the storage. -/
structure net_buf where
  data : Nat
  len : Nat
  size : Nat
  __buf : Nat
  deriving DecidableEq, Repr

/-- The fields of `struct uhc_transfer` the driver uses.  `setup_pkt_addr` is the
address of the `setup_pkt` array, `buf` is `none` for a NULL pointer. -/
structure uhc_transfer where
  setup_pkt : usb_setup_packet
  setup_pkt_addr : Nat
  buf : Option net_buf
  ep : Nat
  interval : Nat
  deriving DecidableEq, Repr

/-- The control-transfer flags `flags.ctrl` of `dma_buffer_t`. -/
structure dma_buffer_ctrl_flags where
  data_stg_in : Bool
  data_stg_skip : Bool
  cur_stg : Nat
  set_addr : Bool
  new_addr : Nat
  deriving DecidableEq, Repr

/-- The buffer of a pipe together with the transfer its `xfer` pointer refers
to. -/
structure dma_buffer_t where
  xfer : uhc_transfer
  ctrl : dma_buffer_ctrl_flags
  deriving DecidableEq, Repr

/-- The flags `flags` of `struct pipe_obj_s`. -/
structure pipe_flags where
  waiting_halt : Bool
  pipe_cmd_processing : Bool
  has_urb : Bool
  event_pending : Bool
  deriving DecidableEq, Repr

/-- The pipe object `struct pipe_obj_s`, holding the buffer and the channel
object its pointers `buffer` and `chan_obj` refer to; `chan_obj_ptr` is the
address held in the pointer `chan_obj`. -/
structure pipe_t where
  num_urb_pending : Int
  num_urb_done : Int
  buffer : dma_buffer_t
  chan_obj : uhc_dwc2_channel_t
  chan_obj_ptr : Nat
  ep_char : uhc_dwc2_ep_char_t
  state : pipe_state_t
  last_event : pipe_event_t
  flags : pipe_flags
  deriving DecidableEq, Repr

/-- The channel table `channels` of the driver data.  `hdls` is `none` for a
NULL table; a slot holds the address of the channel object it was given. -/
structure uhc_dwc2_channels where
  num_allocated : Nat
  pending_intrs_msk : Nat
  hdls : Option (List (Option Nat))
  deriving DecidableEq, Repr

/-- The port flags `dynamic.flags`. -/
structure uhc_dwc2_port_flags where
  lock_enabled : Bool
  fifo_sizes_set : Bool
  periodic_sched_enabled : Bool
  event_pending : Bool
  conn_dev_ena : Bool
  waiting_disable : Bool
  deriving DecidableEq, Repr

/-- The record `dynamic` of the driver data. -/
structure uhc_dwc2_dynamic where
  flags : uhc_dwc2_port_flags
  last_event : uhc_port_event_t
  port_state : uhc_port_state_t
  deriving DecidableEq, Repr

/-- The driver data `struct uhc_dwc2_data_s`; `drv_evt` is the bit set of the
posted driver events. -/
structure uhc_dwc2_data_s where
  drv_evt : Nat
  fifo : uhc_dwc2_fifo_config_t
  const_cfg : uhc_dwc2_constant_config_t
  channels : uhc_dwc2_channels
  dynamic : uhc_dwc2_dynamic
  pipe : pipe_t
  num_pipes_idle : Nat
  num_pipes_queued : Nat
  deriving DecidableEq, Repr

/-- The event types of `enum uhc_event_type` the driver submits. -/
inductive uhc_event_type where
  | UHC_EVT_DEV_CONNECTED_LS
  | UHC_EVT_DEV_CONNECTED_FS
  | UHC_EVT_DEV_CONNECTED_HS
  | UHC_EVT_DEV_REMOVED
  deriving DecidableEq, Repr

/-- A call the driver makes into the upper host stack: `uhc_submit_event` or
`uhc_xfer_return`. -/
inductive uhc_upstream where
  | submit_event (type : uhc_event_type) (status : Int)
  | xfer_return (xfer : uhc_transfer) (status : Int)
  deriving DecidableEq, Repr

/-- The device: the register block `config->base`, the driver data, and the
calls made so far into the upper stack, latest last.  Sleeps are not recorded. -/
structure device where
  base : usb_dwc2_reg
  priv : uhc_dwc2_data_s
  upstream : List uhc_upstream

/-- The register set of channel `i` after applying `f` to it. -/
def chan_regs_update (dwc2 : usb_dwc2_reg) (i : Nat)
    (f : usb_dwc2_host_chan_regs_t → usb_dwc2_host_chan_regs_t) : usb_dwc2_reg :=
  { dwc2 with host_chans := Function.update dwc2.host_chans i (f (dwc2.host_chans i)) }

/-! ## Low-level register helpers (`usb_dwc2_ll.h`) -/

def dwc2_ll_gintsts_clear_intrs (dwc2 : usb_dwc2_reg) (intr_msk : Nat) : usb_dwc2_reg :=
  { dwc2 with gintsts := intr_msk }

/-- Reads GINTSTS (`gintsts` is the value read), writes it back, returns it. -/
def dwc2_ll_gintsts_read_and_clear_intrs (dwc2 : usb_dwc2_reg) (gintsts : Nat) :
    Nat × usb_dwc2_reg :=
  (gintsts, { dwc2 with gintsts := gintsts })

def dwc2_ll_gintmsk_en_intrs (dwc2 : usb_dwc2_reg) (intr_mask : Nat) : usb_dwc2_reg :=
  { dwc2 with gintmsk := dwc2.gintmsk ||| intr_mask }

def dwc2_ll_gintmsk_dis_intrs (dwc2 : usb_dwc2_reg) (intr_mask : Nat) : usb_dwc2_reg :=
  { dwc2 with gintmsk := dwc2.gintmsk &&& NOT32 intr_mask }

def dwc2_ll_haint_get_chan_intrs (haint : Nat) : Nat := haint

def dwc2_ll_haintmsk_dis_chan_intr (dwc2 : usb_dwc2_reg) (mask : Nat) : usb_dwc2_reg :=
  { dwc2 with haintmsk := dwc2.haintmsk &&& NOT32 mask }

def dwc2_ll_haintmsk_en_chan_intr (dwc2 : usb_dwc2_reg) (chan_idx : Nat) : usb_dwc2_reg :=
  { dwc2 with haintmsk := dwc2.haintmsk ||| (1 <<< chan_idx) % 2 ^ 32 }

/-- Reads HPRT (`hprt` is the value read) and writes it back with `intr_mask`
set and the other write-one-to-clear bits cleared. -/
def dwc2_ll_hprt_intr_clear (dwc2 : usb_dwc2_reg) (hprt : Nat) (intr_mask : Nat) :
    usb_dwc2_reg :=
  { dwc2 with hprt := ((hprt &&& NOT32 USB_DWC2_LL_HPRT_ENA_MSK)
                        &&& NOT32 USB_DWC2_LL_HPRT_W1C_MSK) ||| intr_mask }

/-- Reads HPRT (`hprt` is the value read), writes it back without the
port-enable bit, returns the interrupt bits. -/
def dwc2_ll_hprt_intr_read_and_clear (dwc2 : usb_dwc2_reg) (hprt : Nat) :
    Nat × usb_dwc2_reg :=
  (hprt &&& (USB_DWC2_LL_HPRT_W1C_MSK &&& NOT32 USB_DWC2_LL_HPRT_ENA_MSK),
   { dwc2 with hprt := hprt &&& NOT32 USB_DWC2_LL_HPRT_ENA_MSK })

def dwc2_ll_hprt_get_conn_status (hw : usb_dwc2_hw) (hprt : Nat) : Bool :=
  hw.prtconnsts hprt

def dwc2_ll_hprt_get_port_overcur (hw : usb_dwc2_hw) (hprt : Nat) : Bool :=
  hw.prtovrcurract hprt

def dwc2_ll_hprt_get_port_en (hw : usb_dwc2_hw) (hprt : Nat) : Bool :=
  hw.prtena hprt

/-- Reads HPRT (`hprt` is the value read), sets the reset bit-field, writes the
value back with the write-one-to-clear bits cleared. -/
def dwc2_ll_hprt_set_port_reset (hw : usb_dwc2_hw) (dwc2 : usb_dwc2_reg) (hprt : Nat)
    (reset : Bool) : usb_dwc2_reg :=
  { dwc2 with hprt := hw.set_prtrst hprt reset &&& NOT32 USB_DWC2_LL_HPRT_W1C_MSK }

def dwc2_ll_hprt_en_pwr (hw : usb_dwc2_hw) (dwc2 : usb_dwc2_reg) (hprt : Nat) :
    usb_dwc2_reg :=
  { dwc2 with hprt := hw.set_prtpwr hprt true &&& NOT32 USB_DWC2_LL_HPRT_W1C_MSK }

def dwc2_ll_hcchar_en_channel (chan : usb_dwc2_host_chan_regs_t) : usb_dwc2_host_chan_regs_t :=
  { chan with hcchar := { chan.hcchar with chena := true } }

def dwc2_ll_hcchar_dis_channel (chan : usb_dwc2_host_chan_regs_t) : usb_dwc2_host_chan_regs_t :=
  { chan with hcchar := { chan.hcchar with chdis := true } }

def dwc2_ll_hcchar_set_dev_addr (chan : usb_dwc2_host_chan_regs_t) (addr : Nat) :
    usb_dwc2_host_chan_regs_t :=
  { chan with hcchar := { chan.hcchar with devaddr := addr } }

def dwc2_ll_hcchar_set_dir (chan : usb_dwc2_host_chan_regs_t) (is_in : Bool) :
    usb_dwc2_host_chan_regs_t :=
  { chan with hcchar := { chan.hcchar with epdir := is_in } }

def uhc_dwc2_xfer_type_t.toNat : uhc_dwc2_xfer_type_t → Nat
  | .UHC_DWC2_XFER_TYPE_CTRL => 0
  | .UHC_DWC2_XFER_TYPE_ISOCHRONOUS => 1
  | .UHC_DWC2_XFER_TYPE_BULK => 2
  | .UHC_DWC2_XFER_TYPE_INTR => 3

def dwc2_ll_hcchar_init_channel (chan : usb_dwc2_host_chan_regs_t) (dev_addr ep_num mps : Nat)
    (type : uhc_dwc2_xfer_type_t) (is_in is_ls : Bool) : usb_dwc2_host_chan_regs_t :=
  { chan with hcchar :=
      { mps := mps, epnum := ep_num, epdir := is_in, lspddev := is_ls,
        eptype := type.toNat, devaddr := dev_addr, oddfrm := false, chdis := false,
        chena := false } }

/-- Reads HCINT (`hcint` is the value read), writes it back, returns it. -/
def dwc2_ll_hcint_read_and_clear_intrs (chan : usb_dwc2_host_chan_regs_t) (hcint : Nat) :
    Nat × usb_dwc2_host_chan_regs_t :=
  (hcint, { chan with hcint := hcint })

def dwc2_ll_hcintmsk_set_intr_mask (chan : usb_dwc2_host_chan_regs_t) (mask : Nat) :
    usb_dwc2_host_chan_regs_t :=
  { chan with hcintmsk := mask }

def dwc2_ll_hctsiz_init (chan : usb_dwc2_host_chan_regs_t) : usb_dwc2_host_chan_regs_t :=
  { chan with hctsiz :=
      { chan.hctsiz with dopng := false, pid := 0, xfersize := chan.hctsiz.xfersize ||| 0xFF } }

def dwc2_ll_hctsiz_prep_transfer (chan : usb_dwc2_host_chan_regs_t) (pid pkt_cnt size : Nat) :
    usb_dwc2_host_chan_regs_t :=
  { chan with hctsiz := { chan.hctsiz with pid := pid, pktcnt := pkt_cnt, xfersize := size } }

def dwc2_ll_hctsiz_do_ping (chan : usb_dwc2_host_chan_regs_t) (do_ping : Bool) :
    usb_dwc2_host_chan_regs_t :=
  { chan with hctsiz := { chan.hctsiz with dopng := do_ping } }

def dwc2_ll_hcdma_set_buffer_addr (chan : usb_dwc2_host_chan_regs_t) (buffer_addr : Nat) :
    usb_dwc2_host_chan_regs_t :=
  { chan with hcdma := buffer_addr }

/-! ## Interrupt decoder -/

def uhc_dwc2_lock_enable (hw : usb_dwc2_hw) (dev : device) : device :=
  let dwc2 := dwc2_ll_gintmsk_dis_intrs dev.base
    (hw.USB_DWC2_GINTSTS_PRTINT ||| hw.USB_DWC2_GINTSTS_DISCONNINT)
  { dev with
    base := dwc2
    priv := { dev.priv with dynamic := { dev.priv.dynamic with
      flags := { dev.priv.dynamic.flags with lock_enabled := true } } } }

/-- The interrupt decoder.  `gintsts` is the GINTSTS value read, `hprt` the HPRT
value read when the port interrupt is set, `hprt_sts` the HPRT value read by
`dwc2_ll_hprt_get_port_overcur` or `dwc2_ll_hprt_get_port_en`, `haint` the HAINT
value read. -/
def uhc_dwc2_decode_intr (hw : usb_dwc2_hw) (dev : device) (gintsts hprt hprt_sts haint : Nat) :
    uhc_dwc2_core_event_t × device :=
  let core_intrs := (dwc2_ll_gintsts_read_and_clear_intrs dev.base gintsts).1
  let dwc2 := (dwc2_ll_gintsts_read_and_clear_intrs dev.base gintsts).2
  let port_intrs : Nat :=
    if core_intrs &&& hw.USB_DWC2_GINTSTS_PRTINT ≠ 0 then
      (dwc2_ll_hprt_intr_read_and_clear dwc2 hprt).1
    else 0
  let dwc2 :=
    if core_intrs &&& hw.USB_DWC2_GINTSTS_PRTINT ≠ 0 then
      (dwc2_ll_hprt_intr_read_and_clear dwc2 hprt).2
    else dwc2
  let dev := { dev with base := dwc2 }
  let (core_event, dev) :=
    if core_intrs &&& CORE_EVENTS_INTRS_MSK hw ≠ 0 ∨ port_intrs &&& PORT_EVENTS_INTRS_MSK ≠ 0 then
      if core_intrs &&& hw.USB_DWC2_GINTSTS_DISCONNINT ≠ 0 then
        (uhc_dwc2_core_event_t.UHC_DWC2_CORE_EVENT_DISCONN, uhc_dwc2_lock_enable hw dev)
      else if port_intrs &&& USB_DWC2_HPRT_PRTOVRCURRCHNG ≠ 0 then
        if dwc2_ll_hprt_get_port_overcur hw hprt_sts then
          (uhc_dwc2_core_event_t.UHC_DWC2_CORE_EVENT_OVRCUR, dev)
        else
          (uhc_dwc2_core_event_t.UHC_DWC2_CORE_EVENT_OVRCUR_CLR, dev)
      else if port_intrs &&& USB_DWC2_HPRT_PRTENCHNG ≠ 0 then
        if dwc2_ll_hprt_get_port_en hw hprt_sts then
          (uhc_dwc2_core_event_t.UHC_DWC2_CORE_EVENT_ENABLED, dev)
        else
          (uhc_dwc2_core_event_t.UHC_DWC2_CORE_EVENT_DISABLED, dev)
      else if port_intrs &&& USB_DWC2_HPRT_PRTCONNDET ≠ 0 then
        (uhc_dwc2_core_event_t.UHC_DWC2_CORE_EVENT_CONN, uhc_dwc2_lock_enable hw dev)
      else (uhc_dwc2_core_event_t.UHC_DWC2_CORE_EVENT_NONE, dev)
    else (uhc_dwc2_core_event_t.UHC_DWC2_CORE_EVENT_NONE, dev)
  if core_event = uhc_dwc2_core_event_t.UHC_DWC2_CORE_EVENT_NONE
      ∧ core_intrs &&& hw.USB_DWC2_GINTSTS_HCHINT ≠ 0 then
    (uhc_dwc2_core_event_t.UHC_DWC2_CORE_EVENT_CHAN,
     { dev with priv := { dev.priv with channels := { dev.priv.channels with
        pending_intrs_msk := dwc2_ll_haint_get_chan_intrs haint } } })
  else (core_event, dev)

/-- The precedence rule of the interrupt decoder as the specification words it:
port bits count only when the port-interrupt bit of GINTSTS is set, and the
event is the first that applies of disconnect, overcurrent change, enable
change, connect detect, channel interrupt. -/
def decode_intr_precedence (hw : usb_dwc2_hw) (gintsts hprt hprt_sts : Nat) :
    uhc_dwc2_core_event_t :=
  let port := if gintsts &&& hw.USB_DWC2_GINTSTS_PRTINT ≠ 0 then hprt else 0
  if gintsts &&& hw.USB_DWC2_GINTSTS_DISCONNINT ≠ 0 then .UHC_DWC2_CORE_EVENT_DISCONN
  else if port.testBit 5 then
    (if hw.prtovrcurract hprt_sts then .UHC_DWC2_CORE_EVENT_OVRCUR
     else .UHC_DWC2_CORE_EVENT_OVRCUR_CLR)
  else if port.testBit 3 then
    (if hw.prtena hprt_sts then .UHC_DWC2_CORE_EVENT_ENABLED
     else .UHC_DWC2_CORE_EVENT_DISABLED)
  else if port.testBit 1 then .UHC_DWC2_CORE_EVENT_CONN
  else if gintsts &&& hw.USB_DWC2_GINTSTS_HCHINT ≠ 0 then .UHC_DWC2_CORE_EVENT_CHAN
  else .UHC_DWC2_CORE_EVENT_NONE

/-! ## FIFO partitioner -/

/-- Computes the fixed FIFO layout; returns the status code and the layout
written through `fifo`. -/
def uhc_dwc2_config_fixed_dma_fifo (const_cfg : uhc_dwc2_constant_config_t)
    (fifo : uhc_dwc2_fifo_config_t) : Int × uhc_dwc2_fifo_config_t :=
  let fifo := { fifo with top := const_cfg.fifo_depth }
  let fifo := { fifo with top := to_u16 ((fifo.top : Int) - const_cfg.num_channels) }
  let nptx_largest : Nat := EPSIZE_BULK_FS / 4
  let ptx_largest : Nat := 256 / 4
  let fifo := { fifo with nptxfsiz := to_u16 (2 * nptx_largest : Nat) }
  let fifo := { fifo with rxfsiz := to_u16 (2 * (ptx_largest + 2) + const_cfg.num_channels : Nat) }
  let ptxfsiz : Int := (fifo.top : Int) - ((fifo.nptxfsiz : Int) + (fifo.rxfsiz : Int))
  let fifo := { fifo with ptxfsiz := to_u16 ptxfsiz }
  (0, fifo)

/-- Programs the FIFO layout to the hardware; `fifo.top` is consumed on the way. -/
def dwc2_hal_set_fifo_config (hw : usb_dwc2_hw) (dwc2 : usb_dwc2_reg)
    (fifo : uhc_dwc2_fifo_config_t) : usb_dwc2_reg × uhc_dwc2_fifo_config_t :=
  let epinfobase : Nat := fifo.top <<< hw.USB_DWC2_GDFIFOCFG_EPINFOBASEADDR_POS
  let dwc2 := { dwc2 with gdfifocfg := to_u32 ((epinfobase ||| fifo.top : Nat)) }
  let fifo := { fifo with top := to_u16 ((fifo.top : Int) - fifo.rxfsiz) }
  let dwc2 := { dwc2 with grxfsiz := fifo.rxfsiz }
  let fifo := { fifo with top := to_u16 ((fifo.top : Int) - fifo.nptxfsiz) }
  let dwc2 := { dwc2 with gnptxfsiz := to_u32 (((fifo.nptxfsiz <<< 16) ||| fifo.top : Nat)) }
  let fifo := { fifo with top := to_u16 ((fifo.top : Int) - fifo.ptxfsiz) }
  let dwc2 := { dwc2 with hptxfsiz := to_u32 (((fifo.ptxfsiz <<< 16) ||| fifo.top : Nat)) }
  (dwc2, fifo)

/-! ## Channel state machine -/

/-- Decodes the interrupt of one channel; `hcint` is the HCINT value read.
`none` is the failed assertion of the last branch. -/
def uhc_dwc2_hal_chan_decode_intr (dwc2 : usb_dwc2_reg) (chan_obj : uhc_dwc2_channel_t)
    (hcint : Nat) : Option (dwc2_hal_chan_event_t × usb_dwc2_reg × uhc_dwc2_channel_t) :=
  let chan_intrs := (dwc2_ll_hcint_read_and_clear_intrs (dwc2.host_chans chan_obj.regs) hcint).1
  let dwc2 := chan_regs_update dwc2 chan_obj.regs
    (fun r => (dwc2_ll_hcint_read_and_clear_intrs r hcint).2)
  if chan_intrs &&& CHAN_INTRS_ERROR_MSK ≠ 0 then
    some (.DWC2_CHAN_EVENT_ERROR, dwc2, chan_obj)
  else if chan_intrs &&& USB_DWC2_HCINT_CHHLTD ≠ 0 then
    if chan_obj.halt_requested then
      some (.DWC2_CHAN_EVENT_HALT_REQ, dwc2,
            { chan_obj with halt_requested := false, active := false })
    else
      some (.DWC2_CHAN_EVENT_CPLT, dwc2, { chan_obj with active := false })
  else if chan_intrs &&& USB_DWC2_HCINT_XFERCOMPL ≠ 0 then
    some (.DWC2_CHAN_EVENT_NONE,
          chan_regs_update dwc2 chan_obj.regs dwc2_ll_hcchar_dis_channel, chan_obj)
  else none

/-- The channel decode as the specification words it, on the interrupt value and
the two status flags: the event, the flags `(active, halt_requested)` after the
call, and whether channel disable was requested.  `none` is the fatal
assertion. -/
def chan_decode_reference (v : Nat) (active halt_requested : Bool) :
    Option (dwc2_hal_chan_event_t × Bool × Bool × Bool) :=
  if v.testBit 3 ∨ v.testBit 8 ∨ v.testBit 7 then
    some (.DWC2_CHAN_EVENT_ERROR, active, halt_requested, false)
  else if v.testBit 1 then
    if halt_requested then some (.DWC2_CHAN_EVENT_HALT_REQ, false, false, false)
    else some (.DWC2_CHAN_EVENT_CPLT, false, halt_requested, false)
  else if v.testBit 0 then
    some (.DWC2_CHAN_EVENT_NONE, active, halt_requested, true)
  else none

/-! ## Transfer staging engine -/

/-- Zephyr library routine `net_buf_tail`: the address after the data. -/
def net_buf_tail (buf : net_buf) : Nat := buf.data + buf.len

/-- Zephyr library routine `net_buf_headroom`: the bytes of the storage in front
of the data. -/
def net_buf_headroom (buf : net_buf) : Nat := buf.data - buf.__buf

/-- Zephyr library routine `net_buf_tailroom`: the bytes of the storage behind
the data.  The differences are taken as they are for a buffer whose data lies
inside its storage (`__buf ≤ data`, headroom plus length at most `size`), where
the `size_t` arithmetic of the routine does not wrap. -/
def net_buf_tailroom (buf : net_buf) : Nat := buf.size - net_buf_headroom buf - buf.len

/-- Zephyr library routine `net_buf_add`: extends the data by `len` bytes.
`none` is the failed assertion `net_buf_simple_tailroom(buf) >= len` of the
routine. -/
def net_buf_add (buf : net_buf) (len : Nat) : Option net_buf :=
  if net_buf_tailroom buf < len then none
  else some { buf with len := to_u16 ((buf.len + len : Nat)) }

/-- Modelled from the spec: `usb_reqtype_is_to_host` of `usb_ch9.h`, which is not
part of the sources; the direction of the data stage is the direction bit
(bit 7) of the request-type byte. -/
def usb_reqtype_is_to_host (setup_pkt : usb_setup_packet) : Bool :=
  setup_pkt.bmRequestType.testBit 7

def _buffer_check_done (pipe : pipe_t) : Bool :=
  if pipe.ep_char.type ≠ .UHC_DWC2_XFER_TYPE_CTRL then true
  else pipe.buffer.ctrl.cur_stg == 2

/-- Programs the next stage of the control transfer on the channel of the pipe.
`none` is the read of `xfer->buf->size` through a NULL `buf`, or the failed
assertion of `net_buf_add` when the buffer has no room for the stage. -/
def _buffer_exec (dwc2 : usb_dwc2_reg) (pipe : pipe_t) : Option (usb_dwc2_reg × pipe_t) :=
  let buffer := pipe.buffer
  let xfer := buffer.xfer
  let pkt_cnt : Nat := 1
  let staged : Option (Bool × Nat × Nat × Nat) :=
    if buffer.ctrl.cur_stg = 0 then
      if buffer.ctrl.data_stg_skip then
        some (true, CTRL_STAGE_DATA1, 2, 0)
      else
        match xfer.buf with
        | none => none
        | some b => some (buffer.ctrl.data_stg_in, CTRL_STAGE_DATA1, 1, b.size)
    else
      some (!buffer.ctrl.data_stg_in, CTRL_STAGE_DATA1, 2, 0)
  match staged with
  | none => none
  | some (next_dir_is_in, next_pid, cur_stg, size) =>
    let dma_addr : Nat := match xfer.buf with
      | some b => net_buf_tail b
      | none => 0
    let added : Option (Option net_buf) := match xfer.buf with
      | some b => (net_buf_add b size).map some
      | none => some none
    match added with
    | none => none
    | some buf =>
      let xfer := { xfer with buf := buf }
      let pipe := { pipe with buffer := { buffer with
        xfer := xfer, ctrl := { buffer.ctrl with cur_stg := cur_stg } } }
      let dwc2 := chan_regs_update dwc2 pipe.chan_obj.regs (fun r =>
        dwc2_ll_hcchar_en_channel
          (dwc2_ll_hcdma_set_buffer_addr
            (dwc2_ll_hctsiz_do_ping
              (dwc2_ll_hctsiz_prep_transfer (dwc2_ll_hcchar_set_dir r next_dir_is_in)
                next_pid pkt_cnt size)
              false)
            dma_addr))
      some (dwc2, pipe)

/-- Decodes the interrupt of the channel of `pipe` (`chan_obj` is
`pipe->chan_obj`, the channel whose owner context the pipe is); `hcint` is the
HCINT value read. -/
def uhc_dwc2_decode_chan (dwc2 : usb_dwc2_reg) (pipe : pipe_t) (hcint : Nat) :
    Option (pipe_event_t × usb_dwc2_reg × pipe_t) :=
  match uhc_dwc2_hal_chan_decode_intr dwc2 pipe.chan_obj hcint with
  | none => none
  | some (chan_event, dwc2, chan_obj) =>
    let pipe := { pipe with chan_obj := chan_obj }
    match chan_event with
    | .DWC2_CHAN_EVENT_CPLT =>
      if !_buffer_check_done pipe then
        match _buffer_exec dwc2 pipe with
        | none => none
        | some (dwc2, pipe) => some (.PIPE_EVENT_NONE, dwc2, pipe)
      else
        some (.PIPE_EVENT_URB_DONE, dwc2, { pipe with last_event := .PIPE_EVENT_URB_DONE })
    | .DWC2_CHAN_EVENT_ERROR => some (.PIPE_EVENT_NONE, dwc2, pipe)
    | .DWC2_CHAN_EVENT_HALT_REQ =>
      some (.PIPE_EVENT_NONE, dwc2, { pipe with state := .UHC_PIPE_STATE_HALTED })
    | .DWC2_CHAN_EVENT_NONE => some (.PIPE_EVENT_NONE, dwc2, pipe)

/-- The packet count of a payload; `none` is the division by a zero `mps`. -/
def calc_packet_count (size mps : Nat) : Option Nat :=
  let size := size % 65536
  let mps := mps % 256
  if size = 0 then some 1
  else if mps = 0 then none
  else some (to_u16 (((size + mps - 1) / mps : Nat)))

/-- Submits a control transfer on the control pipe of the device (`pipe_hdl` is
`priv->ctrl_pipe_hdl`); `hcint` is the HCINT value read when the stale channel
interrupts are cleared. -/
def uhc_dwc2_submit_ctrl_xfer (dev : device) (xfer : uhc_transfer) (hcint : Nat) :
    Option (Int × device) :=
  let setup_pkt := xfer.setup_pkt
  let pipe := dev.priv.pipe
  let ctrl : dma_buffer_ctrl_flags :=
    { pipe.buffer.ctrl with
      cur_stg := 0
      data_stg_in := usb_reqtype_is_to_host setup_pkt
      data_stg_skip := decide (setup_pkt.wLength = 0)
      set_addr := false }
  let ctrl : dma_buffer_ctrl_flags :=
    if setup_pkt.bRequest = USB_SREQ_SET_ADDRESS then
      { ctrl with set_addr := true, new_addr := setup_pkt.wValue &&& 0x7F }
    else ctrl
  let pipe := { pipe with
    buffer := { pipe.buffer with xfer := xfer, ctrl := ctrl }
    num_urb_pending := pipe.num_urb_pending + 1 }
  let ep_num : Nat := (xfer.ep &&& NOT32 0x80) % 256
  let ep_dir : Nat := if ep_num &&& 0x80 ≠ 0 then 1 else 0
  let dwc2 :=
    if ep_num = 0 then
      chan_regs_update dev.base pipe.chan_obj.regs (fun r => dwc2_ll_hcchar_set_dir r (ep_dir ≠ 0))
    else dev.base
  let is_period : Bool := decide (xfer.interval ≠ 0)
  if is_period then
    some (-ENOTSUP, { dev with base := dwc2, priv := { dev.priv with pipe := pipe } })
  else
    match calc_packet_count 8 pipe.ep_char.mps with
    | none => none
    | some pkt_count =>
      let dwc2 := chan_regs_update dwc2 pipe.chan_obj.regs (fun r =>
        dwc2_ll_hcdma_set_buffer_addr
          (dwc2_ll_hcint_read_and_clear_intrs
            (dwc2_ll_hctsiz_do_ping
              (dwc2_ll_hctsiz_prep_transfer r CTRL_STAGE_SETUP pkt_count 8) false) hcint).2
          xfer.setup_pkt_addr)
      let dwc2 :=
        if ep_dir = 1 then dwc2
        else chan_regs_update dwc2 pipe.chan_obj.regs dwc2_ll_hcchar_en_channel
      let priv := { dev.priv with pipe := pipe }
      let priv :=
        if !pipe.flags.has_urb then
          { priv with
            num_pipes_idle := to_u8 ((priv.num_pipes_idle : Int) - 1)
            num_pipes_queued := to_u8 ((priv.num_pipes_queued : Int) + 1)
            pipe := { pipe with flags := { pipe.flags with has_urb := true } } }
        else priv
      some (0, { dev with base := dwc2, priv := priv })

/-- Handles the pending event of the control pipe in thread context.  The
settle delay after an address change is a sleep without effect on the state. -/
def uhc_dwc2_handle_pipe_events (dev : device) : device :=
  let pipe := dev.priv.pipe
  match pipe.last_event with
  | .PIPE_EVENT_URB_DONE =>
    let xfer := pipe.buffer.xfer
    let (dwc2, pipe) :=
      if pipe.buffer.ctrl.set_addr then
        let pipe := { pipe with
          buffer := { pipe.buffer with ctrl := { pipe.buffer.ctrl with set_addr := false } }
          ep_char := { pipe.ep_char with dev_addr := pipe.buffer.ctrl.new_addr } }
        (chan_regs_update dev.base pipe.chan_obj.regs
           (fun r => dwc2_ll_hcchar_set_dev_addr r pipe.ep_char.dev_addr), pipe)
      else (dev.base, pipe)
    let pipe := { pipe with
      num_urb_pending := pipe.num_urb_pending - 1
      flags := { pipe.flags with has_urb := false } }
    { dev with
      base := dwc2
      priv := { dev.priv with
        pipe := pipe
        num_pipes_idle := to_u8 ((dev.priv.num_pipes_idle : Int) + 1)
        num_pipes_queued := to_u8 ((dev.priv.num_pipes_queued : Int) - 1) }
      upstream := dev.upstream ++ [uhc_upstream.xfer_return xfer 0] }
  | _ => dev

/-! ## Channel allocator -/

/-- The scan of `uhc_dwc2_chan_alloc` for the first NULL slot, from index `i`
with `fuel` iterations left.  `none` is a read beyond the table, `some none` the
end of the loop without a free slot. -/
def chan_alloc_scan (hdls : List (Option Nat)) (num_channels : Nat) :
    Nat → Nat → Option (Option Nat)
  | _, 0 => some none
  | i, fuel + 1 =>
    if i < num_channels then
      match hdls[i]? with
      | none => none
      | some none => some (some i)
      | some (some _) => chan_alloc_scan hdls num_channels (i + 1) fuel
    else some none

/-- Allocates a channel: `chan_ptr` is the address of the caller's channel
object `chan_obj`, `context` its owner pointer, `hcint` the HCINT value read
when the channel interrupts are cleared.  `none` is a failed assertion (no
table, no free slot although the count says so). -/
def uhc_dwc2_chan_alloc (dev : device) (chan_ptr : Nat) (chan_obj : uhc_dwc2_channel_t)
    (context : Nat) (hcint : Nat) : Option (Bool × device × uhc_dwc2_channel_t) :=
  match dev.priv.channels.hdls with
  | none => none
  | some hdls =>
    if dev.priv.channels.num_allocated = dev.priv.const_cfg.num_channels then
      some (false, dev, chan_obj)
    else
      match chan_alloc_scan hdls dev.priv.const_cfg.num_channels 0
              dev.priv.const_cfg.num_channels with
      | none => none
      | some none => none
      | some (some chan_idx) =>
        let channels := { dev.priv.channels with
          hdls := some (hdls.set chan_idx (some chan_ptr))
          num_allocated := dev.priv.channels.num_allocated + 1 }
        let chan_obj : uhc_dwc2_channel_t :=
          { active := false, halt_requested := false, chan_idx := chan_idx % 16,
            regs := chan_idx % 256, type := .UHC_DWC2_XFER_TYPE_CTRL, chan_ctx := context }
        let dwc2 := chan_regs_update dev.base chan_obj.regs
          (fun r => (dwc2_ll_hcint_read_and_clear_intrs r hcint).2)
        let dwc2 := dwc2_ll_haintmsk_en_chan_intr dwc2 chan_idx
        let dwc2 := chan_regs_update dwc2 chan_obj.regs (fun r =>
          dwc2_ll_hctsiz_init (dwc2_ll_hcintmsk_set_intr_mask r CHAN_INTRS_EN_MSK))
        some (true, { dev with base := dwc2, priv := { dev.priv with channels := channels } },
              chan_obj)

/-- The number of occupied slots of a channel table. -/
def occupied_slots (hdls : List (Option Nat)) : Nat := hdls.countP Option.isSome

/-- A sequence of allocation calls, each with the address of its channel object,
the object, the owner context and the HCINT value read.  Returns the device
after the calls and, per call, the channel object when the call succeeded. -/
def chan_alloc_calls (dev : device) :
    List (Nat × uhc_dwc2_channel_t × Nat × Nat) → Option (device × List (Option uhc_dwc2_channel_t))
  | [] => some (dev, [])
  | (chan_ptr, chan_obj, context, hcint) :: calls =>
    match uhc_dwc2_chan_alloc dev chan_ptr chan_obj context hcint with
    | none => none
    | some (ok, dev, chan_obj) =>
      match chan_alloc_calls dev calls with
      | none => none
      | some (dev, objs) => some (dev, (if ok then some chan_obj else none) :: objs)

/-! ## Port reset -/

def uhc_dwc2_flush_pipes (dev : device) : device := dev

/-- The port reset up to the end of the reset-hold wait: `hprt` is the HPRT value
read when the reset signal is asserted, `hold` what the interrupt context does
to the device while the thread sleeps. -/
def port_reset_after_hold (hw : usb_dwc2_hw) (dev : device) (hprt : Nat)
    (hold : device → device) : device :=
  let dev := { dev with priv := { dev.priv with dynamic := { dev.priv.dynamic with
    port_state := .UHC_PORT_STATE_RESETTING } } }
  let dev := { dev with base := dwc2_ll_hprt_set_port_reset hw dev.base hprt true }
  hold dev

/-- The port reset from the release of the reset signal to the end of the
reset-recovery wait. -/
def port_reset_after_recovery (hw : usb_dwc2_hw) (dev : device) (hprt : Nat)
    (recovery : device → device) : device :=
  let dev := { dev with base := dwc2_ll_hprt_set_port_reset hw dev.base hprt false }
  recovery dev

/-- Resets the port.  `hprt1`, `hprt2` are the HPRT values read when the reset
signal is asserted and released; `hold` and `recovery` are what the interrupt
context does to the device during the two sleeps. -/
def uhc_dwc2_port_reset (hw : usb_dwc2_hw) (dev : device) (hprt1 hprt2 : Nat)
    (hold recovery : device → device) : Int × device :=
  let dev := port_reset_after_hold hw dev hprt1 hold
  if dev.priv.dynamic.port_state ≠ .UHC_PORT_STATE_RESETTING then
    (- EIO, uhc_dwc2_flush_pipes dev)
  else
    let dev := port_reset_after_recovery hw dev hprt2 recovery
    if dev.priv.dynamic.port_state ≠ .UHC_PORT_STATE_RESETTING
        ∨ !dev.priv.dynamic.flags.conn_dev_ena then
      (- EIO, uhc_dwc2_flush_pipes dev)
    else
      let (dwc2, fifo) := dwc2_hal_set_fifo_config hw dev.base dev.priv.fifo
      let dev := { dev with base := dwc2, priv := { dev.priv with fifo := fifo } }
      (0, uhc_dwc2_flush_pipes dev)

/-! ## Core and port register helpers (`usb_dwc2_ll.h`) -/

def dwc2_ll_gahbcfg_en_dma (dwc2 : usb_dwc2_reg) : usb_dwc2_reg :=
  { dwc2 with gahbcfg := { dwc2.gahbcfg with dmaen := true } }

def dwc2_ll_gahbcfg_en_global_intrs (dwc2 : usb_dwc2_reg) : usb_dwc2_reg :=
  { dwc2 with gahbcfg := { dwc2.gahbcfg with glbllntrmsk := true } }

def dwc2_ll_gahbcfg_dis_global_intrs (dwc2 : usb_dwc2_reg) : usb_dwc2_reg :=
  { dwc2 with gahbcfg := { dwc2.gahbcfg with glbllntrmsk := false } }

def dwc2_ll_gusbcfg_en_host_mode (dwc2 : usb_dwc2_reg) : usb_dwc2_reg :=
  { dwc2 with gusbcfg := { dwc2.gusbcfg with forcehstmode := true } }

def dwc2_ll_grstctl_core_soft_reset (dwc2 : usb_dwc2_reg) : usb_dwc2_reg :=
  { dwc2 with grstctl := { dwc2.grstctl with csftrst := true } }

/-- A wait loop without bound, `while (busy) {}`: `busy k` is the outcome of
poll `k`.  The result is whether the loop ends within `fuel` polls. -/
def spin_while (busy : Nat → Bool) : Nat → Nat → Bool
  | 0, _ => false
  | fuel + 1, k => if busy k then spin_while busy fuel (k + 1) else true

/-- Sets the RX FIFO flush bit and waits for the hardware to clear it; `polls k`
is the GRSTCTL value of poll `k`.  `none` is a loop that does not end within
`fuel` polls. -/
def dwc2_ll_grstctl_flush_rx_fifo (hw : usb_dwc2_hw) (dwc2 : usb_dwc2_reg)
    (polls : Nat → Nat) (fuel : Nat) : Option usb_dwc2_reg :=
  let dwc2 := { dwc2 with grstctl := { dwc2.grstctl with rxfflsh := true } }
  if spin_while (fun k => decide (polls k &&& hw.USB_DWC2_GRSTCTL_RXFFLSH ≠ 0)) fuel 0 then
    some dwc2
  else none

/-- Sets the TX FIFO flush bit and the FIFO number in a register value whose
other fields are not initialised (`uninit`), writes it, and waits for the
hardware to clear the flush bit. -/
def dwc2_ll_grstctl_flush_tx_fifo (hw : usb_dwc2_hw) (dwc2 : usb_dwc2_reg)
    (uninit : usb_dwc2_grstctl_reg_t) (fnum : Nat) (polls : Nat → Nat) (fuel : Nat) :
    Option usb_dwc2_reg :=
  let dwc2 := { dwc2 with grstctl := { uninit with txfflsh := true, txfnum := fnum } }
  if spin_while (fun k => decide (polls k &&& hw.USB_DWC2_GRSTCTL_TXFFLSH ≠ 0)) fuel 0 then
    some dwc2
  else none

def dwc2_ll_hcfg_en_buffer_dma (dwc2 : usb_dwc2_reg) : usb_dwc2_reg :=
  { dwc2 with hcfg := { dwc2.hcfg with descdma := false } }

def dwc2_ll_hcfg_dis_perio_sched (dwc2 : usb_dwc2_reg) : usb_dwc2_reg :=
  { dwc2 with hcfg := { dwc2.hcfg with perschedena := false } }

def dwc2_ll_hcfg_set_fsls_phy_clock (dwc2 : usb_dwc2_reg) (speed : Nat) : usb_dwc2_reg :=
  { dwc2 with hcfg := { dwc2.hcfg with
      fslspclksel := if speed = UHC_DWC2_SPEED_FULL then 1 else 2 } }

def dwc2_ll_hfir_set_frame_interval (dwc2 : usb_dwc2_reg) (speed : Nat) : usb_dwc2_reg :=
  { dwc2 with hfir := { dwc2.hfir with
      hfirrldctrl := false
      frint := if speed = UHC_DWC2_SPEED_FULL then 48000 else 6000 } }

def dwc2_ll_hprt_get_port_speed (hw : usb_dwc2_hw) (hprt : Nat) : Nat :=
  hw.prtspd hprt

/-! ## Port power, debounce lock and core reset -/

def CORE_INTRS_EN_MSK (hw : usb_dwc2_hw) : Nat := hw.USB_DWC2_GINTSTS_DISCONNINT

def dwc2_hal_port_init (hw : usb_dwc2_hw) (dwc2 : usb_dwc2_reg) : usb_dwc2_reg :=
  dwc2_ll_gintmsk_en_intrs (dwc2_ll_haintmsk_dis_chan_intr dwc2 0xFFFFFFFF)
    (hw.USB_DWC2_GINTSTS_PRTINT ||| hw.USB_DWC2_GINTSTS_HCHINT)

def dwc2_ll_hprt_dis_pwr (hw : usb_dwc2_hw) (dwc2 : usb_dwc2_reg) (hprt : Nat) :
    usb_dwc2_reg :=
  { dwc2 with hprt := hw.set_prtpwr hprt false &&& NOT32 USB_DWC2_LL_HPRT_W1C_MSK }

/-- Switches the port power; `hprt` is the HPRT value read. -/
def dwc2_hal_toggle_power (hw : usb_dwc2_hw) (dwc2 : usb_dwc2_reg) (hprt : Nat)
    (power_on : Bool) : Int × usb_dwc2_reg :=
  if power_on then (0, dwc2_ll_hprt_en_pwr hw dwc2 hprt)
  else (0, dwc2_ll_hprt_dis_pwr hw dwc2 hprt)

/-- Releases the debounce lock; `hprt` is the HPRT value read when the connect
interrupt is cleared. -/
def uhc_dwc2_lock_disable (hw : usb_dwc2_hw) (dev : device) (hprt : Nat) : device :=
  let dev := { dev with priv := { dev.priv with dynamic := { dev.priv.dynamic with
    flags := { dev.priv.dynamic.flags with lock_enabled := true } } } }
  let dwc2 := dwc2_ll_gintsts_clear_intrs dev.base hw.USB_DWC2_GINTSTS_DISCONNINT
  let dwc2 := dwc2_ll_hprt_intr_clear dwc2 hprt USB_DWC2_HPRT_PRTCONNDET
  let dwc2 := dwc2_ll_gintmsk_en_intrs dwc2
    (hw.USB_DWC2_GINTSTS_PRTINT ||| hw.USB_DWC2_GINTSTS_DISCONNINT)
  { dev with base := dwc2 }

/-- Powers the port on; `hprt` is the HPRT value read when the power bit is
set. -/
def uhc_dwc2_power_on (hw : usb_dwc2_hw) (dev : device) (hprt : Nat) : Int × device :=
  if dev.priv.dynamic.port_state = .UHC_PORT_STATE_NOT_POWERED then
    let dev := { dev with priv := { dev.priv with dynamic := { dev.priv.dynamic with
      port_state := .UHC_PORT_STATE_DISCONNECTED } } }
    let dwc2 := dwc2_hal_port_init hw dev.base
    let dwc2 := (dwc2_hal_toggle_power hw dwc2 hprt true).2
    (0, { dev with base := dwc2 })
  else
    (- EINVAL, dev)

/-- What the hardware presents during a core soft reset: the polls of the
soft-reset and AHB-idle bits, the GINTSTS value read when the pending interrupts
are cleared, the GINTSTS polls of the current-mode wait, the GRSTCTL polls of
the two FIFO flushes, the content of the uninitialised register value of the TX
flush, and the number of polls followed in the loops without bound. -/
structure core_reset_reads where
  csftrst : Nat → Bool
  ahbidle : Nat → Bool
  gintsts : Nat
  curmod_polls : Nat → Nat
  txfflsh_polls : Nat → Nat
  rxfflsh_polls : Nat → Nat
  grstctl_uninit : usb_dwc2_grstctl_reg_t
  fuel : Nat

def uhc_dwc2_config_controller (hw : usb_dwc2_hw) (dev : device) (rd : core_reset_reads) :
    Option (Int × device) :=
  let dwc2 := dwc2_ll_gahbcfg_dis_global_intrs dev.base
  let dwc2 := if dev.priv.const_cfg.dma then dwc2_ll_gahbcfg_en_dma dwc2 else dwc2
  let dwc2 := dwc2_ll_gintmsk_dis_intrs dwc2 0xFFFFFFFF
  let dwc2 := dwc2_ll_gintmsk_en_intrs dwc2 (CORE_INTRS_EN_MSK hw)
  let dwc2 := (dwc2_ll_gintsts_read_and_clear_intrs dwc2 rd.gintsts).2
  let dwc2 := dwc2_ll_gahbcfg_en_global_intrs dwc2
  let dwc2 := dwc2_ll_gusbcfg_en_host_mode dwc2
  if spin_while (fun k => decide (rd.curmod_polls k &&& hw.USB_DWC2_GINTSTS_CURMOD ≠ 1))
      rd.fuel 0 then
    match dwc2_ll_grstctl_flush_tx_fifo hw dwc2 rd.grstctl_uninit 0x10 rd.txfflsh_polls
        rd.fuel with
    | none => none
    | some dwc2 =>
      match dwc2_ll_grstctl_flush_rx_fifo hw dwc2 rd.rxfflsh_polls rd.fuel with
      | none => none
      | some dwc2 => some (0, { dev with base := dwc2 })
  else none

def csr_timeout_us : Nat := 10000

/-- A wait loop of the core soft reset,
`while (busy) { k_busy_wait(1); if (++cnt > csr_timeout_us) return -EIO; }`:
`busy cnt` is the outcome of the poll made with the counter at `cnt`.  The
result is whether the loop ends without timeout. -/
def csr_wait (busy : Nat → Bool) : Nat → Nat → Bool
  | 0, _ => false
  | fuel + 1, cnt =>
    if busy cnt then
      if cnt + 1 > csr_timeout_us then false else csr_wait busy fuel (cnt + 1)
    else true

def uhc_dwc2_core_soft_reset (hw : usb_dwc2_hw) (dev : device) (rd : core_reset_reads) :
    Option (Int × device) :=
  let dev := { dev with base := dwc2_ll_grstctl_core_soft_reset dev.base }
  if !csr_wait rd.csftrst (csr_timeout_us + 1) 0 then some (- EIO, dev)
  else if !csr_wait (fun k => !rd.ahbidle k) (csr_timeout_us + 1) 0 then some (- EIO, dev)
  else
    match uhc_dwc2_config_controller hw dev rd with
    | none => none
    | some (ret, dev) => if ret ≠ 0 then some (ret, dev) else some (0, dev)

/-! ## Port event decode and interrupt handler -/

/-- Completes the host port set-up after the port was enabled; `hprt` is the
HPRT value read for the port speed. -/
def dwc2_ll_port_enable (hw : usb_dwc2_hw) (dwc2 : usb_dwc2_reg) (hprt : Nat) : usb_dwc2_reg :=
  let dwc2 := dwc2_ll_hcfg_en_buffer_dma dwc2
  let dwc2 := dwc2_ll_hcfg_dis_perio_sched dwc2
  let speed := dwc2_ll_hprt_get_port_speed hw hprt
  let dwc2 := dwc2_ll_hcfg_set_fsls_phy_clock dwc2 speed
  dwc2_ll_hfir_set_frame_interval dwc2 speed

/-- Turns a core event into a port event in interrupt context; `hprt` is the
HPRT value read for the port speed when the port was enabled. -/
def uhc_dwc2_decode_hprt (hw : usb_dwc2_hw) (dev : device) (core_event : uhc_dwc2_core_event_t)
    (hprt : Nat) : uhc_port_event_t × device :=
  match core_event with
  | .UHC_DWC2_CORE_EVENT_CONN => (.UHC_PORT_EVENT_CONNECTION, dev)
  | .UHC_DWC2_CORE_EVENT_DISCONN =>
    (.UHC_PORT_EVENT_DISCONNECTION,
     { dev with priv := { dev.priv with dynamic := { dev.priv.dynamic with
        flags := { dev.priv.dynamic.flags with conn_dev_ena := false } } } })
  | .UHC_DWC2_CORE_EVENT_ENABLED =>
    (.UHC_PORT_EVENT_ENABLED,
     { dev with
       base := dwc2_ll_port_enable hw dev.base hprt
       priv := { dev.priv with dynamic := { dev.priv.dynamic with
        flags := { dev.priv.dynamic.flags with conn_dev_ena := true } } } })
  | .UHC_DWC2_CORE_EVENT_DISABLED =>
    let dev := { dev with priv := { dev.priv with dynamic := { dev.priv.dynamic with
      flags := { dev.priv.dynamic.flags with conn_dev_ena := false } } } }
    if dev.priv.dynamic.port_state ≠ .UHC_PORT_STATE_RESETTING then
      if dev.priv.dynamic.flags.waiting_disable then
        (.UHC_PORT_EVENT_NONE,
         { dev with priv := { dev.priv with dynamic := { dev.priv.dynamic with
            port_state := .UHC_PORT_STATE_DISABLED
            flags := { dev.priv.dynamic.flags with waiting_disable := false } } } })
      else
        (.UHC_PORT_EVENT_ERROR,
         { dev with priv := { dev.priv with dynamic := { dev.priv.dynamic with
            port_state := .UHC_PORT_STATE_RECOVERY } } })
    else (.UHC_PORT_EVENT_NONE, dev)
  | .UHC_DWC2_CORE_EVENT_OVRCUR => (.UHC_PORT_EVENT_NONE, dev)
  | .UHC_DWC2_CORE_EVENT_OVRCUR_CLR => (.UHC_PORT_EVENT_NONE, dev)
  | _ => (.UHC_PORT_EVENT_NONE, dev)

/-- The search of `__builtin_ffs` from bit `i` with `fuel` bits left. -/
def ffs_from (x : Nat) : Nat → Nat → Nat
  | _, 0 => 0
  | i, fuel + 1 => if x.testBit i then i + 1 else ffs_from x (i + 1) fuel

/-- The compiler builtin `__builtin_ffs` on a 32-bit value: one plus the index
of the least significant set bit, 0 when no bit is set. -/
def builtin_ffs (x : Nat) : Nat := ffs_from x 0 32

/-- Takes the lowest pending channel: returns the handle in its slot (`none` is
NULL) and clears its pending bit.  The outer `none` is a read beyond the
table. -/
def uhc_dwc2_get_chan_pending_intr (dev : device) : Option (Option Nat × device) :=
  match dev.priv.channels.hdls with
  | none => some (none, dev)
  | some hdls =>
    let chan_num := builtin_ffs dev.priv.channels.pending_intrs_msk
    if chan_num ≠ 0 then
      let dev := { dev with priv := { dev.priv with channels := { dev.priv.channels with
        pending_intrs_msk :=
          dev.priv.channels.pending_intrs_msk &&& NOT32 (1 <<< (chan_num - 1)) } } }
      match hdls[chan_num - 1]? with
      | none => none
      | some hdl => some (hdl, dev)
    else some (none, dev)

/-- The channel loop of the interrupt handler, entered with the handle
`chan_obj` just taken, with `fuel` iterations left.  The channel objects the
embedding holds are those of the control pipe: a handle equal to
`pipe.chan_obj_ptr` is the channel of the control pipe, whose owner context is
that pipe; any other handle is outside the embedded memory (`none`).  `hcint r`
is the HCINT value read from register set `r`. -/
def isr_chan_loop (hcint : Nat → Nat) : Nat → Option Nat → device → Option device
  | _, none, dev => some dev
  | 0, some _, _ => none
  | fuel + 1, some hdl, dev =>
    if hdl = dev.priv.pipe.chan_obj_ptr then
      match uhc_dwc2_decode_chan dev.base dev.priv.pipe (hcint dev.priv.pipe.chan_obj.regs) with
      | none => none
      | some (pipe_event, dwc2, pipe) =>
        let dev := { dev with base := dwc2, priv := { dev.priv with pipe := pipe } }
        let dev :=
          if pipe_event ≠ .PIPE_EVENT_NONE then
            { dev with priv := { dev.priv with
                pipe := { dev.priv.pipe with
                  last_event := pipe_event
                  flags := { dev.priv.pipe.flags with event_pending := true } }
                drv_evt := dev.priv.drv_evt ||| BIT UHC_DWC2_EVENT_PIPE } }
          else dev
        match uhc_dwc2_get_chan_pending_intr dev with
        | none => none
        | some (next, dev) => isr_chan_loop hcint fuel next dev
    else none

/-- The interrupt handler.  `gintsts`, `hprt`, `hprt_sts`, `haint` are the values
read by the interrupt decoder, `hprt_spd` the HPRT value read for the port speed,
`hcint r` the HCINT value read from register set `r`.  The vendor hook that
clears the interrupt has no effect on the embedded state. -/
def uhc_dwc2_isr_handler (hw : usb_dwc2_hw) (dev : device)
    (gintsts hprt hprt_sts haint hprt_spd : Nat) (hcint : Nat → Nat) : Option device :=
  let core_event := (uhc_dwc2_decode_intr hw dev gintsts hprt hprt_sts haint).1
  let dev := (uhc_dwc2_decode_intr hw dev gintsts hprt hprt_sts haint).2
  if core_event = .UHC_DWC2_CORE_EVENT_CHAN then
    match uhc_dwc2_get_chan_pending_intr dev with
    | none => none
    | some (chan_obj, dev) => isr_chan_loop hcint 33 chan_obj dev
  else if core_event ≠ .UHC_DWC2_CORE_EVENT_NONE then
    let port_event := (uhc_dwc2_decode_hprt hw dev core_event hprt_spd).1
    let dev := (uhc_dwc2_decode_hprt hw dev core_event hprt_spd).2
    if port_event ≠ .UHC_PORT_EVENT_NONE then
      some { dev with priv := { dev.priv with
        dynamic := { dev.priv.dynamic with
          last_event := port_event
          flags := { dev.priv.dynamic.flags with event_pending := true } }
        drv_evt := dev.priv.drv_evt ||| BIT UHC_DWC2_EVENT_PORT } }
    else some dev
  else some dev

/-! ## Port state machine in thread context -/

/-- Samples the connection after the debounce delay: `settle` is what the
interrupt context does to the device during the sleep, `hprt` the HPRT value
read for the connection status, `lock_hprt` the HPRT value read when the lock is
released. -/
def uhc_dwc2_port_debounce (hw : usb_dwc2_hw) (dev : device) (settle : device → device)
    (hprt lock_hprt : Nat) : Bool × device :=
  let dev := settle dev
  let is_connected := dwc2_ll_hprt_get_conn_status hw hprt
  let dev := { dev with priv := { dev.priv with dynamic := { dev.priv.dynamic with
    port_state := if is_connected then .UHC_PORT_STATE_DISABLED
                  else .UHC_PORT_STATE_DISCONNECTED } } }
  (is_connected, uhc_dwc2_lock_disable hw dev lock_hprt)

def uhc_dwc2_get_port_event (hw : usb_dwc2_hw) (dev : device) (settle : device → device)
    (hprt lock_hprt : Nat) : uhc_port_event_t × device :=
  if dev.priv.dynamic.flags.event_pending then
    let dev := { dev with priv := { dev.priv with dynamic := { dev.priv.dynamic with
      flags := { dev.priv.dynamic.flags with event_pending := false } } } }
    let ret := dev.priv.dynamic.last_event
    match ret with
    | .UHC_PORT_EVENT_CONNECTION =>
      let connected := (uhc_dwc2_port_debounce hw dev settle hprt lock_hprt).1
      let dev := (uhc_dwc2_port_debounce hw dev settle hprt lock_hprt).2
      (if connected then .UHC_PORT_EVENT_CONNECTION else ret, dev)
    | _ => (ret, dev)
  else (.UHC_PORT_EVENT_NONE, dev)

/-- What the vendor hooks return and the hardware presents during a port
recovery: the status of the hooks that disable and enable the interrupt, the
reads of the core soft reset, and the HPRT value read at power-on. -/
structure recovery_reads where
  quirk_irq_disable : Int
  quirk_irq_enable : Int
  reset : core_reset_reads
  power_hprt : Nat

def uhc_dwc2_port_recovery (hw : usb_dwc2_hw) (dev : device) (rd : recovery_reads) :
    Option (Int × device) :=
  if rd.quirk_irq_disable ≠ 0 then some (rd.quirk_irq_disable, dev)
  else
    match uhc_dwc2_core_soft_reset hw dev rd.reset with
    | none => none
    | some (ret, dev) =>
      if ret ≠ 0 then some (ret, dev)
      else
        let dev := { dev with priv := { dev.priv with dynamic :=
          { port_state := .UHC_PORT_STATE_NOT_POWERED
            last_event := .UHC_PORT_EVENT_NONE
            flags := { lock_enabled := false, fifo_sizes_set := false,
                       periodic_sched_enabled := false, event_pending := false,
                       conn_dev_ena := false, waiting_disable := false } } } }
        if rd.quirk_irq_enable ≠ 0 then some (rd.quirk_irq_enable, dev)
        else some (uhc_dwc2_power_on hw dev rd.power_hprt)

def uhc_dwc2_submit_new_device (dev : device) (speed : Nat) : device :=
  if speed = UHC_DWC2_SPEED_LOW then
    { dev with upstream := dev.upstream ++ [.submit_event .UHC_EVT_DEV_CONNECTED_LS 0] }
  else if speed = UHC_DWC2_SPEED_FULL then
    { dev with upstream := dev.upstream ++ [.submit_event .UHC_EVT_DEV_CONNECTED_FS 0] }
  else if speed = UHC_DWC2_SPEED_HIGH then
    { dev with upstream := dev.upstream ++ [.submit_event .UHC_EVT_DEV_CONNECTED_HS 0] }
  else dev

def uhc_dwc2_submit_dev_gone (dev : device) : device :=
  { dev with upstream := dev.upstream ++ [.submit_event .UHC_EVT_DEV_REMOVED 0] }

/-! ## Pipe allocation -/

structure uhc_pipe_config_t where
  dev_speed : Nat
  dev_addr : Nat
  deriving DecidableEq, Repr

/-- Fills the endpoint characteristics of a pipe.  The driver calls it for
control transfers only, the one transfer type it does not reject. -/
def uhc_dwc2_pipe_set_ep_char (pipe_config : uhc_pipe_config_t) (is_ctrl_pipe : Bool)
    (ep_char : uhc_dwc2_ep_char_t) : uhc_dwc2_ep_char_t :=
  let ep_char := { ep_char with type := .UHC_DWC2_XFER_TYPE_CTRL }
  if is_ctrl_pipe then
    { ep_char with
      bEndpointAddress := 0
      mps := if pipe_config.dev_speed = UHC_DWC2_SPEED_LOW then CTRL_EP_MAX_MPS_LS
             else CTRL_EP_MAX_MPS_HSFS
      dev_addr := pipe_config.dev_addr % 256
      ls_via_fs_hub := false }
  else ep_char

/-- Writes the endpoint characteristics to the channel of `chan_obj`.  `none` is
the failed assertion that the channel is neither active nor halting. -/
def dwc2_hal_channel_configure (dwc2 : usb_dwc2_reg) (chan_obj : uhc_dwc2_channel_t)
    (ep_char : uhc_dwc2_ep_char_t) : Option (usb_dwc2_reg × uhc_dwc2_channel_t) :=
  if !chan_obj.active && !chan_obj.halt_requested then
    let dwc2 := chan_regs_update dwc2 chan_obj.regs (fun r =>
      dwc2_ll_hcchar_init_channel r ep_char.dev_addr
        (ep_char.bEndpointAddress &&& BENDPOINTADDRESS_NUM_MSK) ep_char.mps ep_char.type
        (decide (ep_char.bEndpointAddress &&& BENDPOINTADDRESS_DIR_MSK ≠ 0))
        ep_char.ls_via_fs_hub)
    some (dwc2, { chan_obj with type := ep_char.type })
  else none

/-- What the allocator and the hardware present to a pipe allocation: the
address and uninitialised content of the channel object (`none` when
`k_malloc` fails), the uninitialised content of the buffer (`none` when
`k_malloc` fails), whether the channel table could be allocated, the address of
the pipe object given as owner context, and the HCINT value read when the
channel is initialised. -/
structure pipe_alloc_reads where
  chan_mem : Option (Nat × uhc_dwc2_channel_t)
  buf_mem : Option dma_buffer_t
  hdls_mem : Bool
  pipe_addr : Nat
  hcint : Nat

/-- Allocates the control pipe and its channel.  Objects released on the error
path keep their content in the embedding.  `none` is a failed assertion, the
write of the table through a NULL pointer, or the table initialisation loop
that does not end because its 8-bit counter cannot reach the channel count. -/
def uhc_dwc2_pipe_alloc (dev : device) (pipe_config : uhc_pipe_config_t)
    (rd : pipe_alloc_reads) : Option (Int × device) :=
  match rd.chan_mem with
  | none => some (- ENOMEM, dev)
  | some (chan_ptr, chan_obj) =>
    let pipe := { dev.priv.pipe with chan_obj := chan_obj, chan_obj_ptr := chan_ptr }
    match rd.buf_mem with
    | none => some (- ENOMEM, { dev with priv := { dev.priv with pipe := pipe } })
    | some buffer =>
      let pipe := { pipe with buffer := buffer }
      let ep_char := uhc_dwc2_pipe_set_ep_char pipe_config true pipe.ep_char
      let pipe := { pipe with ep_char := ep_char, state := .UHC_PIPE_STATE_ACTIVE }
      let dev := { dev with priv := { dev.priv with pipe := pipe } }
      if !dev.priv.dynamic.flags.conn_dev_ena then some (- ENODEV, dev)
      else if !rd.hdls_mem ∧ dev.priv.const_cfg.num_channels ≠ 0 then none
      else if 255 < dev.priv.const_cfg.num_channels then none
      else
        let hdls : Option (List (Option Nat)) :=
          if rd.hdls_mem then some (List.replicate dev.priv.const_cfg.num_channels none)
          else none
        let dev := { dev with priv := { dev.priv with
          channels := { dev.priv.channels with hdls := hdls } } }
        match uhc_dwc2_chan_alloc dev pipe.chan_obj_ptr pipe.chan_obj rd.pipe_addr rd.hcint with
        | none => none
        | some (chan_allocated, dev, chan_obj) =>
          let dev := { dev with priv := { dev.priv with
            pipe := { dev.priv.pipe with chan_obj := chan_obj } } }
          if !chan_allocated then some (- ENOMEM, dev)
          else
            match dwc2_hal_channel_configure dev.base dev.priv.pipe.chan_obj
                dev.priv.pipe.ep_char with
            | none => none
            | some (dwc2, chan_obj) =>
              some (0, { dev with
                base := dwc2
                priv := { dev.priv with
                  pipe := { dev.priv.pipe with chan_obj := chan_obj }
                  num_pipes_idle := to_u8 ((dev.priv.num_pipes_idle : Int) + 1) } })

def dwc2_hal_port_get_speed (hw : usb_dwc2_hw) (dev : device) (hprt : Nat) : Int × Nat :=
  if dev.priv.dynamic.port_state ≠ .UHC_PORT_STATE_ENABLED then (- ENODEV, 0)
  else (0, dwc2_ll_hprt_get_port_speed hw hprt)

/-- What the hardware, the allocator and the interrupt context present to the
worker while it handles a port event. -/
structure port_event_reads where
  debounce_settle : device → device
  debounce_hprt : Nat
  lock_hprt : Nat
  reset_hprt1 : Nat
  reset_hprt2 : Nat
  reset_hold : device → device
  reset_recovery : device → device
  speed_hprt : Nat
  pipe_alloc : pipe_alloc_reads
  recovery : recovery_reads

/-- Handles the pending port event in thread context.  The control pipe handle
the driver saves is the address of its single pipe object, which the embedding
holds as `priv.pipe`.  `none` is a fault or a wait loop of the port recovery
that does not end. -/
def uhc_dwc2_handle_port_events (hw : usb_dwc2_hw) (dev : device) (rd : port_event_reads) :
    Option device :=
  let port_event :=
    (uhc_dwc2_get_port_event hw dev rd.debounce_settle rd.debounce_hprt rd.lock_hprt).1
  let dev := (uhc_dwc2_get_port_event hw dev rd.debounce_settle rd.debounce_hprt rd.lock_hprt).2
  match port_event with
  | .UHC_PORT_EVENT_NONE => some dev
  | .UHC_PORT_EVENT_CONNECTION =>
    some (uhc_dwc2_port_reset hw dev rd.reset_hprt1 rd.reset_hprt2 rd.reset_hold
            rd.reset_recovery).2
  | .UHC_PORT_EVENT_ENABLED =>
    let dev := { dev with priv := { dev.priv with dynamic := { dev.priv.dynamic with
      port_state := .UHC_PORT_STATE_ENABLED } } }
    let ret := (dwc2_hal_port_get_speed hw dev rd.speed_hprt).1
    let speed := (dwc2_hal_port_get_speed hw dev rd.speed_hprt).2
    if ret ≠ 0 then some dev
    else
      match uhc_dwc2_pipe_alloc dev { dev_speed := speed, dev_addr := 0 } rd.pipe_alloc with
      | none => none
      | some (ret, dev) =>
        if ret ≠ 0 then some dev
        else some (uhc_dwc2_submit_new_device dev speed)
  | _ =>
    match dev.priv.dynamic.port_state with
    | .UHC_PORT_STATE_DISABLED =>
      match uhc_dwc2_port_recovery hw dev rd.recovery with
      | none => none
      | some (_, dev) => some dev
    | .UHC_PORT_STATE_NOT_POWERED | .UHC_PORT_STATE_ENABLED =>
      match uhc_dwc2_port_recovery hw (uhc_dwc2_submit_dev_gone dev) rd.recovery with
      | none => none
      | some (_, dev) => some dev
    | _ => some dev

/-! ## Worker thread -/

/-- The DWC2 layout of the fields the driver takes from `usb_dwc2_hw.h`: PRTINT
is bit 24, HCHINT bit 25, DISCONNINT bit 29 of GINTSTS; in HPRT the connect
status is bit 0, port enable bit 2, overcurrent active bit 4, reset bit 8 and
power bit 12, port speed bits 17 and 18; current mode is bit 0 of GINTSTS, the
RX and TX FIFO flush bits are bits 4 and 5 of GRSTCTL. -/
def sample_hw : usb_dwc2_hw :=
  { USB_DWC2_GINTSTS_PRTINT := BIT 24
    USB_DWC2_GINTSTS_HCHINT := BIT 25
    USB_DWC2_GINTSTS_DISCONNINT := BIT 29
    USB_DWC2_GINTSTS_CURMOD := BIT 0
    USB_DWC2_GRSTCTL_RXFFLSH := BIT 4
    USB_DWC2_GRSTCTL_TXFFLSH := BIT 5
    USB_DWC2_GDFIFOCFG_EPINFOBASEADDR_POS := 16
    prtconnsts := fun v => v.testBit 0
    prtena := fun v => v.testBit 2
    prtovrcurract := fun v => v.testBit 4
    prtspd := fun v => (v >>> 17) % 4
    set_prtrst := fun v b => if b then v ||| BIT 8 else v &&& NOT32 (BIT 8)
    set_prtpwr := fun v b => if b then v ||| BIT 12 else v &&& NOT32 (BIT 12) }

def sample_chan_regs : usb_dwc2_host_chan_regs_t :=
  { hcchar := { mps := 64, epnum := 0, epdir := false, lspddev := false, eptype := 0,
                devaddr := 0, oddfrm := false, chdis := false, chena := false }
    hcint := 0
    hcintmsk := 3
    hctsiz := { xfersize := 255, pktcnt := 0, pid := 0, dopng := false }
    hcdma := 0 }

def sample_regs : usb_dwc2_reg :=
  { gahbcfg := { glbllntrmsk := true, dmaen := true }
    gusbcfg := { forcehstmode := true }
    grstctl := { csftrst := false, rxfflsh := false, txfflsh := false, txfnum := 0 }
    gintsts := 0, gintmsk := 0
    hcfg := { descdma := false, perschedena := false, fslspclksel := 1 }
    hfir := { hfirrldctrl := false, frint := 48000 }
    hprt := 0, haintmsk := 1, gdfifocfg := 0, grxfsiz := 0,
    gnptxfsiz := 0, hptxfsiz := 0, host_chans := fun _ => sample_chan_regs }

/-- A Get Descriptor request for the 18 bytes of the device descriptor. -/
def sample_get_descriptor : uhc_transfer :=
  { setup_pkt := { bmRequestType := 0x80, bRequest := 6, wValue := 0x0100, wIndex := 0,
                   wLength := 18 }
    setup_pkt_addr := 0x2000
    buf := some { data := 0x3000, len := 0, size := 18, __buf := 0x3000 }
    ep := 0x80
    interval := 0 }

/-- A Set Address request for address 7. -/
def sample_set_address : uhc_transfer :=
  { setup_pkt := { bmRequestType := 0, bRequest := 5, wValue := 7, wIndex := 0, wLength := 0 }
    setup_pkt_addr := 0x2000
    buf := none
    ep := 0
    interval := 0 }

/-- The control pipe of a full-speed device at address 0, idle, on channel 0. -/
def sample_pipe : pipe_t :=
  { num_urb_pending := 0
    num_urb_done := 0
    buffer := { xfer := sample_set_address
                ctrl := { data_stg_in := false, data_stg_skip := false, cur_stg := 0,
                          set_addr := false, new_addr := 0 } }
    chan_obj := { active := false, halt_requested := false, chan_idx := 0, regs := 0,
                  type := .UHC_DWC2_XFER_TYPE_CTRL, chan_ctx := 1 }
    chan_obj_ptr := 0x1000
    ep_char := { type := .UHC_DWC2_XFER_TYPE_CTRL, bEndpointAddress := 0, mps := 64,
                 dev_addr := 0, ls_via_fs_hub := false }
    state := .UHC_PIPE_STATE_ACTIVE
    last_event := .PIPE_EVENT_NONE
    flags := { waiting_halt := false, pipe_cmd_processing := false, has_urb := false,
               event_pending := false } }

/-- An 8-channel controller with a FIFO of 256 words. -/
def sample_const_cfg : uhc_dwc2_constant_config_t :=
  { num_channels := 8, hsphy_type := 0, fsphy_type := 1, dma := true, fifo_depth := 256 }

/-- A device with its port enabled, channel 0 allocated to the control pipe. -/
def sample_dev : device :=
  { base := sample_regs
    priv :=
      { drv_evt := 0
        fifo := { top := 248, nptxfsiz := 32, rxfsiz := 140, ptxfsiz := 76 }
        const_cfg := sample_const_cfg
        channels := { num_allocated := 1, pending_intrs_msk := 0,
                      hdls := some [some 0x1000, none, none, none, none, none, none, none] }
        dynamic := { flags := { lock_enabled := false, fifo_sizes_set := false,
                                periodic_sched_enabled := false, event_pending := false,
                                conn_dev_ena := true, waiting_disable := false }
                     last_event := .UHC_PORT_EVENT_NONE
                     port_state := .UHC_PORT_STATE_ENABLED }
        pipe := sample_pipe
        num_pipes_idle := 1
        num_pipes_queued := 0 }
    upstream := [] }

/-- The sample device with an empty channel table. -/
def sample_dev_empty : device :=
  { sample_dev with priv := { sample_dev.priv with
      channels := { num_allocated := 0, pending_intrs_msk := 0,
                    hdls := some (List.replicate 8 none) } } }

/-- A single-channel device whose only channel is allocated. -/
def sample_dev_full : device :=
  { sample_dev with priv := { sample_dev.priv with
      const_cfg := { sample_const_cfg with num_channels := 1 }
      channels := { num_allocated := 1, pending_intrs_msk := 0, hdls := some [some 0x1000] } } }

/-- A core that completes the soft reset at once: no poll finds the reset or a
flush in progress, the AHB master is idle and the core is in host mode. -/
def sample_reset_reads : core_reset_reads :=
  { csftrst := fun _ => false
    ahbidle := fun _ => true
    gintsts := 0
    curmod_polls := fun _ => 1
    txfflsh_polls := fun _ => 0
    rxfflsh_polls := fun _ => 0
    grstctl_uninit := { csftrst := false, rxfflsh := false, txfflsh := false, txfnum := 0 }
    fuel := 4 }

/-- A recovery whose vendor hooks and core soft reset succeed. -/
def sample_recovery_reads : recovery_reads :=
  { quirk_irq_disable := 0, quirk_irq_enable := 0, reset := sample_reset_reads, power_hprt := 0 }

/-- A worker run during which the interrupt handler does not run, the port
reads back no connected device (HPRT reads 0), every allocation succeeds and
the recovery succeeds. -/
def sample_port_event_reads : port_event_reads :=
  { debounce_settle := id
    debounce_hprt := 0
    lock_hprt := 0
    reset_hprt1 := 0
    reset_hprt2 := 0
    reset_hold := id
    reset_recovery := id
    speed_hprt := 0
    pipe_alloc := { chan_mem := some (0x1000, sample_pipe.chan_obj)
                    buf_mem := some sample_pipe.buffer
                    hdls_mem := true
                    pipe_addr := 1
                    hcint := 0 }
    recovery := sample_recovery_reads }

/-- A powered port with no device: state DISCONNECTED, no event pending, port
and disconnect interrupts unmasked, no channel allocated. -/
def sample_dev_unplugged : device :=
  { sample_dev_empty with
    base := { sample_regs with gintmsk := BIT 24 ||| BIT 25 ||| BIT 29 }
    priv := { sample_dev_empty.priv with
      dynamic := { flags := { lock_enabled := false, fifo_sizes_set := false,
                              periodic_sched_enabled := false, event_pending := false,
                              conn_dev_ena := false, waiting_disable := false }
                   last_event := .UHC_PORT_EVENT_NONE
                   port_state := .UHC_PORT_STATE_DISCONNECTED } } }

/-- The sample device in the middle of a port reset. -/
def sample_dev_resetting : device :=
  { sample_dev with priv := { sample_dev.priv with
      dynamic := { sample_dev.priv.dynamic with port_state := .UHC_PORT_STATE_RESETTING } } }

/-- The sample device with the port not powered. -/
def sample_dev_unpowered : device :=
  { sample_dev_empty with priv := { sample_dev_empty.priv with
      dynamic := { sample_dev_empty.priv.dynamic with
        port_state := .UHC_PORT_STATE_NOT_POWERED } } }

/-- The unplugged device after the interrupt handler has seen a connect
interrupt: a CONNECTION event is pending, the debounce lock is engaged and the
port and disconnect interrupts are masked. -/
def sample_dev_connecting : device :=
  { sample_dev_unplugged with
    base := { sample_regs with gintmsk := BIT 25 }
    priv := { sample_dev_unplugged.priv with
      drv_evt := BIT UHC_DWC2_EVENT_PORT
      dynamic := { flags := { lock_enabled := true, fifo_sizes_set := false,
                              periodic_sched_enabled := false, event_pending := true,
                              conn_dev_ena := false, waiting_disable := false }
                   last_event := .UHC_PORT_EVENT_CONNECTION
                   port_state := .UHC_PORT_STATE_DISCONNECTED } } }

/-- A vendor request (type bits 01 of bmRequestType) whose request byte is 5. -/
def sample_vendor_request_5 : uhc_transfer :=
  { setup_pkt := { bmRequestType := 0x40, bRequest := 5, wValue := 7, wIndex := 0, wLength := 0 }
    setup_pkt_addr := 0x2000
    buf := none
    ep := 0
    interval := 0 }

/-- A Set Configuration request for configuration 1: no data stage. -/
def sample_set_configuration : uhc_transfer :=
  { setup_pkt := { bmRequestType := 0, bRequest := 9, wValue := 1, wIndex := 0, wLength := 0 }
    setup_pkt_addr := 0x2000
    buf := none
    ep := 0
    interval := 0 }

/-- The sample device with its channel object in slot 1 and slot 0 free. -/
def sample_dev_slot1 : device :=
  { sample_dev with priv := { sample_dev.priv with
      channels := { num_allocated := 1, pending_intrs_msk := 0,
                    hdls := some [none, some 0x1000, none, none, none, none, none, none] } } }

/-- The sample control pipe with a halt of its channel requested. -/
def sample_pipe_halting : pipe_t :=
  { sample_pipe with chan_obj := { sample_pipe.chan_obj with halt_requested := true } }

/-- The stage a channel register set is programmed for: PID, direction (`true`
is IN) and transfer size. -/
def programmed_stage (r : usb_dwc2_host_chan_regs_t) : Nat × Bool × Nat :=
  (r.hctsiz.pid, r.hcchar.epdir, r.hctsiz.xfersize)

/-- An HCINT value of a channel-complete interrupt: channel halted, no error
bit. -/
def chan_complete_intr (v : Nat) : Prop :=
  v &&& CHAN_INTRS_ERROR_MSK = 0 ∧ v &&& USB_DWC2_HCINT_CHHLTD ≠ 0

instance (v : Nat) : Decidable (chan_complete_intr v) := by
  unfold chan_complete_intr
  infer_instance

/-- The standard Set Address request as the specification words it: a standard
request (type bits 6..5 of bmRequestType are 0), host to device (bit 7 is 0),
to the device as recipient (bits 4..0 are 0), with request code 5. -/
def is_standard_set_address (setup_pkt : usb_setup_packet) : Prop :=
  setup_pkt.bmRequestType % 256 = 0 ∧ setup_pkt.bRequest = 5

instance (setup_pkt : usb_setup_packet) : Decidable (is_standard_set_address setup_pkt) := by
  unfold is_standard_set_address
  infer_instance

/-- The packet count as the specification words it: one packet for an empty
payload, else the payload size divided by the maximum packet size, rounded
up. -/
def packet_count_reference (size mps : Nat) : Nat :=
  if size = 0 then 1 else (size + mps - 1) / mps

/-! ## Bit-level lemmas -/

theorem and_ne_zero_iff_common_bit (x m : Nat) :
    x &&& m ≠ 0 ↔ ∃ i, x.testBit i = true ∧ m.testBit i = true := by
  constructor
  · intro h
    obtain ⟨i, hi⟩ := Nat.ne_zero_implies_bit_true h
    refine ⟨i, ?_⟩
    simpa [Nat.testBit_and] using hi
  · rintro ⟨i, hx, hm⟩ h0
    have : (x &&& m).testBit i = true := by simp [Nat.testBit_and, hx, hm]
    rw [h0] at this
    simp at this

theorem and_BIT_ne_zero_iff (x k : Nat) : x &&& BIT k ≠ 0 ↔ x.testBit k = true := by
  rw [and_ne_zero_iff_common_bit]
  constructor
  · rintro ⟨i, hx, hm⟩
    have : k = i := by simpa [BIT, Nat.testBit_two_pow] using hm
    subst this
    exact hx
  · intro h
    exact ⟨k, h, by simp [BIT, Nat.testBit_two_pow]⟩

theorem and_or_ne_zero_iff (x a b : Nat) :
    x &&& (a ||| b) ≠ 0 ↔ x &&& a ≠ 0 ∨ x &&& b ≠ 0 := by
  simp only [and_ne_zero_iff_common_bit, Nat.testBit_or, Bool.or_eq_true]
  constructor
  · rintro ⟨i, hx, h | h⟩
    · exact Or.inl ⟨i, hx, h⟩
    · exact Or.inr ⟨i, hx, h⟩
  · rintro (⟨i, hx, h⟩ | ⟨i, hx, h⟩)
    · exact ⟨i, hx, Or.inl h⟩
    · exact ⟨i, hx, Or.inr h⟩

theorem hprt_intr_bits : USB_DWC2_LL_HPRT_W1C_MSK &&& NOT32 USB_DWC2_LL_HPRT_ENA_MSK = 0x2A := by
  decide

theorem hprt_intr_and_BIT (h k : Nat) (hk : k = 1 ∨ k = 3 ∨ k = 5) :
    (h &&& 0x2A) &&& BIT k ≠ 0 ↔ h.testBit k = true := by
  rw [and_BIT_ne_zero_iff, Nat.testBit_and]
  rcases hk with rfl | rfl | rfl
  · have : Nat.testBit 0x2A 1 = true := by decide
    simp [this]
  · have : Nat.testBit 0x2A 3 = true := by decide
    simp [this]
  · have : Nat.testBit 0x2A 5 = true := by decide
    simp [this]

/-! ## Interrupt decoder -/

theorem port_intrs_bit (c : Prop) [Decidable c] (hprt k : Nat) (hk : k = 1 ∨ k = 3 ∨ k = 5) :
    (if c then hprt &&& 0x2A else 0) &&& BIT k ≠ 0
      ↔ (if c then hprt else 0).testBit k = true := by
  by_cases h : c
  · simp only [h, if_true]
    exact hprt_intr_and_BIT hprt k hk
  · simp [h]

theorem port_intrs_mask (c : Prop) [Decidable c] (hprt : Nat) :
    (if c then hprt &&& 0x2A else 0) &&& PORT_EVENTS_INTRS_MSK ≠ 0
      ↔ ((if c then hprt else 0).testBit 1 = true ∨ (if c then hprt else 0).testBit 3 = true
          ∨ (if c then hprt else 0).testBit 5 = true) := by
  unfold PORT_EVENTS_INTRS_MSK USB_DWC2_HPRT_PRTCONNDET USB_DWC2_HPRT_PRTENCHNG
    USB_DWC2_HPRT_PRTOVRCURRCHNG
  rw [and_or_ne_zero_iff, and_or_ne_zero_iff, port_intrs_bit c hprt 1 (by simp),
    port_intrs_bit c hprt 3 (by simp), port_intrs_bit c hprt 5 (by simp)]
  tauto

theorem decode_intr_event (hw : usb_dwc2_hw) (dev : device) (gintsts hprt hprt_sts haint : Nat) :
    (uhc_dwc2_decode_intr hw dev gintsts hprt hprt_sts haint).1
      = decode_intr_precedence hw gintsts hprt hprt_sts := by
  have h1 := port_intrs_bit (gintsts &&& hw.USB_DWC2_GINTSTS_PRTINT ≠ 0) hprt 1 (by simp)
  have h3 := port_intrs_bit (gintsts &&& hw.USB_DWC2_GINTSTS_PRTINT ≠ 0) hprt 3 (by simp)
  have h5 := port_intrs_bit (gintsts &&& hw.USB_DWC2_GINTSTS_PRTINT ≠ 0) hprt 5 (by simp)
  have hm := port_intrs_mask (gintsts &&& hw.USB_DWC2_GINTSTS_PRTINT ≠ 0) hprt
  have hc := and_or_ne_zero_iff gintsts hw.USB_DWC2_GINTSTS_DISCONNINT hw.USB_DWC2_GINTSTS_HCHINT
  unfold uhc_dwc2_decode_intr decode_intr_precedence
  simp only [dwc2_ll_gintsts_read_and_clear_intrs, dwc2_ll_hprt_intr_read_and_clear,
    hprt_intr_bits, CORE_EVENTS_INTRS_MSK, USB_DWC2_HPRT_PRTOVRCURRCHNG, USB_DWC2_HPRT_PRTENCHNG,
    USB_DWC2_HPRT_PRTCONNDET, dwc2_ll_hprt_get_port_overcur, dwc2_ll_hprt_get_port_en]
  generalize (if gintsts &&& hw.USB_DWC2_GINTSTS_PRTINT ≠ 0 then hprt &&& 42 else 0) = pi at *
  generalize (if gintsts &&& hw.USB_DWC2_GINTSTS_PRTINT ≠ 0 then hprt else 0) = port at *
  by_cases hD : gintsts &&& hw.USB_DWC2_GINTSTS_DISCONNINT = 0 <;>
  by_cases hH : gintsts &&& hw.USB_DWC2_GINTSTS_HCHINT = 0 <;>
  by_cases b5 : port.testBit 5 = true <;>
  by_cases b3 : port.testBit 3 = true <;>
  by_cases b1 : port.testBit 1 = true <;>
  simp only [hD, hH, b5, b3, b1, not_true_eq_false, not_false_eq_true, false_or, or_false,
    true_or, or_true, or_self, false_iff, true_iff, ne_eq, not_not, Bool.not_eq_true] at h1 h3 h5 hm hc <;>
  simp [hD, hH, b5, b3, b1, h1, h3, h5, hm, hc] <;>
  first
    | rfl
    | (split <;> rfl)

/-- C1: for every GINTSTS value and every HPRT value read by
`uhc_dwc2_decode_intr`, the returned core event is the one the precedence rule
selects (disconnect, then overcurrent change, then enable change, then connect
detect, then channel interrupt, port bits counting only under PRTINT); in
particular CHAN is returned only when no disconnect and no port event applies. -/
theorem decode_intr_follows_precedence (hw : usb_dwc2_hw) (dev : device)
    (gintsts hprt hprt_sts haint : Nat) :
    (uhc_dwc2_decode_intr hw dev gintsts hprt hprt_sts haint).1
        = decode_intr_precedence hw gintsts hprt hprt_sts
    ∧ ((uhc_dwc2_decode_intr hw dev gintsts hprt hprt_sts haint).1
          = .UHC_DWC2_CORE_EVENT_CHAN →
        gintsts &&& hw.USB_DWC2_GINTSTS_DISCONNINT = 0
        ∧ gintsts &&& hw.USB_DWC2_GINTSTS_HCHINT ≠ 0
        ∧ (gintsts &&& hw.USB_DWC2_GINTSTS_PRTINT ≠ 0 →
            hprt.testBit 5 = false ∧ hprt.testBit 3 = false ∧ hprt.testBit 1 = false)) := by
  refine ⟨decode_intr_event hw dev gintsts hprt hprt_sts haint, ?_⟩
  rw [decode_intr_event]
  unfold decode_intr_precedence
  intro h
  by_cases hD : gintsts &&& hw.USB_DWC2_GINTSTS_DISCONNINT = 0
  · by_cases hP : gintsts &&& hw.USB_DWC2_GINTSTS_PRTINT = 0
    · simp only [hD, hP, ne_eq, not_true_eq_false, if_false, Nat.zero_testBit,
        Bool.false_eq_true] at h
      refine ⟨hD, ?_, fun hp => absurd hP hp⟩
      intro hH
      simp [hH] at h
    · simp only [hD, hP, ne_eq, not_true_eq_false, not_false_eq_true, if_true, if_false] at h
      by_cases b5 : hprt.testBit 5 = true
      · simp only [b5, if_true] at h
        by_cases ho : hw.prtovrcurract hprt_sts = true <;> simp [ho] at h
      · by_cases b3 : hprt.testBit 3 = true
        · simp only [b5, b3, if_true, if_false] at h
          by_cases ho : hw.prtena hprt_sts = true <;> simp [ho] at h
        · by_cases b1 : hprt.testBit 1 = true
          · simp [b5, b3, b1] at h
          · refine ⟨hD, ?_, fun _ => ⟨by simpa using b5, by simpa using b3, by simpa using b1⟩⟩
            intro hH
            simp [b5, b3, b1, hH] at h
  · simp [hD] at h

theorem decode_intr_follows_precedence_witness :
    (uhc_dwc2_decode_intr sample_hw sample_dev (BIT 25) 0 0 1).1 = .UHC_DWC2_CORE_EVENT_CHAN
    ∧ BIT 25 &&& sample_hw.USB_DWC2_GINTSTS_DISCONNINT = 0 :=
  ⟨by decide,
   ((decode_intr_follows_precedence sample_hw sample_dev (BIT 25) 0 0 1).2 (by decide)).1⟩

/-! ## Channel state machine -/

theorem chan_error_bits (v : Nat) :
    v &&& CHAN_INTRS_ERROR_MSK ≠ 0
      ↔ (v.testBit 3 = true ∨ v.testBit 8 = true ∨ v.testBit 7 = true) := by
  unfold CHAN_INTRS_ERROR_MSK USB_DWC2_HCINT_STALL USB_DWC2_HCINT_BBLERR USB_DWC2_HCINT_XACTERR
  rw [and_or_ne_zero_iff, and_or_ne_zero_iff, and_BIT_ne_zero_iff, and_BIT_ne_zero_iff,
    and_BIT_ne_zero_iff]
  tauto

/-- C2: for every channel interrupt value and all prior channel flags,
`uhc_dwc2_hal_chan_decode_intr` does what the reference says: an error bit gives
ERROR with both flags unchanged; otherwise CHHLTD gives HALT_REQ (clearing
`halt_requested`) or CPLT, clearing `active`; otherwise XFERCOMPL sets the HCCHAR
disable bit and gives NONE with both flags unchanged; the asserting branch is
taken exactly when none of the five bits is set. -/
theorem hal_chan_decode_intr_reference (dwc2 : usb_dwc2_reg) (chan_obj : uhc_dwc2_channel_t)
    (v : Nat) :
    uhc_dwc2_hal_chan_decode_intr dwc2 chan_obj v
        = (chan_decode_reference v chan_obj.active chan_obj.halt_requested).map
            (fun r =>
              (r.1,
               (if r.2.2.2 then
                  chan_regs_update
                    (chan_regs_update dwc2 chan_obj.regs (fun c => { c with hcint := v }))
                    chan_obj.regs (fun c => { c with hcchar := { c.hcchar with chdis := true } })
                else chan_regs_update dwc2 chan_obj.regs (fun c => { c with hcint := v })),
               { chan_obj with active := r.2.1, halt_requested := r.2.2.1 }))
    ∧ (uhc_dwc2_hal_chan_decode_intr dwc2 chan_obj v = none
        ↔ (v.testBit 3 = false ∧ v.testBit 8 = false ∧ v.testBit 7 = false
            ∧ v.testBit 1 = false ∧ v.testBit 0 = false)) := by
  have he := chan_error_bits v
  have hh := and_BIT_ne_zero_iff v 1
  have hx := and_BIT_ne_zero_iff v 0
  rcases chan_obj with ⟨a, hr, ci, rg, ty, cx⟩
  unfold uhc_dwc2_hal_chan_decode_intr chan_decode_reference
  simp only [dwc2_ll_hcint_read_and_clear_intrs, USB_DWC2_HCINT_CHHLTD, USB_DWC2_HCINT_XFERCOMPL,
    dwc2_ll_hcchar_dis_channel]
  by_cases b3 : v.testBit 3 = true <;> by_cases b8 : v.testBit 8 = true <;>
  by_cases b7 : v.testBit 7 = true <;> by_cases b1 : v.testBit 1 = true <;>
  by_cases b0 : v.testBit 0 = true <;>
  simp only [b3, b8, b7, b1, b0, not_true_eq_false, not_false_eq_true, false_or, or_false,
    true_or, or_true, or_self, false_iff, true_iff, iff_true, iff_false, ne_eq, not_not,
    Bool.not_eq_true] at he hh hx <;>
  cases hr <;>
  simp [b3, b8, b7, b1, b0, he, hh, hx] <;>
  rfl

theorem chan_regs_update_same (dwc2 : usb_dwc2_reg) (i : Nat)
    (f : usb_dwc2_host_chan_regs_t → usb_dwc2_host_chan_regs_t) :
    (chan_regs_update dwc2 i f).host_chans i = f (dwc2.host_chans i) := by
  simp [chan_regs_update]

theorem chan_regs_update_other (dwc2 : usb_dwc2_reg) (i j : Nat) (h : j ≠ i)
    (f : usb_dwc2_host_chan_regs_t → usb_dwc2_host_chan_regs_t) :
    (chan_regs_update dwc2 i f).host_chans j = dwc2.host_chans j := by
  simp [chan_regs_update, Function.update, h]

theorem hal_chan_decode_complete (dwc2 : usb_dwc2_reg) (chan_obj : uhc_dwc2_channel_t) (v : Nat)
    (hv : chan_complete_intr v) (hq : chan_obj.halt_requested = false) :
    uhc_dwc2_hal_chan_decode_intr dwc2 chan_obj v
      = some (.DWC2_CHAN_EVENT_CPLT,
              chan_regs_update dwc2 chan_obj.regs (fun r => { r with hcint := v }),
              { chan_obj with active := false }) := by
  obtain ⟨he, hh⟩ := hv
  unfold uhc_dwc2_hal_chan_decode_intr
  simp only [dwc2_ll_hcint_read_and_clear_intrs, he, hh, hq, ne_eq, not_true_eq_false,
    not_false_eq_true, if_true, if_false, Bool.false_eq_true]

theorem decode_chan_complete (dwc2 : usb_dwc2_reg) (pipe : pipe_t) (v : Nat)
    (hv : chan_complete_intr v) (hq : pipe.chan_obj.halt_requested = false) :
    uhc_dwc2_decode_chan dwc2 pipe v
      = (if !_buffer_check_done { pipe with chan_obj := { pipe.chan_obj with active := false } } then
          match _buffer_exec
              (chan_regs_update dwc2 pipe.chan_obj.regs (fun r => { r with hcint := v }))
              { pipe with chan_obj := { pipe.chan_obj with active := false } } with
          | none => none
          | some (d, p) => some (.PIPE_EVENT_NONE, d, p)
        else
          some (.PIPE_EVENT_URB_DONE,
                chan_regs_update dwc2 pipe.chan_obj.regs (fun r => { r with hcint := v }),
                { pipe with chan_obj := { pipe.chan_obj with active := false },
                            last_event := .PIPE_EVENT_URB_DONE })) := by
  unfold uhc_dwc2_decode_chan
  rw [hal_chan_decode_complete dwc2 pipe.chan_obj v hv hq]

theorem submit_ctrl_xfer_ep0 (dev : device) (xfer : uhc_transfer) (h0 : Nat)
    (hmps : dev.priv.pipe.ep_char.mps % 256 ≠ 0)
    (hep : (xfer.ep &&& NOT32 0x80) % 256 = 0)
    (hint : xfer.interval = 0) :
    ∃ dev1, uhc_dwc2_submit_ctrl_xfer dev xfer h0 = some (0, dev1)
      ∧ programmed_stage (dev1.base.host_chans dev.priv.pipe.chan_obj.regs)
          = (CTRL_STAGE_SETUP, false, 8)
      ∧ (dev1.base.host_chans dev.priv.pipe.chan_obj.regs).hcchar.chena = true
      ∧ (dev1.base.host_chans dev.priv.pipe.chan_obj.regs).hcchar.devaddr
          = (dev.base.host_chans dev.priv.pipe.chan_obj.regs).hcchar.devaddr
      ∧ dev1.priv.pipe.buffer.ctrl.cur_stg = 0
      ∧ dev1.priv.pipe.buffer.ctrl.data_stg_in = usb_reqtype_is_to_host xfer.setup_pkt
      ∧ dev1.priv.pipe.buffer.ctrl.data_stg_skip = decide (xfer.setup_pkt.wLength = 0)
      ∧ dev1.priv.pipe.buffer.ctrl.set_addr
          = decide (xfer.setup_pkt.bRequest = USB_SREQ_SET_ADDRESS)
      ∧ (xfer.setup_pkt.bRequest = USB_SREQ_SET_ADDRESS →
          dev1.priv.pipe.buffer.ctrl.new_addr = xfer.setup_pkt.wValue &&& 0x7F)
      ∧ dev1.priv.pipe.buffer.xfer = xfer
      ∧ dev1.priv.pipe.chan_obj = dev.priv.pipe.chan_obj
      ∧ dev1.priv.pipe.ep_char = dev.priv.pipe.ep_char
      ∧ dev1.priv.pipe.last_event = dev.priv.pipe.last_event
      ∧ dev1.upstream = dev.upstream := by
  have hpk : ∃ pk, calc_packet_count 8 dev.priv.pipe.ep_char.mps = some pk := by
    unfold calc_packet_count
    simp [hmps]
  obtain ⟨pk, hpk⟩ := hpk
  unfold uhc_dwc2_submit_ctrl_xfer
  simp only [hep, hint, hpk, ne_eq, not_true_eq_false, decide_False, Bool.false_eq_true,
    if_false, if_true, Nat.zero_and, zero_ne_one]
  refine ⟨_, rfl, ?_⟩
  simp only [chan_regs_update_same, programmed_stage, dwc2_ll_hcchar_en_channel,
    dwc2_ll_hcdma_set_buffer_addr, dwc2_ll_hcint_read_and_clear_intrs, dwc2_ll_hctsiz_do_ping,
    dwc2_ll_hctsiz_prep_transfer, dwc2_ll_hcchar_set_dir]
  by_cases hu : dev.priv.pipe.flags.has_urb = true <;>
  by_cases hs : xfer.setup_pkt.bRequest = USB_SREQ_SET_ADDRESS <;>
  simp [hu, hs]

theorem net_buf_add_room (b : net_buf) (n : Nat) (h : n ≤ net_buf_tailroom b) :
    net_buf_add b n = some { b with len := to_u16 ((b.len + n : Nat)) } := by
  unfold net_buf_add
  rw [if_neg (Nat.not_lt.mpr h)]

/-- The Data stage of a transfer whose buffer has less room than its size is not
programmed: the assertion of `net_buf_add` fails. -/
theorem buffer_exec_data_stage_no_room (d : usb_dwc2_reg) (p : pipe_t) (b : net_buf)
    (hcur : p.buffer.ctrl.cur_stg = 0)
    (hskip : p.buffer.ctrl.data_stg_skip = false)
    (hb : p.buffer.xfer.buf = some b)
    (hroom : net_buf_tailroom b < b.size) :
    _buffer_exec d p = none := by
  unfold _buffer_exec
  have ha : net_buf_add b b.size = none := by
    unfold net_buf_add
    rw [if_pos hroom]
  simp [hcur, hskip, hb, ha]

theorem decode_chan_next_stage (d : usb_dwc2_reg) (p : pipe_t) (v : Nat)
    (htype : p.ep_char.type = .UHC_DWC2_XFER_TYPE_CTRL)
    (hq : p.chan_obj.halt_requested = false)
    (hv : chan_complete_intr v)
    (hcur : p.buffer.ctrl.cur_stg ≠ 2)
    (hbuf : p.buffer.ctrl.cur_stg = 0 → p.buffer.ctrl.data_stg_skip = false →
      p.buffer.xfer.buf ≠ none)
    (hroom : p.buffer.ctrl.cur_stg = 0 → p.buffer.ctrl.data_stg_skip = false →
      ∀ b, p.buffer.xfer.buf = some b → b.size ≤ net_buf_tailroom b) :
    ∃ d1 p1, uhc_dwc2_decode_chan d p v = some (.PIPE_EVENT_NONE, d1, p1)
      ∧ programmed_stage (d1.host_chans p.chan_obj.regs)
          = (CTRL_STAGE_DATA1,
             (if p.buffer.ctrl.cur_stg = 0 then
                (if p.buffer.ctrl.data_stg_skip then true else p.buffer.ctrl.data_stg_in)
              else !p.buffer.ctrl.data_stg_in),
             (if p.buffer.ctrl.cur_stg = 0 ∧ p.buffer.ctrl.data_stg_skip = false then
                (p.buffer.xfer.buf.map net_buf.size).getD 0
              else 0))
      ∧ p1.buffer.ctrl.cur_stg
          = (if p.buffer.ctrl.cur_stg = 0 ∧ p.buffer.ctrl.data_stg_skip = false then 1 else 2)
      ∧ (d1.host_chans p.chan_obj.regs).hcchar.devaddr
          = (d.host_chans p.chan_obj.regs).hcchar.devaddr
      ∧ p1.chan_obj.regs = p.chan_obj.regs
      ∧ p1.chan_obj.halt_requested = false
      ∧ p1.ep_char = p.ep_char
      ∧ p1.buffer.ctrl.data_stg_in = p.buffer.ctrl.data_stg_in
      ∧ p1.buffer.ctrl.data_stg_skip = p.buffer.ctrl.data_stg_skip
      ∧ p1.buffer.ctrl.set_addr = p.buffer.ctrl.set_addr
      ∧ p1.buffer.ctrl.new_addr = p.buffer.ctrl.new_addr
      ∧ p1.buffer.xfer.setup_pkt = p.buffer.xfer.setup_pkt
      ∧ p1.last_event = p.last_event := by
  rw [decode_chan_complete d p v hv hq]
  have hnd : _buffer_check_done { p with chan_obj := { p.chan_obj with active := false } }
      = false := by
    simp [_buffer_check_done, htype, hcur]
  simp only [hnd, Bool.not_false, if_true]
  unfold _buffer_exec
  by_cases h0 : p.buffer.ctrl.cur_stg = 0
  · cases hs : p.buffer.ctrl.data_stg_skip
    · obtain ⟨b, hb⟩ := Option.ne_none_iff_exists'.mp (hbuf h0 hs)
      simp only [h0, hs, hb, net_buf_add_room b b.size (hroom h0 hs b hb), Option.map_some',
        if_true, Bool.false_eq_true, if_false]
      refine ⟨_, _, rfl, ?_⟩
      simp [programmed_stage, chan_regs_update_same, dwc2_ll_hcchar_en_channel,
        dwc2_ll_hcdma_set_buffer_addr, dwc2_ll_hctsiz_do_ping, dwc2_ll_hctsiz_prep_transfer,
        dwc2_ll_hcchar_set_dir, hq]
    · cases hb : p.buffer.xfer.buf <;>
      · simp only [h0, hs, hb, net_buf_add_room _ 0 (Nat.zero_le _), Option.map_some', if_true]
        refine ⟨_, _, rfl, ?_⟩
        simp [programmed_stage, chan_regs_update_same, dwc2_ll_hcchar_en_channel,
          dwc2_ll_hcdma_set_buffer_addr, dwc2_ll_hctsiz_do_ping, dwc2_ll_hctsiz_prep_transfer,
          dwc2_ll_hcchar_set_dir, hq]
  · cases hb : p.buffer.xfer.buf <;>
    · simp only [h0, hb, net_buf_add_room _ 0 (Nat.zero_le _), Option.map_some', if_false]
      refine ⟨_, _, rfl, ?_⟩
      simp [programmed_stage, chan_regs_update_same, dwc2_ll_hcchar_en_channel,
        dwc2_ll_hcdma_set_buffer_addr, dwc2_ll_hctsiz_do_ping, dwc2_ll_hctsiz_prep_transfer,
        dwc2_ll_hcchar_set_dir, hq]

theorem decode_chan_done (d : usb_dwc2_reg) (p : pipe_t) (v : Nat)
    (hq : p.chan_obj.halt_requested = false)
    (hv : chan_complete_intr v)
    (hcur : p.buffer.ctrl.cur_stg = 2) :
    uhc_dwc2_decode_chan d p v
      = some (.PIPE_EVENT_URB_DONE,
              chan_regs_update d p.chan_obj.regs (fun r => { r with hcint := v }),
              { p with chan_obj := { p.chan_obj with active := false },
                       last_event := .PIPE_EVENT_URB_DONE }) := by
  rw [decode_chan_complete d p v hv hq]
  have hnd : _buffer_check_done { p with chan_obj := { p.chan_obj with active := false } }
      = true := by
    simp [_buffer_check_done, hcur]
  simp [hnd]

theorem submit_ctrl_xfer_addr_frame (dev : device) (xfer : uhc_transfer) (h0 : Nat)
    (r : Int × device) (hr : uhc_dwc2_submit_ctrl_xfer dev xfer h0 = some r) :
    r.2.priv.pipe.ep_char = dev.priv.pipe.ep_char
    ∧ r.2.priv.pipe.chan_obj = dev.priv.pipe.chan_obj
    ∧ (r.2.base.host_chans dev.priv.pipe.chan_obj.regs).hcchar.devaddr
        = (dev.base.host_chans dev.priv.pipe.chan_obj.regs).hcchar.devaddr := by
  unfold uhc_dwc2_submit_ctrl_xfer at hr
  by_cases hp : xfer.interval = 0
  · simp only [hp, ne_eq, not_true_eq_false, decide_False, Bool.false_eq_true, if_false] at hr
    cases hpk : calc_packet_count 8 dev.priv.pipe.ep_char.mps with
    | none => simp [hpk] at hr
    | some pk =>
      simp only [hpk, Option.some.injEq] at hr
      subst hr
      by_cases he : (xfer.ep &&& NOT32 128) % 256 = 0 <;>
      by_cases hu : dev.priv.pipe.flags.has_urb = true <;>
      by_cases hd : (xfer.ep &&& NOT32 128) % 256 &&& 128 = 0 <;>
      simp [he, hu, hd, chan_regs_update_same, dwc2_ll_hcchar_en_channel,
        dwc2_ll_hcdma_set_buffer_addr, dwc2_ll_hcint_read_and_clear_intrs,
        dwc2_ll_hctsiz_do_ping, dwc2_ll_hctsiz_prep_transfer, dwc2_ll_hcchar_set_dir]
  · simp only [hp, ne_eq, not_false_eq_true, decide_True, if_true, Option.some.injEq] at hr
    subst hr
    by_cases he : (xfer.ep &&& NOT32 128) % 256 = 0 <;>
    simp [he, chan_regs_update_same, dwc2_ll_hcchar_set_dir]

theorem buffer_exec_addr_frame (d : usb_dwc2_reg) (p : pipe_t) (r : usb_dwc2_reg × pipe_t)
    (hr : _buffer_exec d p = some r) :
    r.2.ep_char = p.ep_char
    ∧ r.2.chan_obj = p.chan_obj
    ∧ r.2.last_event = p.last_event
    ∧ r.2.buffer.ctrl.set_addr = p.buffer.ctrl.set_addr
    ∧ r.2.buffer.ctrl.new_addr = p.buffer.ctrl.new_addr
    ∧ (r.1.host_chans p.chan_obj.regs).hcchar.devaddr
        = (d.host_chans p.chan_obj.regs).hcchar.devaddr := by
  unfold _buffer_exec at hr
  by_cases h0 : p.buffer.ctrl.cur_stg = 0
  · cases hs : p.buffer.ctrl.data_stg_skip
    · cases hb : p.buffer.xfer.buf with
      | none => simp [h0, hs, hb] at hr
      | some b =>
        cases ha : net_buf_add b b.size with
        | none => simp [h0, hs, hb, ha] at hr
        | some b1 =>
          simp only [h0, hs, hb, ha, Option.map_some', if_true, Bool.false_eq_true, if_false,
            Option.some.injEq] at hr
          subst hr
          simp [chan_regs_update_same, dwc2_ll_hcchar_en_channel, dwc2_ll_hcdma_set_buffer_addr,
            dwc2_ll_hctsiz_do_ping, dwc2_ll_hctsiz_prep_transfer, dwc2_ll_hcchar_set_dir]
    · cases hb : p.buffer.xfer.buf <;>
      · simp only [h0, hs, hb, net_buf_add_room _ 0 (Nat.zero_le _), Option.map_some', if_true,
          Option.some.injEq] at hr
        subst hr
        simp [chan_regs_update_same, dwc2_ll_hcchar_en_channel, dwc2_ll_hcdma_set_buffer_addr,
          dwc2_ll_hctsiz_do_ping, dwc2_ll_hctsiz_prep_transfer, dwc2_ll_hcchar_set_dir]
  · cases hb : p.buffer.xfer.buf <;>
    · simp only [h0, hb, net_buf_add_room _ 0 (Nat.zero_le _), Option.map_some', if_false,
        Option.some.injEq] at hr
      subst hr
      simp [chan_regs_update_same, dwc2_ll_hcchar_en_channel, dwc2_ll_hcdma_set_buffer_addr,
        dwc2_ll_hctsiz_do_ping, dwc2_ll_hctsiz_prep_transfer, dwc2_ll_hcchar_set_dir]

theorem hal_chan_decode_addr_frame (d : usb_dwc2_reg) (c : uhc_dwc2_channel_t) (v : Nat)
    (r : dwc2_hal_chan_event_t × usb_dwc2_reg × uhc_dwc2_channel_t)
    (hr : uhc_dwc2_hal_chan_decode_intr d c v = some r) :
    r.2.2.regs = c.regs
    ∧ (r.2.1.host_chans c.regs).hcchar.devaddr = (d.host_chans c.regs).hcchar.devaddr := by
  unfold uhc_dwc2_hal_chan_decode_intr at hr
  simp only [dwc2_ll_hcint_read_and_clear_intrs] at hr
  split_ifs at hr <;> simp only [Option.some.injEq] at hr <;> subst hr <;>
    simp [chan_regs_update_same, dwc2_ll_hcchar_dis_channel]

theorem decode_chan_addr_frame (d : usb_dwc2_reg) (p : pipe_t) (v : Nat)
    (r : pipe_event_t × usb_dwc2_reg × pipe_t) (hr : uhc_dwc2_decode_chan d p v = some r) :
    r.2.2.ep_char = p.ep_char
    ∧ r.2.2.chan_obj.regs = p.chan_obj.regs
    ∧ r.2.2.buffer.ctrl.set_addr = p.buffer.ctrl.set_addr
    ∧ r.2.2.buffer.ctrl.new_addr = p.buffer.ctrl.new_addr
    ∧ (r.2.1.host_chans p.chan_obj.regs).hcchar.devaddr
        = (d.host_chans p.chan_obj.regs).hcchar.devaddr := by
  unfold uhc_dwc2_decode_chan at hr
  cases hh : uhc_dwc2_hal_chan_decode_intr d p.chan_obj v with
  | none => simp [hh] at hr
  | some t =>
    obtain ⟨ev, d1, c1⟩ := t
    obtain ⟨hc1, hd1⟩ := hal_chan_decode_addr_frame d p.chan_obj v _ hh
    simp only at hc1 hd1
    simp only [hh] at hr
    cases ev
    · simp only at hr
      split_ifs at hr
      · cases hb : _buffer_exec d1 { p with chan_obj := c1 } with
        | none => simp [hb] at hr
        | some t2 =>
          obtain ⟨h1, h2, _, h4, h5, h6⟩ := buffer_exec_addr_frame d1 _ t2 hb
          simp only [hb, Option.some.injEq] at hr
          subst hr
          simp only at h1 h2 h4 h5 h6 ⊢
          rw [hc1] at h6
          exact ⟨h1, by rw [h2, hc1], h4, h5, by rw [h6, hd1]⟩
      · simp only [Option.some.injEq] at hr
        subst hr
        exact ⟨rfl, hc1, rfl, rfl, hd1⟩
    all_goals
      simp only [Option.some.injEq] at hr
      subst hr
      exact ⟨rfl, hc1, rfl, rfl, hd1⟩

theorem handle_pipe_events_set_addr (dev : device)
    (hev : dev.priv.pipe.last_event = .PIPE_EVENT_URB_DONE)
    (hsa : dev.priv.pipe.buffer.ctrl.set_addr = true) :
    (uhc_dwc2_handle_pipe_events dev).priv.pipe.ep_char.dev_addr
        = dev.priv.pipe.buffer.ctrl.new_addr
    ∧ ((uhc_dwc2_handle_pipe_events dev).base.host_chans dev.priv.pipe.chan_obj.regs).hcchar.devaddr
        = dev.priv.pipe.buffer.ctrl.new_addr
    ∧ (uhc_dwc2_handle_pipe_events dev).priv.pipe.buffer.ctrl.set_addr = false := by
  unfold uhc_dwc2_handle_pipe_events
  simp [hev, hsa, chan_regs_update_same, dwc2_ll_hcchar_set_dev_addr]

theorem handle_pipe_events_no_set_addr (dev : device)
    (hev : dev.priv.pipe.last_event = .PIPE_EVENT_URB_DONE)
    (hsa : dev.priv.pipe.buffer.ctrl.set_addr = false) :
    (uhc_dwc2_handle_pipe_events dev).priv.pipe.ep_char = dev.priv.pipe.ep_char
    ∧ (uhc_dwc2_handle_pipe_events dev).base = dev.base := by
  unfold uhc_dwc2_handle_pipe_events
  simp [hev, hsa]

theorem handle_pipe_events_other (dev : device)
    (hev : dev.priv.pipe.last_event ≠ .PIPE_EVENT_URB_DONE) :
    uhc_dwc2_handle_pipe_events dev = dev := by
  unfold uhc_dwc2_handle_pipe_events
  cases h : dev.priv.pipe.last_event with
  | PIPE_EVENT_URB_DONE => exact absurd h hev
  | _ => simp only [h]

/-- C4: the device address of the pipe (`ep_char.dev_addr`) and the
device-address field of the channel's HCCHAR are left unchanged by
`uhc_dwc2_submit_ctrl_xfer` and by every `uhc_dwc2_decode_chan`; handling
URB_DONE in `uhc_dwc2_handle_pipe_events` sets both to the recorded `new_addr`
and clears `set_addr` when `set_addr` is recorded, and leaves them unchanged
when it is not; no other pipe event changes anything.  For a submitted Set
Address request the address is therefore the old one after the submission and
after the Setup and Status completions, and `wValue & 0x7F` once URB_DONE is
handled. -/
theorem set_address_deferred_to_urb_done (dev : device) (xfer : uhc_transfer)
    (h0 v1 v2 : Nat) :
    (∀ r, uhc_dwc2_submit_ctrl_xfer dev xfer h0 = some r →
        r.2.priv.pipe.ep_char.dev_addr = dev.priv.pipe.ep_char.dev_addr
        ∧ (r.2.base.host_chans dev.priv.pipe.chan_obj.regs).hcchar.devaddr
            = (dev.base.host_chans dev.priv.pipe.chan_obj.regs).hcchar.devaddr)
    ∧ (∀ d p v r, uhc_dwc2_decode_chan d p v = some r →
        r.2.2.ep_char.dev_addr = p.ep_char.dev_addr
        ∧ (r.2.1.host_chans p.chan_obj.regs).hcchar.devaddr
            = (d.host_chans p.chan_obj.regs).hcchar.devaddr)
    ∧ (dev.priv.pipe.last_event = .PIPE_EVENT_URB_DONE →
        dev.priv.pipe.buffer.ctrl.set_addr = true →
        (uhc_dwc2_handle_pipe_events dev).priv.pipe.ep_char.dev_addr
            = dev.priv.pipe.buffer.ctrl.new_addr
        ∧ ((uhc_dwc2_handle_pipe_events dev).base.host_chans
              dev.priv.pipe.chan_obj.regs).hcchar.devaddr
            = dev.priv.pipe.buffer.ctrl.new_addr
        ∧ (uhc_dwc2_handle_pipe_events dev).priv.pipe.buffer.ctrl.set_addr = false)
    ∧ (dev.priv.pipe.last_event = .PIPE_EVENT_URB_DONE →
        dev.priv.pipe.buffer.ctrl.set_addr = false →
        (uhc_dwc2_handle_pipe_events dev).priv.pipe.ep_char.dev_addr
            = dev.priv.pipe.ep_char.dev_addr
        ∧ ((uhc_dwc2_handle_pipe_events dev).base.host_chans
              dev.priv.pipe.chan_obj.regs).hcchar.devaddr
            = (dev.base.host_chans dev.priv.pipe.chan_obj.regs).hcchar.devaddr)
    ∧ (dev.priv.pipe.last_event ≠ .PIPE_EVENT_URB_DONE →
        uhc_dwc2_handle_pipe_events dev = dev)
    ∧ (dev.priv.pipe.ep_char.type = .UHC_DWC2_XFER_TYPE_CTRL →
        dev.priv.pipe.chan_obj.halt_requested = false →
        dev.priv.pipe.ep_char.mps % 256 ≠ 0 →
        (xfer.ep &&& NOT32 0x80) % 256 = 0 →
        xfer.interval = 0 →
        xfer.setup_pkt.bRequest = USB_SREQ_SET_ADDRESS →
        xfer.setup_pkt.wLength = 0 →
        chan_complete_intr v1 → chan_complete_intr v2 →
        ∃ dev1 d2 p2 d3 p3,
          uhc_dwc2_submit_ctrl_xfer dev xfer h0 = some (0, dev1)
          ∧ dev1.priv.pipe.ep_char.dev_addr = dev.priv.pipe.ep_char.dev_addr
          ∧ (dev1.base.host_chans dev.priv.pipe.chan_obj.regs).hcchar.devaddr
              = (dev.base.host_chans dev.priv.pipe.chan_obj.regs).hcchar.devaddr
          ∧ uhc_dwc2_decode_chan dev1.base dev1.priv.pipe v1 = some (.PIPE_EVENT_NONE, d2, p2)
          ∧ p2.ep_char.dev_addr = dev.priv.pipe.ep_char.dev_addr
          ∧ (d2.host_chans dev.priv.pipe.chan_obj.regs).hcchar.devaddr
              = (dev.base.host_chans dev.priv.pipe.chan_obj.regs).hcchar.devaddr
          ∧ uhc_dwc2_decode_chan d2 p2 v2 = some (.PIPE_EVENT_URB_DONE, d3, p3)
          ∧ p3.ep_char.dev_addr = dev.priv.pipe.ep_char.dev_addr
          ∧ (d3.host_chans dev.priv.pipe.chan_obj.regs).hcchar.devaddr
              = (dev.base.host_chans dev.priv.pipe.chan_obj.regs).hcchar.devaddr
          ∧ (uhc_dwc2_handle_pipe_events
                { dev1 with base := d3, priv := { dev1.priv with pipe := p3 } }
              ).priv.pipe.ep_char.dev_addr = xfer.setup_pkt.wValue &&& 0x7F
          ∧ ((uhc_dwc2_handle_pipe_events
                { dev1 with base := d3, priv := { dev1.priv with pipe := p3 } }
              ).base.host_chans dev.priv.pipe.chan_obj.regs).hcchar.devaddr
              = xfer.setup_pkt.wValue &&& 0x7F
          ∧ (uhc_dwc2_handle_pipe_events
                { dev1 with base := d3, priv := { dev1.priv with pipe := p3 } }
              ).priv.pipe.buffer.ctrl.set_addr = false) := by
  refine ⟨?_, ?_, handle_pipe_events_set_addr dev, ?_, handle_pipe_events_other dev, ?_⟩
  · intro r hr
    obtain ⟨h1, _, h3⟩ := submit_ctrl_xfer_addr_frame dev xfer h0 r hr
    exact ⟨by rw [h1], h3⟩
  · intro d p v r hr
    obtain ⟨h1, _, _, _, h5⟩ := decode_chan_addr_frame d p v r hr
    exact ⟨by rw [h1], h5⟩
  · intro hev hsa
    obtain ⟨h1, h2⟩ := handle_pipe_events_no_set_addr dev hev hsa
    exact ⟨by rw [h1], by rw [h2]⟩
  · intro htype hhalt hmps hep hint hreq hlen hv1 hv2
    obtain ⟨dev1, hsub, _, _, hda1, hcur0, _, hskip, hsa, hna, _, hch, hepc, _, _⟩ :=
      submit_ctrl_xfer_ep0 dev xfer h0 hmps hep hint
    have hskip1 : dev1.priv.pipe.buffer.ctrl.data_stg_skip = true := by simp [hskip, hlen]
    have hsa1 : dev1.priv.pipe.buffer.ctrl.set_addr = true := by simp [hsa, hreq]
    obtain ⟨d2, p2, hd2, _, hc2, hda2, hr2, hq2, he2, _, _, hsa2, hna2, _, _⟩ :=
      decode_chan_next_stage dev1.base dev1.priv.pipe v1 (by rw [hepc]; exact htype)
        (by rw [hch]; exact hhalt) hv1 (by rw [hcur0]; decide)
        (by intro _ h; rw [hskip1] at h; cases h)
        (by intro _ h; rw [hskip1] at h; cases h)
    rw [hcur0, hskip1] at hc2
    simp only [true_and, Bool.true_eq_false, if_false] at hc2
    rw [hch] at hda2 hr2
    have hd3 := decode_chan_done d2 p2 v2 hq2 hv2 hc2
    refine ⟨dev1, d2, p2, _, _, hsub, by rw [hepc], hda1, hd2, by rw [he2, hepc],
      by rw [hda2, hda1], hd3, by simp [he2, hepc], ?_, ?_⟩
    · simp [hr2, chan_regs_update_same, hda2, hda1]
    · have hh := handle_pipe_events_set_addr
        { dev1 with base := chan_regs_update d2 p2.chan_obj.regs (fun r => { r with hcint := v2 }),
                    priv := { dev1.priv with pipe :=
                      { p2 with chan_obj := { p2.chan_obj with active := false },
                                last_event := .PIPE_EVENT_URB_DONE } } }
        rfl (by simp [hsa2, hsa1])
      refine ⟨hh.1.trans ?_, ?_, hh.2.2⟩
      · show p2.buffer.ctrl.new_addr = _
        rw [hna2, hna hreq]
      · rw [← hr2]
        refine hh.2.1.trans ?_
        show p2.buffer.ctrl.new_addr = _
        rw [hna2, hna hreq]

theorem set_address_deferred_to_urb_done_witness :
    ∃ dev1 d3 p3,
      uhc_dwc2_submit_ctrl_xfer sample_dev sample_set_address 0 = some (0, dev1)
      ∧ p3.ep_char.dev_addr = 0
      ∧ (uhc_dwc2_handle_pipe_events
            { dev1 with base := d3, priv := { dev1.priv with pipe := p3 } }
          ).priv.pipe.ep_char.dev_addr = 7 := by
  obtain ⟨dev1, d2, p2, d3, p3, h1, _, _, _, _, _, _, h8, _, h10, _, _⟩ :=
    (set_address_deferred_to_urb_done sample_dev sample_set_address 0 2 2).2.2.2.2.2
      rfl rfl (by decide) (by decide) rfl rfl rfl (by decide) (by decide)
  exact ⟨dev1, d3, p3, h1, h8, h10⟩

/-! ## Channel allocator -/

/-- A slot of a channel table is occupied. -/
theorem occupied_of_all (t : List (Option Nat))
    (h : ∀ j, j < t.length → ∃ q, t[j]? = some (some q)) : occupied_slots t = t.length := by
  unfold occupied_slots
  rw [List.countP_eq_length]
  intro a ha
  obtain ⟨n, hn⟩ := List.mem_iff_getElem?.mp ha
  have hlt : n < t.length := by
    by_contra hge
    rw [List.getElem?_eq_none (by omega)] at hn
    cases hn
  obtain ⟨q, hq⟩ := h n hlt
  rw [hq] at hn
  cases hn
  rfl

theorem occupied_set_free (t : List (Option Nat)) (i q : Nat) (hi : t[i]? = some none) :
    occupied_slots (t.set i (some q)) = occupied_slots t + 1 := by
  obtain ⟨hlt, hget⟩ := List.getElem?_eq_some.mp hi
  unfold occupied_slots
  rw [List.countP_set _ _ _ _ hlt, hget]
  simp

theorem chan_alloc_scan_spec (t : List (Option Nat)) (N : Nat) (hlen : t.length = N) :
    ∀ fuel i, N ≤ i + fuel →
      match chan_alloc_scan t N i fuel with
      | none => False
      | some none => ∀ j, i ≤ j → j < N → ∃ q, t[j]? = some (some q)
      | some (some k) =>
          i ≤ k ∧ k < N ∧ t[k]? = some none
          ∧ ∀ j, i ≤ j → j < k → ∃ q, t[j]? = some (some q) := by
  intro fuel
  induction fuel with
  | zero =>
    intro i hi
    simp only [chan_alloc_scan]
    intro j hj hjN
    omega
  | succ fuel ih =>
    intro i hi
    unfold chan_alloc_scan
    by_cases hiN : i < N
    · simp only [hiN, if_true]
      cases hti : t[i]? with
      | none =>
        rw [List.getElem?_eq_none_iff] at hti
        omega
      | some slot =>
        cases slot with
        | none =>
          simp only
          exact ⟨Nat.le_refl i, hiN, hti, fun j h1 h2 => by omega⟩
        | some q =>
          simp only
          have hrec := ih (i + 1) (by omega)
          cases hs : chan_alloc_scan t N (i + 1) fuel with
          | none => rw [hs] at hrec; exact hrec
          | some r =>
            cases r with
            | none =>
              rw [hs] at hrec
              simp only at hrec ⊢
              intro j hj hjN
              by_cases hji : j = i
              · subst hji; exact ⟨q, hti⟩
              · exact hrec j (by omega) hjN
            | some k =>
              rw [hs] at hrec
              simp only at hrec ⊢
              obtain ⟨h1, h2, h3, h4⟩ := hrec
              refine ⟨by omega, h2, h3, ?_⟩
              intro j hj hjk
              by_cases hji : j = i
              · subst hji; exact ⟨q, hti⟩
              · exact h4 j (by omega) hjk
    · simp only [hiN, if_false]
      intro j hj hjN
      omega

/-- What a successful allocation makes of the device, given the slot it takes. -/
theorem chan_alloc_success (dev : device) (chan_ptr : Nat) (chan_obj : uhc_dwc2_channel_t)
    (context hcint : Nat) (t : List (Option Nat))
    (ht : dev.priv.channels.hdls = some t)
    (hlen : t.length = dev.priv.const_cfg.num_channels)
    (hcount : dev.priv.channels.num_allocated = occupied_slots t)
    (hfree : dev.priv.channels.num_allocated ≠ dev.priv.const_cfg.num_channels) :
    ∃ i, i < dev.priv.const_cfg.num_channels ∧ t[i]? = some none
      ∧ (∀ j, j < i → ∃ q, t[j]? = some (some q))
      ∧ uhc_dwc2_chan_alloc dev chan_ptr chan_obj context hcint
          = some (true,
              { dev with
                base := chan_regs_update
                  (dwc2_ll_haintmsk_en_chan_intr
                    (chan_regs_update dev.base (i % 256)
                      (fun r => (dwc2_ll_hcint_read_and_clear_intrs r hcint).2)) i)
                  (i % 256)
                  (fun r => dwc2_ll_hctsiz_init (dwc2_ll_hcintmsk_set_intr_mask r CHAN_INTRS_EN_MSK))
                priv := { dev.priv with channels := { dev.priv.channels with
                  hdls := some (t.set i (some chan_ptr))
                  num_allocated := dev.priv.channels.num_allocated + 1 } } },
              { active := false, halt_requested := false, chan_idx := i % 16, regs := i % 256,
                type := .UHC_DWC2_XFER_TYPE_CTRL, chan_ctx := context }) := by
  have hspec := chan_alloc_scan_spec t dev.priv.const_cfg.num_channels hlen
    dev.priv.const_cfg.num_channels 0 (by omega)
  unfold uhc_dwc2_chan_alloc
  simp only [ht, hfree, if_false]
  cases hs : chan_alloc_scan t dev.priv.const_cfg.num_channels 0
      dev.priv.const_cfg.num_channels with
  | none => rw [hs] at hspec; exact hspec.elim
  | some r =>
    cases r with
    | none =>
      rw [hs] at hspec
      simp only at hspec
      have hall : occupied_slots t = t.length :=
        occupied_of_all t (fun j hj => hspec j (Nat.zero_le j) (by omega))
      omega
    | some k =>
      rw [hs] at hspec
      simp only at hspec
      obtain ⟨_, h2, h3, h4⟩ := hspec
      exact ⟨k, h2, h3, fun j hj => h4 j (Nat.zero_le j) hj, rfl⟩

/-- C5: `uhc_dwc2_chan_alloc` returns false exactly when `num_allocated` equals
the channel count, and then the device (slot table and `num_allocated`
included) and the caller's channel object are unchanged. -/
theorem chan_alloc_false_iff_full (dev : device) (chan_ptr : Nat)
    (chan_obj : uhc_dwc2_channel_t) (context hcint : Nat) :
    (∀ r, uhc_dwc2_chan_alloc dev chan_ptr chan_obj context hcint = some r →
        (r.1 = false ↔ dev.priv.channels.num_allocated = dev.priv.const_cfg.num_channels))
    ∧ (∀ r, uhc_dwc2_chan_alloc dev chan_ptr chan_obj context hcint = some r → r.1 = false →
        r.2.1 = dev ∧ r.2.2 = chan_obj)
    ∧ (dev.priv.channels.hdls ≠ none →
        dev.priv.channels.num_allocated = dev.priv.const_cfg.num_channels →
        uhc_dwc2_chan_alloc dev chan_ptr chan_obj context hcint = some (false, dev, chan_obj)) := by
  unfold uhc_dwc2_chan_alloc
  cases ht : dev.priv.channels.hdls with
  | none => simp
  | some t =>
    by_cases hfull : dev.priv.channels.num_allocated = dev.priv.const_cfg.num_channels
    · simp only [hfull, if_true, Option.some.injEq]
      refine ⟨?_, ?_, fun _ _ => trivial⟩
      · intro r hr
        subst hr
        simp
      · intro r hr _
        subst hr
        exact ⟨rfl, rfl⟩
    · simp only [hfull, if_false]
      cases hs : chan_alloc_scan t dev.priv.const_cfg.num_channels 0
          dev.priv.const_cfg.num_channels with
      | none => simp
      | some k =>
        cases k with
        | none => simp
        | some k =>
          simp only [Option.some.injEq]
          refine ⟨?_, ?_, fun _ h => absurd h (by simp)⟩
          · intro r hr
            subst hr
            simp
          · intro r hr hf
            subst hr
            simp at hf

theorem chan_alloc_false_iff_full_witness :
    uhc_dwc2_chan_alloc sample_dev_full 0x1100 sample_pipe.chan_obj 1 0
      = some (false, sample_dev_full, sample_pipe.chan_obj) :=
  (chan_alloc_false_iff_full sample_dev_full 0x1100 sample_pipe.chan_obj 1 0).2.2
    (by simp [sample_dev_full]) rfl

/-- C6: called with `num_allocated` below the channel count on a table whose
`num_allocated` is the number of occupied slots, `uhc_dwc2_chan_alloc` succeeds
(its assertion does not fire), takes the lowest free slot `i` and changes no
other slot, increments `num_allocated` by one, and leaves the channel object
with `chan_idx = i`, both status flags clear, the supplied owner context, and
the channel interrupt mask {transfer complete, channel halted}. -/
theorem chan_alloc_takes_lowest_free (dev : device) (chan_ptr : Nat)
    (chan_obj : uhc_dwc2_channel_t) (context hcint : Nat) (t : List (Option Nat))
    (ht : dev.priv.channels.hdls = some t)
    (hlen : t.length = dev.priv.const_cfg.num_channels)
    (hN : dev.priv.const_cfg.num_channels ≤ 16)
    (hcount : dev.priv.channels.num_allocated = occupied_slots t)
    (hfree : dev.priv.channels.num_allocated < dev.priv.const_cfg.num_channels) :
    ∃ i dev1 chan1,
      uhc_dwc2_chan_alloc dev chan_ptr chan_obj context hcint = some (true, dev1, chan1)
      ∧ i < dev.priv.const_cfg.num_channels
      ∧ t[i]? = some none
      ∧ (∀ j, j < i → ∃ q, t[j]? = some (some q))
      ∧ (∃ t1, dev1.priv.channels.hdls = some t1 ∧ t1.length = t.length
          ∧ t1[i]? = some (some chan_ptr) ∧ ∀ j, j ≠ i → t1[j]? = t[j]?)
      ∧ dev1.priv.channels.num_allocated = dev.priv.channels.num_allocated + 1
      ∧ chan1.chan_idx = i
      ∧ chan1.active = false
      ∧ chan1.halt_requested = false
      ∧ chan1.chan_ctx = context
      ∧ (dev1.base.host_chans chan1.regs).hcintmsk = CHAN_INTRS_EN_MSK
      ∧ CHAN_INTRS_EN_MSK = USB_DWC2_HCINT_XFERCOMPL ||| USB_DWC2_HCINT_CHHLTD := by
  obtain ⟨i, hi, hti, hlow, halloc⟩ := chan_alloc_success dev chan_ptr chan_obj context hcint t ht
    hlen hcount (by omega)
  have hilt : i < t.length := by omega
  refine ⟨i, _, _, halloc, hi, hti, hlow, ⟨t.set i (some chan_ptr), rfl, by simp, ?_, ?_⟩, rfl,
    ?_, rfl, rfl, rfl, ?_, rfl⟩
  · simp [List.getElem?_set, hilt]
  · intro j hj
    exact List.getElem?_set_ne (Ne.symm hj)
  · show i % 16 = i
    omega
  · simp [chan_regs_update_same, dwc2_ll_hctsiz_init, dwc2_ll_hcintmsk_set_intr_mask]

theorem chan_alloc_takes_lowest_free_witness :
    ∃ dev1 chan1,
      uhc_dwc2_chan_alloc sample_dev 0x1100 sample_pipe.chan_obj 1 0 = some (true, dev1, chan1)
      ∧ dev1.priv.channels.num_allocated = 2
      ∧ chan1.active = false := by
  obtain ⟨i, dev1, chan1, h1, _, _, _, _, h6, _, h8, _⟩ :=
    chan_alloc_takes_lowest_free sample_dev 0x1100 sample_pipe.chan_obj 1 0
      [some 0x1000, none, none, none, none, none, none, none] rfl rfl (by decide) (by decide)
      (by decide)
  exact ⟨dev1, chan1, h1, h6, h8⟩

/-- The allocator invariant along a sequence of calls: the first `m` slots are
occupied, the others free, and `num_allocated = m`. -/
theorem chan_alloc_calls_filled (N : Nat) (hN : N ≤ 16) :
    ∀ (calls : List (Nat × uhc_dwc2_channel_t × Nat × Nat)) (dev : device) (m : Nat)
      (t : List (Option Nat)),
      dev.priv.const_cfg.num_channels = N →
      dev.priv.channels.hdls = some t →
      t.length = N →
      m ≤ N →
      dev.priv.channels.num_allocated = m →
      occupied_slots t = m →
      (∀ j, j < m → ∃ q, t[j]? = some (some q)) →
      (∀ j, m ≤ j → j < N → t[j]? = some none) →
      ∃ dev1 objs t1,
        chan_alloc_calls dev calls = some (dev1, objs)
        ∧ objs.length = calls.length
        ∧ dev1.priv.const_cfg.num_channels = N
        ∧ dev1.priv.channels.hdls = some t1
        ∧ t1.length = N
        ∧ dev1.priv.channels.num_allocated = min (m + calls.length) N
        ∧ occupied_slots t1 = min (m + calls.length) N
        ∧ (∀ j, j < m → t1[j]? = t[j]?)
        ∧ (∀ n, n < calls.length →
            if m + n < N then
              ∃ c, objs[n]? = some (some c) ∧ c.chan_idx = m + n
                ∧ t1[m + n]? = some (some ((calls[n]?.map Prod.fst).getD 0))
            else objs[n]? = some none) := by
  intro calls
  induction calls with
  | nil =>
    intro dev m t hNc ht hlen hm hnum hocc _ _
    refine ⟨dev, [], t, rfl, rfl, hNc, ht, hlen, ?_, ?_, fun _ _ => rfl, ?_⟩
    · simp [hnum, Nat.min_eq_left hm]
    · simp [hocc, Nat.min_eq_left hm]
    · intro n hn
      simp at hn
  | cons call calls ih =>
    intro dev m t hNc ht hlen hm hnum hocc hlo hhi
    obtain ⟨chan_ptr, chan_obj, context, hcint⟩ := call
    by_cases hfull : m = N
    · -- the table is full: the call fails and changes nothing
      have hfalse : uhc_dwc2_chan_alloc dev chan_ptr chan_obj context hcint
          = some (false, dev, chan_obj) := by
        unfold uhc_dwc2_chan_alloc
        simp [ht, hnum, hNc, hfull]
      obtain ⟨dev1, objs, t1, hrun, hol, hN1, ht1, hl1, hn1, ho1, hkeep, hel⟩ :=
        ih dev m t hNc ht hlen hm hnum hocc hlo hhi
      refine ⟨dev1, none :: objs, t1, ?_, by simp [hol], hN1, ht1, hl1, ?_, ?_, hkeep, ?_⟩
      · simp [chan_alloc_calls, hfalse, hrun]
      · rw [hn1]; simp only [List.length_cons]; omega
      · rw [ho1]; simp only [List.length_cons]; omega
      · intro n hn
        have hge : ¬ m + n < N := by omega
        simp only [hge, if_false]
        cases n with
        | zero => simp
        | succ n =>
          have := hel n (by simpa using hn)
          have hge' : ¬ m + n < N := by omega
          simp only [hge', if_false] at this
          simpa using this
    · -- a free slot exists: the call takes slot `m`
      have hmlt : m < N := by omega
      obtain ⟨i, hi, hti, hlow, halloc⟩ := chan_alloc_success dev chan_ptr chan_obj context hcint
        t ht (by rw [hlen, hNc]) (by rw [hnum, hocc]) (by rw [hnum, hNc]; exact hfull)
      have him : i = m := by
        rcases Nat.lt_trichotomy i m with h | h | h
        · obtain ⟨q, hq⟩ := hlo i h
          rw [hq] at hti
          cases hti
        · exact h
        · obtain ⟨q, hq⟩ := hlow m h
          rw [hhi m (Nat.le_refl m) hmlt] at hq
          cases hq
      subst him
      have hilt : i < t.length := by omega
      have hex : ∃ dev2 c2,
          uhc_dwc2_chan_alloc dev chan_ptr chan_obj context hcint = some (true, dev2, c2)
          ∧ dev2.priv.const_cfg.num_channels = dev.priv.const_cfg.num_channels
          ∧ dev2.priv.channels.hdls = some (t.set i (some chan_ptr))
          ∧ dev2.priv.channels.num_allocated = dev.priv.channels.num_allocated + 1
          ∧ c2.chan_idx = i % 16 := ⟨_, _, halloc, rfl, rfl, rfl, rfl⟩
      obtain ⟨dev2, c2, halloc2, hN2, ht2, hn2, hc2⟩ := hex
      obtain ⟨dev1, objs, t1, hrun, hol, hN1, ht1, hl1, hn1, ho1, hkeep, hel⟩ :=
        ih dev2 (i + 1) (t.set i (some chan_ptr)) (by rw [hN2, hNc]) ht2 (by simp [hlen])
          (by omega) (by rw [hn2, hnum]) (by rw [occupied_set_free t i chan_ptr hti, hocc])
          (by
            intro j hj
            by_cases hji : j = i
            · subst hji
              exact ⟨chan_ptr, by simp [List.getElem?_set, hilt]⟩
            · rw [List.getElem?_set_ne (Ne.symm hji)]
              exact hlo j (by omega))
          (by
            intro j hj hjN
            rw [List.getElem?_set_ne (by omega)]
            exact hhi j (by omega) hjN)
      refine ⟨dev1, some c2 :: objs, t1, ?_, by simp [hol], hN1, ht1, hl1, ?_, ?_, ?_, ?_⟩
      · simp only [chan_alloc_calls, halloc2, hrun, if_true]
      · rw [hn1]; simp only [List.length_cons]; congr 1; omega
      · rw [ho1]; simp only [List.length_cons]; congr 1; omega
      · intro j hj
        rw [hkeep j (by omega), List.getElem?_set_ne (by omega)]
      · intro n hn
        cases n with
        | zero =>
          simp only [Nat.add_zero, hmlt, if_true]
          refine ⟨c2, by simp, ?_, ?_⟩
          · rw [hc2]
            omega
          · rw [hkeep i (by omega)]
            simp [List.getElem?_set, hilt]
        | succ n =>
          have := hel n (by simpa using hn)
          have heq : i + (n + 1) = i + 1 + n := by omega
          rw [heq]
          simpa using this

/-- C7: after every call of a sequence of `uhc_dwc2_chan_alloc` calls on an
empty table of N slots (N at most 16), `num_allocated` is the number of
occupied slots and at most N, every successfully allocated channel object
occupies the slot of its `chan_idx` (the slot holds the address of the object
given in that call), and two successful calls never get the same `chan_idx`,
hence never the same slot. -/
theorem chan_alloc_calls_invariant (dev : device)
    (calls : List (Nat × uhc_dwc2_channel_t × Nat × Nat)) (k : Nat)
    (hN : dev.priv.const_cfg.num_channels ≤ 16)
    (ht : dev.priv.channels.hdls = some (List.replicate dev.priv.const_cfg.num_channels none))
    (hnum : dev.priv.channels.num_allocated = 0) :
    ∃ dev1 objs t1,
      chan_alloc_calls dev (calls.take k) = some (dev1, objs)
      ∧ dev1.priv.channels.hdls = some t1
      ∧ t1.length = dev.priv.const_cfg.num_channels
      ∧ dev1.priv.channels.num_allocated = occupied_slots t1
      ∧ dev1.priv.channels.num_allocated ≤ dev.priv.const_cfg.num_channels
      ∧ (∀ (n : Nat) (c : uhc_dwc2_channel_t), objs[n]? = some (some c) →
          c.chan_idx < dev.priv.const_cfg.num_channels
          ∧ t1[c.chan_idx]? = some (some (((calls.take k)[n]?.map Prod.fst).getD 0)))
      ∧ (∀ (n1 n2 : Nat) (c1 c2 : uhc_dwc2_channel_t), n1 ≠ n2 →
          objs[n1]? = some (some c1) → objs[n2]? = some (some c2) →
          c1.chan_idx ≠ c2.chan_idx) := by
  obtain ⟨dev1, objs, t1, hrun, hol, _, ht1, hl1, hn1, ho1, _, hel⟩ :=
    chan_alloc_calls_filled dev.priv.const_cfg.num_channels hN (calls.take k) dev 0
      (List.replicate dev.priv.const_cfg.num_channels none) rfl ht (by simp) (Nat.zero_le _)
      hnum
      (by
        unfold occupied_slots
        rw [List.countP_eq_zero]
        intro a ha
        rw [List.eq_of_mem_replicate ha]
        simp)
      (fun j hj => absurd hj (Nat.not_lt_zero j))
      (fun j _ hj => by simp [hj])
  have hidx : ∀ n c, objs[n]? = some (some c) →
      n < dev.priv.const_cfg.num_channels ∧ c.chan_idx = n
      ∧ t1[n]? = some (some (((calls.take k)[n]?.map Prod.fst).getD 0)) := by
    intro n c hc
    have hn : n < (calls.take k).length := by
      rw [← hol]
      by_contra hge
      rw [List.getElem?_eq_none (by omega)] at hc
      cases hc
    have h := hel n hn
    simp only [Nat.zero_add] at h
    by_cases hlt : n < dev.priv.const_cfg.num_channels
    · simp only [hlt, if_true] at h
      obtain ⟨c', h1, h2, h3⟩ := h
      rw [hc] at h1
      cases h1
      exact ⟨hlt, h2, h3⟩
    · simp only [hlt, if_false] at h
      rw [hc] at h
      cases h
  refine ⟨dev1, objs, t1, hrun, ht1, hl1, by rw [hn1, ho1], ?_, ?_, ?_⟩
  · rw [hn1]
    exact Nat.min_le_right _ _
  · intro n c hc
    obtain ⟨h1, h2, h3⟩ := hidx n c hc
    rw [h2]
    exact ⟨h1, h3⟩
  · intro n1 n2 c1 c2 hne h1 h2
    rw [(hidx n1 c1 h1).2.1, (hidx n2 c2 h2).2.1]
    exact hne

theorem chan_alloc_calls_invariant_witness :
    ∃ dev1 objs t1,
      chan_alloc_calls sample_dev_empty
          [(0x1000, sample_pipe.chan_obj, 1, 0), (0x1100, sample_pipe.chan_obj, 2, 0)]
        = some (dev1, objs)
      ∧ dev1.priv.channels.hdls = some t1
      ∧ dev1.priv.channels.num_allocated = occupied_slots t1 := by
  obtain ⟨dev1, objs, t1, h1, h2, _, h4, _⟩ :=
    chan_alloc_calls_invariant sample_dev_empty
      [(0x1000, sample_pipe.chan_obj, 1, 0), (0x1100, sample_pipe.chan_obj, 2, 0)] 2
      (by decide) rfl rfl
  exact ⟨dev1, objs, t1, h1, h2, h4⟩

/-! ## FIFO partitioner -/

theorem to_u16_of_lt (x : Int) (h0 : 0 ≤ x) (h1 : x < 65536) : to_u16 x = x.toNat := by
  unfold to_u16
  rw [Int.emod_eq_of_lt h0 h1]

/-- C8: evaluation of `uhc_dwc2_config_fixed_dma_fifo` at FIFO depth 128 and 8
channels: the periodic size wraps to 65484 and the three sizes exceed `top`. -/
theorem fifo_layout_wraps_at_depth_128 :
    (uhc_dwc2_config_fixed_dma_fifo
        { num_channels := 8, hsphy_type := 0, fsphy_type := 1, dma := true, fifo_depth := 128 }
        { top := 0, nptxfsiz := 0, rxfsiz := 0, ptxfsiz := 0 })
      = (0, { top := 120, nptxfsiz := 32, rxfsiz := 140, ptxfsiz := 65484 })
    ∧ ¬ (32 + 140 + 65484 ≤ 120) := by
  constructor
  · rfl
  · decide

/-- C9: for a 16-bit FIFO depth D and channel count N with D ≥ 2N + 164,
`uhc_dwc2_config_fixed_dma_fifo` returns 0 with top = D - N, nptxfsiz = 32,
rxfsiz = 132 + N and ptxfsiz = D - 2N - 164; the three sizes sum to `top`, and
all three are positive when D > 2N + 164. -/
theorem fifo_layout_without_wrap (const_cfg : uhc_dwc2_constant_config_t)
    (fifo : uhc_dwc2_fifo_config_t)
    (hD : const_cfg.fifo_depth < 65536)
    (hge : 2 * const_cfg.num_channels + 164 ≤ const_cfg.fifo_depth) :
    (uhc_dwc2_config_fixed_dma_fifo const_cfg fifo).1 = 0
    ∧ (uhc_dwc2_config_fixed_dma_fifo const_cfg fifo).2.top
        = const_cfg.fifo_depth - const_cfg.num_channels
    ∧ (uhc_dwc2_config_fixed_dma_fifo const_cfg fifo).2.nptxfsiz = 2 * (64 / 4)
    ∧ (uhc_dwc2_config_fixed_dma_fifo const_cfg fifo).2.nptxfsiz = 32
    ∧ (uhc_dwc2_config_fixed_dma_fifo const_cfg fifo).2.rxfsiz
        = 2 * (256 / 4 + 2) + const_cfg.num_channels
    ∧ (uhc_dwc2_config_fixed_dma_fifo const_cfg fifo).2.rxfsiz = 132 + const_cfg.num_channels
    ∧ (uhc_dwc2_config_fixed_dma_fifo const_cfg fifo).2.ptxfsiz
        = const_cfg.fifo_depth - 2 * const_cfg.num_channels - 164
    ∧ (uhc_dwc2_config_fixed_dma_fifo const_cfg fifo).2.nptxfsiz
        + (uhc_dwc2_config_fixed_dma_fifo const_cfg fifo).2.rxfsiz
        + (uhc_dwc2_config_fixed_dma_fifo const_cfg fifo).2.ptxfsiz
        = (uhc_dwc2_config_fixed_dma_fifo const_cfg fifo).2.top
    ∧ (2 * const_cfg.num_channels + 164 < const_cfg.fifo_depth →
        0 < (uhc_dwc2_config_fixed_dma_fifo const_cfg fifo).2.nptxfsiz
        ∧ 0 < (uhc_dwc2_config_fixed_dma_fifo const_cfg fifo).2.rxfsiz
        ∧ 0 < (uhc_dwc2_config_fixed_dma_fifo const_cfg fifo).2.ptxfsiz) := by
  have htop : to_u16 ((const_cfg.fifo_depth : Int) - const_cfg.num_channels)
      = const_cfg.fifo_depth - const_cfg.num_channels := by
    rw [to_u16_of_lt _ (by omega) (by omega)]
    omega
  have hnp : to_u16 ((2 * (EPSIZE_BULK_FS / 4) : Nat) : Int) = 32 := by
    decide
  have hrx : to_u16 ((2 * (256 / 4 + 2) + const_cfg.num_channels : Nat) : Int)
      = 132 + const_cfg.num_channels := by
    rw [to_u16_of_lt _ (by omega) (by omega)]
    omega
  have hptx : to_u16 (((const_cfg.fifo_depth - const_cfg.num_channels : Nat) : Int)
        - (((32 : Nat) : Int) + ((132 + const_cfg.num_channels : Nat) : Int)))
      = const_cfg.fifo_depth - 2 * const_cfg.num_channels - 164 := by
    rw [to_u16_of_lt _ (by omega) (by omega)]
    omega
  have key : uhc_dwc2_config_fixed_dma_fifo const_cfg fifo
      = (0, { top := const_cfg.fifo_depth - const_cfg.num_channels, nptxfsiz := 32,
              rxfsiz := 132 + const_cfg.num_channels,
              ptxfsiz := const_cfg.fifo_depth - 2 * const_cfg.num_channels - 164 }) := by
    unfold uhc_dwc2_config_fixed_dma_fifo
    simp only [htop, hnp, hrx, hptx]
  rw [key]
  refine ⟨rfl, rfl, rfl, rfl, ?_, rfl, rfl, ?_, ?_⟩
  · show 132 + const_cfg.num_channels = 2 * (256 / 4 + 2) + const_cfg.num_channels
    omega
  · show 32 + (132 + const_cfg.num_channels)
        + (const_cfg.fifo_depth - 2 * const_cfg.num_channels - 164)
      = const_cfg.fifo_depth - const_cfg.num_channels
    omega
  · intro h
    show 0 < 32 ∧ 0 < 132 + const_cfg.num_channels
      ∧ 0 < const_cfg.fifo_depth - 2 * const_cfg.num_channels - 164
    omega

theorem fifo_layout_without_wrap_witness :
    (uhc_dwc2_config_fixed_dma_fifo sample_const_cfg sample_dev.priv.fifo).2.top = 248
    ∧ (uhc_dwc2_config_fixed_dma_fifo sample_const_cfg sample_dev.priv.fifo).2.ptxfsiz = 76 :=
  ⟨(fifo_layout_without_wrap sample_const_cfg sample_dev.priv.fifo (by decide) (by decide)).2.1,
   (fifo_layout_without_wrap sample_const_cfg sample_dev.priv.fifo (by decide)
      (by decide)).2.2.2.2.2.2.1⟩

/-! ## Port reset -/

/-- C10: `uhc_dwc2_port_reset` returns 0 exactly when `port_state` is RESETTING
after the reset-hold wait and, after the reset-recovery wait, `port_state` is
RESETTING and `conn_dev_ena` is set; otherwise it returns -EIO.  When it returns
0 the FIFO layout is programmed (`dwc2_hal_set_fifo_config` on the state after
the second wait) and `port_state` stays RESETTING; when it returns -EIO the
device is as the last wait left it, so nothing is programmed.  The port state
after the call is ENABLED only if the interrupt context made it so. -/
theorem port_reset_result (hw : usb_dwc2_hw) (dev : device) (hprt1 hprt2 : Nat)
    (hold recovery : device → device) :
    ((uhc_dwc2_port_reset hw dev hprt1 hprt2 hold recovery).1 = 0
      ↔ ((port_reset_after_hold hw dev hprt1 hold).priv.dynamic.port_state
            = .UHC_PORT_STATE_RESETTING
          ∧ (port_reset_after_recovery hw (port_reset_after_hold hw dev hprt1 hold) hprt2
              recovery).priv.dynamic.port_state = .UHC_PORT_STATE_RESETTING
          ∧ (port_reset_after_recovery hw (port_reset_after_hold hw dev hprt1 hold) hprt2
              recovery).priv.dynamic.flags.conn_dev_ena = true))
    ∧ ((uhc_dwc2_port_reset hw dev hprt1 hprt2 hold recovery).1 ≠ 0 →
        (uhc_dwc2_port_reset hw dev hprt1 hprt2 hold recovery).1 = - EIO)
    ∧ ((uhc_dwc2_port_reset hw dev hprt1 hprt2 hold recovery).1 = 0 →
        (uhc_dwc2_port_reset hw dev hprt1 hprt2 hold recovery).2.base
            = (dwc2_hal_set_fifo_config hw
                (port_reset_after_recovery hw (port_reset_after_hold hw dev hprt1 hold) hprt2
                  recovery).base
                (port_reset_after_recovery hw (port_reset_after_hold hw dev hprt1 hold) hprt2
                  recovery).priv.fifo).1
        ∧ (uhc_dwc2_port_reset hw dev hprt1 hprt2 hold recovery).2.priv.dynamic.port_state
            = .UHC_PORT_STATE_RESETTING)
    ∧ ((uhc_dwc2_port_reset hw dev hprt1 hprt2 hold recovery).1 ≠ 0 →
        ((port_reset_after_hold hw dev hprt1 hold).priv.dynamic.port_state
              ≠ .UHC_PORT_STATE_RESETTING
            ∧ (uhc_dwc2_port_reset hw dev hprt1 hprt2 hold recovery).2
                = port_reset_after_hold hw dev hprt1 hold)
        ∨ ((port_reset_after_hold hw dev hprt1 hold).priv.dynamic.port_state
              = .UHC_PORT_STATE_RESETTING
            ∧ (uhc_dwc2_port_reset hw dev hprt1 hprt2 hold recovery).2
                = port_reset_after_recovery hw (port_reset_after_hold hw dev hprt1 hold) hprt2
                    recovery))
    ∧ ((uhc_dwc2_port_reset hw dev hprt1 hprt2 hold recovery).2.priv.dynamic.port_state
          = .UHC_PORT_STATE_ENABLED →
        (port_reset_after_hold hw dev hprt1 hold).priv.dynamic.port_state
            = .UHC_PORT_STATE_ENABLED
        ∨ (port_reset_after_recovery hw (port_reset_after_hold hw dev hprt1 hold) hprt2
              recovery).priv.dynamic.port_state = .UHC_PORT_STATE_ENABLED) := by
  unfold uhc_dwc2_port_reset
  by_cases h1 : (port_reset_after_hold hw dev hprt1 hold).priv.dynamic.port_state
      = .UHC_PORT_STATE_RESETTING
  · by_cases h2 : (port_reset_after_recovery hw (port_reset_after_hold hw dev hprt1 hold) hprt2
        recovery).priv.dynamic.port_state = .UHC_PORT_STATE_RESETTING
    · cases h3 : (port_reset_after_recovery hw (port_reset_after_hold hw dev hprt1 hold) hprt2
          recovery).priv.dynamic.flags.conn_dev_ena
      · simp [h1, h2, h3, uhc_dwc2_flush_pipes, EIO]
      · simp [h1, h2, h3, uhc_dwc2_flush_pipes, EIO]
    · simp [h1, h2, uhc_dwc2_flush_pipes, EIO]
  · simp [h1, uhc_dwc2_flush_pipes, EIO]
    exact fun h => Or.inl h

theorem port_reset_result_witness :
    (uhc_dwc2_port_reset sample_hw sample_dev 0x1001 0x1101 id id).1 = 0 :=
  (port_reset_result sample_hw sample_dev 0x1001 0x1101 id id).1.mpr ⟨rfl, rfl, rfl⟩

/-! ## Debounce lock and port power -/

theorem testBit_NOT32 (x k : Nat) :
    (NOT32 x).testBit k = (decide (k < 32) && !x.testBit k) := by
  have hlt : x % 2 ^ 32 < 2 ^ 32 := Nat.mod_lt _ (by decide)
  have h : NOT32 x = 2 ^ 32 - (x % 2 ^ 32 + 1) := by
    unfold NOT32
    omega
  rw [h, Nat.testBit_two_pow_sub_succ hlt, Nat.testBit_mod_two_pow]
  by_cases hk : k < 32 <;> simp [hk]

theorem or_mask_and_left (a p q : Nat) : (a ||| (p ||| q)) &&& p = p := by
  apply Nat.eq_of_testBit_eq
  intro i
  simp only [Nat.testBit_and, Nat.testBit_or]
  cases a.testBit i <;> cases p.testBit i <;> cases q.testBit i <;> rfl

theorem or_mask_and_right (a p q : Nat) : (a ||| (p ||| q)) &&& q = q := by
  apply Nat.eq_of_testBit_eq
  intro i
  simp only [Nat.testBit_and, Nat.testBit_or]
  cases a.testBit i <;> cases p.testBit i <;> cases q.testBit i <;> rfl

theorem decode_intr_shape (hw : usb_dwc2_hw) (dev : device) (gintsts hprt hprt_sts haint : Nat) :
    ∃ B : usb_dwc2_reg, B.gintmsk = dev.base.gintmsk ∧
      (((uhc_dwc2_decode_intr hw dev gintsts hprt hprt_sts haint).2 = { dev with base := B }
          ∧ (uhc_dwc2_decode_intr hw dev gintsts hprt hprt_sts haint).1
              ≠ .UHC_DWC2_CORE_EVENT_CONN
          ∧ (uhc_dwc2_decode_intr hw dev gintsts hprt hprt_sts haint).1
              ≠ .UHC_DWC2_CORE_EVENT_DISCONN
          ∧ (uhc_dwc2_decode_intr hw dev gintsts hprt hprt_sts haint).1
              ≠ .UHC_DWC2_CORE_EVENT_CHAN)
        ∨ ((uhc_dwc2_decode_intr hw dev gintsts hprt hprt_sts haint).2
              = uhc_dwc2_lock_enable hw { dev with base := B }
          ∧ ((uhc_dwc2_decode_intr hw dev gintsts hprt hprt_sts haint).1
                = .UHC_DWC2_CORE_EVENT_CONN
              ∨ (uhc_dwc2_decode_intr hw dev gintsts hprt hprt_sts haint).1
                = .UHC_DWC2_CORE_EVENT_DISCONN))
        ∨ ((uhc_dwc2_decode_intr hw dev gintsts hprt hprt_sts haint).2
              = { dev with
                  base := B
                  priv := { dev.priv with channels := { dev.priv.channels with
                    pending_intrs_msk := dwc2_ll_haint_get_chan_intrs haint } } }
          ∧ (uhc_dwc2_decode_intr hw dev gintsts hprt hprt_sts haint).1
              = .UHC_DWC2_CORE_EVENT_CHAN)) := by
  generalize hr : uhc_dwc2_decode_intr hw dev gintsts hprt hprt_sts haint = r
  unfold uhc_dwc2_decode_intr at hr
  simp only [dwc2_ll_gintsts_read_and_clear_intrs, dwc2_ll_hprt_intr_read_and_clear] at hr
  by_cases c0 : gintsts &&& hw.USB_DWC2_GINTSTS_PRTINT = 0
  · simp only [c0, ne_eq, not_true_eq_false, not_false_eq_true, if_true, if_false] at hr
    refine ⟨(dwc2_ll_gintsts_read_and_clear_intrs dev.base gintsts).2, rfl, ?_⟩
    split_ifs at hr <;> subst hr <;> first
      | (left; exact ⟨rfl, by simp⟩)
      | (right; left; exact ⟨rfl, by simp⟩)
      | (right; right; exact ⟨rfl, by simp⟩)
      | simp_all
  · simp only [c0, ne_eq, not_true_eq_false, not_false_eq_true, if_true, if_false] at hr
    refine ⟨(dwc2_ll_hprt_intr_read_and_clear
      (dwc2_ll_gintsts_read_and_clear_intrs dev.base gintsts).2 hprt).2, rfl, ?_⟩
    split_ifs at hr <;> subst hr <;> first
      | (left; exact ⟨rfl, by simp⟩)
      | (right; left; exact ⟨rfl, by simp⟩)
      | (right; right; exact ⟨rfl, by simp⟩)
      | simp_all

/-- C20: `uhc_dwc2_decode_intr` engages the debounce lock exactly when the event
it returns is CONN or DISCONN: then `lock_enabled` is set and GINTMSK is the old
value with the PRTINT and DISCONNINT bits cleared, every other bit of the 32 as
it was; for every other returned event `lock_enabled` and GINTMSK are
unchanged. -/
theorem decode_intr_engages_lock (hw : usb_dwc2_hw) (dev : device)
    (gintsts hprt hprt_sts haint : Nat) :
    (((uhc_dwc2_decode_intr hw dev gintsts hprt hprt_sts haint).1 = .UHC_DWC2_CORE_EVENT_CONN
        ∨ (uhc_dwc2_decode_intr hw dev gintsts hprt hprt_sts haint).1
            = .UHC_DWC2_CORE_EVENT_DISCONN) →
      (uhc_dwc2_decode_intr hw dev gintsts hprt hprt_sts haint).2.priv.dynamic.flags.lock_enabled
          = true
      ∧ (uhc_dwc2_decode_intr hw dev gintsts hprt hprt_sts haint).2.base.gintmsk
          = dev.base.gintmsk
              &&& NOT32 (hw.USB_DWC2_GINTSTS_PRTINT ||| hw.USB_DWC2_GINTSTS_DISCONNINT)
      ∧ ∀ k : Nat, k < 32 →
          (uhc_dwc2_decode_intr hw dev gintsts hprt hprt_sts haint).2.base.gintmsk.testBit k
            = (dev.base.gintmsk.testBit k
                && !(hw.USB_DWC2_GINTSTS_PRTINT.testBit k
                      || hw.USB_DWC2_GINTSTS_DISCONNINT.testBit k)))
    ∧ (¬ ((uhc_dwc2_decode_intr hw dev gintsts hprt hprt_sts haint).1
            = .UHC_DWC2_CORE_EVENT_CONN
          ∨ (uhc_dwc2_decode_intr hw dev gintsts hprt hprt_sts haint).1
            = .UHC_DWC2_CORE_EVENT_DISCONN) →
      (uhc_dwc2_decode_intr hw dev gintsts hprt hprt_sts haint).2.priv.dynamic.flags.lock_enabled
          = dev.priv.dynamic.flags.lock_enabled
      ∧ (uhc_dwc2_decode_intr hw dev gintsts hprt hprt_sts haint).2.base.gintmsk
          = dev.base.gintmsk) := by
  obtain ⟨B, hB, h⟩ := decode_intr_shape hw dev gintsts hprt hprt_sts haint
  rcases h with ⟨h2, hc, hd, _⟩ | ⟨h2, _⟩ | ⟨h2, hch⟩
  · refine ⟨fun hcd => ?_, fun _ => ?_⟩
    · rcases hcd with hcd | hcd
      · exact absurd hcd hc
      · exact absurd hcd hd
    · rw [h2]
      exact ⟨rfl, hB⟩
  · refine ⟨fun _ => ?_, fun hn => absurd ‹_› hn⟩
    rw [h2]
    have hm : (uhc_dwc2_lock_enable hw { dev with base := B }).base.gintmsk
        = dev.base.gintmsk
            &&& NOT32 (hw.USB_DWC2_GINTSTS_PRTINT ||| hw.USB_DWC2_GINTSTS_DISCONNINT) := by
      simp only [uhc_dwc2_lock_enable, dwc2_ll_gintmsk_dis_intrs, hB]
    refine ⟨rfl, hm, fun k hk => ?_⟩
    rw [hm, Nat.testBit_and, testBit_NOT32, Nat.testBit_or]
    simp [hk]
  · refine ⟨fun hcd => ?_, fun _ => ?_⟩
    · rw [hch] at hcd
      simp at hcd
    · rw [h2]
      exact ⟨rfl, hB⟩

theorem decode_intr_engages_lock_witness :
    (uhc_dwc2_decode_intr sample_hw sample_dev_unplugged (BIT 24) (BIT 1) 0 0).2.priv.dynamic.flags.lock_enabled
        = true
    ∧ (uhc_dwc2_decode_intr sample_hw sample_dev_unplugged (BIT 24) (BIT 1) 0 0).2.base.gintmsk
        = BIT 25 :=
  ⟨((decode_intr_engages_lock sample_hw sample_dev_unplugged (BIT 24) (BIT 1) 0 0).1
      (Or.inl rfl)).1,
   ((decode_intr_engages_lock sample_hw sample_dev_unplugged (BIT 24) (BIT 1) 0 0).1
      (Or.inl rfl)).2.1.trans (by decide)⟩

/-- C19: `uhc_dwc2_power_on` returns 0 exactly when `port_state` is NOT_POWERED;
then `port_state` becomes DISCONNECTED and GINTMSK is the old value with PRTINT
and HCHINT set.  From every other state it returns -EINVAL and changes
nothing. -/
theorem power_on_result (hw : usb_dwc2_hw) (dev : device) (hprt : Nat) :
    ((uhc_dwc2_power_on hw dev hprt).1 = 0
        ↔ dev.priv.dynamic.port_state = .UHC_PORT_STATE_NOT_POWERED)
    ∧ (dev.priv.dynamic.port_state = .UHC_PORT_STATE_NOT_POWERED →
        (uhc_dwc2_power_on hw dev hprt).2.priv.dynamic.port_state
            = .UHC_PORT_STATE_DISCONNECTED
        ∧ (uhc_dwc2_power_on hw dev hprt).2.base.gintmsk
            = dev.base.gintmsk ||| (hw.USB_DWC2_GINTSTS_PRTINT ||| hw.USB_DWC2_GINTSTS_HCHINT)
        ∧ (uhc_dwc2_power_on hw dev hprt).2.base.gintmsk &&& hw.USB_DWC2_GINTSTS_PRTINT
            = hw.USB_DWC2_GINTSTS_PRTINT
        ∧ (uhc_dwc2_power_on hw dev hprt).2.base.gintmsk &&& hw.USB_DWC2_GINTSTS_HCHINT
            = hw.USB_DWC2_GINTSTS_HCHINT)
    ∧ (dev.priv.dynamic.port_state ≠ .UHC_PORT_STATE_NOT_POWERED →
        (uhc_dwc2_power_on hw dev hprt).1 = - EINVAL
        ∧ (uhc_dwc2_power_on hw dev hprt).2 = dev) := by
  by_cases h : dev.priv.dynamic.port_state = .UHC_PORT_STATE_NOT_POWERED
  · have hm : (uhc_dwc2_power_on hw dev hprt).2.base.gintmsk
        = dev.base.gintmsk
            ||| (hw.USB_DWC2_GINTSTS_PRTINT ||| hw.USB_DWC2_GINTSTS_HCHINT) := by
      simp [uhc_dwc2_power_on, h, dwc2_hal_port_init, dwc2_hal_toggle_power,
        dwc2_ll_hprt_en_pwr, dwc2_ll_gintmsk_en_intrs, dwc2_ll_haintmsk_dis_chan_intr]
    refine ⟨?_, fun _ => ⟨?_, hm, ?_, ?_⟩, fun hn => absurd h hn⟩
    · simp [uhc_dwc2_power_on, h]
    · simp [uhc_dwc2_power_on, h]
    · rw [hm]
      exact or_mask_and_left _ _ _
    · rw [hm]
      exact or_mask_and_right _ _ _
  · refine ⟨?_, fun hp => absurd hp h, fun _ => ?_⟩
    · simp [uhc_dwc2_power_on, h, EINVAL]
    · simp [uhc_dwc2_power_on, h]

theorem power_on_result_witness :
    (uhc_dwc2_power_on sample_hw sample_dev_unpowered 0).1 = 0
    ∧ (uhc_dwc2_power_on sample_hw sample_dev 0).1 = - EINVAL :=
  ⟨(power_on_result sample_hw sample_dev_unpowered 0).1.mpr rfl,
   ((power_on_result sample_hw sample_dev 0).2.2 (by decide)).1⟩

/-- C13: whatever the device state before, `uhc_dwc2_port_debounce` returns the
connection-status bit sampled after the settle delay, and leaves `port_state`
DISABLED when that bit is 1 and DISCONNECTED when it is 0. -/
theorem port_debounce_result (hw : usb_dwc2_hw) (dev : device) (settle : device → device)
    (hprt lock_hprt : Nat) :
    (uhc_dwc2_port_debounce hw dev settle hprt lock_hprt).1 = hw.prtconnsts hprt
    ∧ (uhc_dwc2_port_debounce hw dev settle hprt lock_hprt).2.priv.dynamic.port_state
        = (if hw.prtconnsts hprt then .UHC_PORT_STATE_DISABLED
           else .UHC_PORT_STATE_DISCONNECTED) :=
  ⟨rfl, rfl⟩

/-- C12: after `uhc_dwc2_port_debounce` returns, the flag `lock_enabled` is 1,
for every prior state and either outcome: `uhc_dwc2_lock_disable` writes 1 to
the flag, as `uhc_dwc2_lock_enable` does, while it unmasks the PRTINT and
DISCONNINT interrupts again.  The flag is not 0 as the released lock requires. -/
theorem port_debounce_leaves_lock_enabled (hw : usb_dwc2_hw) (dev : device)
    (settle : device → device) (hprt lock_hprt : Nat) :
    (uhc_dwc2_port_debounce hw dev settle hprt lock_hprt).2.priv.dynamic.flags.lock_enabled
        = true
    ∧ (uhc_dwc2_lock_disable hw dev lock_hprt).priv.dynamic.flags.lock_enabled
        = (uhc_dwc2_lock_enable hw dev).priv.dynamic.flags.lock_enabled
    ∧ (uhc_dwc2_port_debounce hw dev settle hprt lock_hprt).2.base.gintmsk
        = (settle dev).base.gintmsk
            ||| (hw.USB_DWC2_GINTSTS_PRTINT ||| hw.USB_DWC2_GINTSTS_DISCONNINT) := by
  refine ⟨rfl, rfl, ?_⟩
  simp [uhc_dwc2_port_debounce, uhc_dwc2_lock_disable, dwc2_ll_gintmsk_en_intrs,
    dwc2_ll_hprt_intr_clear, dwc2_ll_gintsts_clear_intrs]

/-! ## Core soft reset and port recovery -/

theorem config_controller_cases (hw : usb_dwc2_hw) (rd : core_reset_reads) :
    (∀ dev : device, uhc_dwc2_config_controller hw dev rd = none)
    ∨ (∀ dev : device, ∃ B : usb_dwc2_reg,
        uhc_dwc2_config_controller hw dev rd = some (0, { dev with base := B })) := by
  cases h1 : spin_while
      (fun k => decide (rd.curmod_polls k &&& hw.USB_DWC2_GINTSTS_CURMOD ≠ 1)) rd.fuel 0
  · left
    intro dev
    simp only [uhc_dwc2_config_controller, h1, Bool.false_eq_true, if_false]
  · cases h2 : spin_while
        (fun k => decide (rd.txfflsh_polls k &&& hw.USB_DWC2_GRSTCTL_TXFFLSH ≠ 0)) rd.fuel 0
    · left
      intro dev
      simp only [uhc_dwc2_config_controller, dwc2_ll_grstctl_flush_tx_fifo, h1, h2,
        Bool.false_eq_true, if_true, if_false]
    · cases h3 : spin_while
          (fun k => decide (rd.rxfflsh_polls k &&& hw.USB_DWC2_GRSTCTL_RXFFLSH ≠ 0)) rd.fuel 0
      · left
        intro dev
        simp only [uhc_dwc2_config_controller, dwc2_ll_grstctl_flush_tx_fifo,
          dwc2_ll_grstctl_flush_rx_fifo, h1, h2, h3, Bool.false_eq_true, if_true, if_false]
      · right
        intro dev
        simp only [uhc_dwc2_config_controller, dwc2_ll_grstctl_flush_tx_fifo,
          dwc2_ll_grstctl_flush_rx_fifo, h1, h2, h3, if_true]
        exact ⟨_, rfl⟩

theorem core_soft_reset_cases (hw : usb_dwc2_hw) (rd : core_reset_reads) :
    (∀ dev : device, uhc_dwc2_core_soft_reset hw dev rd = none)
    ∨ (∃ ret : Int, ∀ dev : device, ∃ B : usb_dwc2_reg,
        uhc_dwc2_core_soft_reset hw dev rd = some (ret, { dev with base := B })) := by
  by_cases h1 : csr_wait rd.csftrst (csr_timeout_us + 1) 0 = true
  · by_cases h2 : csr_wait (fun k => !rd.ahbidle k) (csr_timeout_us + 1) 0 = true
    · rcases config_controller_cases hw rd with hc | hc
      · left
        intro dev
        simp [uhc_dwc2_core_soft_reset, h1, h2, hc]
      · right
        refine ⟨0, fun dev => ?_⟩
        obtain ⟨B, hB⟩ := hc { dev with base := dwc2_ll_grstctl_core_soft_reset dev.base }
        exact ⟨B, by simp [uhc_dwc2_core_soft_reset, h1, h2, hB]⟩
    · right
      exact ⟨- EIO, fun dev => ⟨dwc2_ll_grstctl_core_soft_reset dev.base,
        by simp [uhc_dwc2_core_soft_reset, h1, h2]⟩⟩
  · right
    exact ⟨- EIO, fun dev => ⟨dwc2_ll_grstctl_core_soft_reset dev.base,
      by simp [uhc_dwc2_core_soft_reset, h1]⟩⟩

/-- The status of the core soft reset does not depend on the driver state: a
reset that succeeds on one device succeeds on every device, changing registers
only. -/
theorem core_soft_reset_ok (hw : usb_dwc2_hw) (rd : core_reset_reads) (dev0 : device)
    (h : (uhc_dwc2_core_soft_reset hw dev0 rd).map Prod.fst = some 0) (dev : device) :
    ∃ B : usb_dwc2_reg, uhc_dwc2_core_soft_reset hw dev rd = some (0, { dev with base := B }) := by
  rcases core_soft_reset_cases hw rd with hc | ⟨ret, hc⟩
  · rw [hc dev0] at h
    simp at h
  · obtain ⟨B0, hB0⟩ := hc dev0
    rw [hB0] at h
    simp only [Option.map_some', Option.some.injEq] at h
    obtain ⟨B, hB⟩ := hc dev
    exact ⟨B, by rw [hB, h]⟩

/-- A recovery whose hooks and soft reset succeed returns 0, touching only the
registers and the port state, event and flags. -/
theorem port_recovery_ok (hw : usb_dwc2_hw) (dev0 dev : device) (rd : recovery_reads)
    (hq1 : rd.quirk_irq_disable = 0) (hq2 : rd.quirk_irq_enable = 0)
    (hr : (uhc_dwc2_core_soft_reset hw dev0 rd.reset).map Prod.fst = some 0) :
    ∃ B : usb_dwc2_reg, uhc_dwc2_port_recovery hw dev rd
      = some (0, { base := B
                   priv := { dev.priv with dynamic :=
                    { port_state := .UHC_PORT_STATE_DISCONNECTED
                      last_event := .UHC_PORT_EVENT_NONE
                      flags := { lock_enabled := false, fifo_sizes_set := false,
                                 periodic_sched_enabled := false, event_pending := false,
                                 conn_dev_ena := false, waiting_disable := false } } }
                   upstream := dev.upstream }) := by
  obtain ⟨B, hB⟩ := core_soft_reset_ok hw rd.reset dev0 hr dev
  refine ⟨(dwc2_hal_toggle_power hw (dwc2_hal_port_init hw B) rd.power_hprt true).2, ?_⟩
  simp [uhc_dwc2_port_recovery, hq1, hq2, hB, uhc_dwc2_power_on]

/-- C15: provided the vendor hooks that disable and enable the interrupt and the
core soft reset succeed, `uhc_dwc2_port_recovery` returns 0 from every prior
state, leaving `port_state` DISCONNECTED, `last_event` NONE and every port flag
clear. -/
theorem port_recovery_result (hw : usb_dwc2_hw) (dev : device) (rd : recovery_reads)
    (hq1 : rd.quirk_irq_disable = 0) (hq2 : rd.quirk_irq_enable = 0)
    (hr : (uhc_dwc2_core_soft_reset hw dev rd.reset).map Prod.fst = some 0) :
    ∃ d : device, uhc_dwc2_port_recovery hw dev rd = some (0, d)
      ∧ d.priv.dynamic.port_state = .UHC_PORT_STATE_DISCONNECTED
      ∧ d.priv.dynamic.last_event = .UHC_PORT_EVENT_NONE
      ∧ d.priv.dynamic.flags
          = { lock_enabled := false, fifo_sizes_set := false, periodic_sched_enabled := false,
              event_pending := false, conn_dev_ena := false, waiting_disable := false } := by
  obtain ⟨B, hB⟩ := port_recovery_ok hw dev dev rd hq1 hq2 hr
  exact ⟨_, hB, rfl, rfl, rfl⟩

theorem port_recovery_result_witness :
    ∃ d : device, uhc_dwc2_port_recovery sample_hw sample_dev sample_recovery_reads = some (0, d)
      ∧ d.priv.dynamic.port_state = .UHC_PORT_STATE_DISCONNECTED
      ∧ d.priv.dynamic.last_event = .UHC_PORT_EVENT_NONE
      ∧ d.priv.dynamic.flags
          = { lock_enabled := false, fifo_sizes_set := false, periodic_sched_enabled := false,
              event_pending := false, conn_dev_ena := false, waiting_disable := false } :=
  port_recovery_result sample_hw sample_dev sample_recovery_reads rfl rfl rfl

/-! ## Port events from the interrupt handler to the worker -/

theorem decode_hprt_disabled_resetting (hw : usb_dwc2_hw) (d : device) (hprt : Nat)
    (hd : d.priv.dynamic.port_state = .UHC_PORT_STATE_RESETTING) :
    uhc_dwc2_decode_hprt hw d .UHC_DWC2_CORE_EVENT_DISABLED hprt
      = (.UHC_PORT_EVENT_NONE,
         { d with priv := { d.priv with dynamic := { d.priv.dynamic with
            flags := { d.priv.dynamic.flags with conn_dev_ena := false } } } }) := by
  simp [uhc_dwc2_decode_hprt, hd]

/-- C14: a DISABLED core event decoded while `port_state` is RESETTING is not a
fault: `uhc_dwc2_decode_hprt` returns UHC_PORT_EVENT_NONE, `port_state` stays
RESETTING and `waiting_disable` keeps its value; the interrupt handler then
posts no port event and leaves `last_event`, `event_pending` and the posted
driver events as they were. -/
theorem disabled_ignored_while_resetting (hw : usb_dwc2_hw) (dev : device)
    (gintsts hprt hprt_sts haint hprt_spd : Nat) (hcint : Nat → Nat)
    (hstate : dev.priv.dynamic.port_state = .UHC_PORT_STATE_RESETTING)
    (hev : (uhc_dwc2_decode_intr hw dev gintsts hprt hprt_sts haint).1
        = .UHC_DWC2_CORE_EVENT_DISABLED) :
    (uhc_dwc2_decode_hprt hw dev .UHC_DWC2_CORE_EVENT_DISABLED hprt_spd).1
        = .UHC_PORT_EVENT_NONE
    ∧ (uhc_dwc2_decode_hprt hw dev .UHC_DWC2_CORE_EVENT_DISABLED hprt_spd).2.priv.dynamic.port_state
        = .UHC_PORT_STATE_RESETTING
    ∧ (uhc_dwc2_decode_hprt hw dev .UHC_DWC2_CORE_EVENT_DISABLED
          hprt_spd).2.priv.dynamic.flags.waiting_disable
        = dev.priv.dynamic.flags.waiting_disable
    ∧ ∃ d : device,
        uhc_dwc2_isr_handler hw dev gintsts hprt hprt_sts haint hprt_spd hcint = some d
        ∧ d.priv.dynamic.port_state = .UHC_PORT_STATE_RESETTING
        ∧ d.priv.dynamic.flags.waiting_disable = dev.priv.dynamic.flags.waiting_disable
        ∧ d.priv.dynamic.last_event = dev.priv.dynamic.last_event
        ∧ d.priv.dynamic.flags.event_pending = dev.priv.dynamic.flags.event_pending
        ∧ d.priv.drv_evt = dev.priv.drv_evt := by
  refine ⟨?_, ?_, ?_, ?_⟩
  · rw [decode_hprt_disabled_resetting hw dev hprt_spd hstate]
  · rw [decode_hprt_disabled_resetting hw dev hprt_spd hstate]
    exact hstate
  · rw [decode_hprt_disabled_resetting hw dev hprt_spd hstate]
  · obtain ⟨B, _, h⟩ := decode_intr_shape hw dev gintsts hprt hprt_sts haint
    rcases h with ⟨h2, _⟩ | ⟨_, hcd⟩ | ⟨_, hch⟩
    · have hd : (uhc_dwc2_decode_intr hw dev gintsts hprt hprt_sts haint).2.priv.dynamic.port_state
          = .UHC_PORT_STATE_RESETTING := by
        rw [h2]
        exact hstate
      have hisr : uhc_dwc2_isr_handler hw dev gintsts hprt hprt_sts haint hprt_spd hcint
          = some (uhc_dwc2_decode_hprt hw
              (uhc_dwc2_decode_intr hw dev gintsts hprt hprt_sts haint).2
              .UHC_DWC2_CORE_EVENT_DISABLED hprt_spd).2 := by
        simp [uhc_dwc2_isr_handler, hev, decode_hprt_disabled_resetting hw _ hprt_spd hd]
      refine ⟨_, hisr, ?_⟩
      rw [decode_hprt_disabled_resetting hw _ hprt_spd hd, h2]
      exact ⟨hstate, rfl, rfl, rfl, rfl⟩
    · rw [hev] at hcd
      simp at hcd
    · rw [hev] at hch
      simp at hch

theorem disabled_ignored_while_resetting_witness :
    ∃ d : device,
      uhc_dwc2_isr_handler sample_hw sample_dev_resetting (BIT 24) (BIT 3) 0 0 0 (fun _ => 0)
        = some d
      ∧ d.priv.dynamic.port_state = .UHC_PORT_STATE_RESETTING
      ∧ d.priv.dynamic.flags.waiting_disable = false
      ∧ d.priv.dynamic.last_event = .UHC_PORT_EVENT_NONE
      ∧ d.priv.dynamic.flags.event_pending = false
      ∧ d.priv.drv_evt = 0 :=
  (disabled_ignored_while_resetting sample_hw sample_dev_resetting (BIT 24) (BIT 3) 0 0 0
    (fun _ => 0) rfl rfl).2.2.2

/-- The interrupt handler on a disconnect interrupt: the event DISCONNECTION is
left pending and posted, the lock is engaged and `conn_dev_ena` cleared; the
port state, the channels and the upstream events stay as they were. -/
theorem isr_handler_disconnect (hw : usb_dwc2_hw) (dev : device)
    (gintsts hprt hprt_sts haint hprt_spd : Nat) (hcint : Nat → Nat)
    (hint : gintsts &&& hw.USB_DWC2_GINTSTS_DISCONNINT ≠ 0) :
    ∃ d1 : device,
      uhc_dwc2_isr_handler hw dev gintsts hprt hprt_sts haint hprt_spd hcint = some d1
      ∧ d1.priv = { dev.priv with
                    dynamic := { port_state := dev.priv.dynamic.port_state
                                 last_event := .UHC_PORT_EVENT_DISCONNECTION
                                 flags := { dev.priv.dynamic.flags with
                                   lock_enabled := true
                                   conn_dev_ena := false
                                   event_pending := true } }
                    drv_evt := dev.priv.drv_evt ||| BIT UHC_DWC2_EVENT_PORT }
      ∧ d1.upstream = dev.upstream := by
  have hev : (uhc_dwc2_decode_intr hw dev gintsts hprt hprt_sts haint).1
      = .UHC_DWC2_CORE_EVENT_DISCONN := by
    rw [decode_intr_event]
    simp [decode_intr_precedence, hint]
  obtain ⟨B, _, h⟩ := decode_intr_shape hw dev gintsts hprt hprt_sts haint
  rcases h with ⟨_, _, hd, _⟩ | ⟨h2, _⟩ | ⟨_, hch⟩
  · exact absurd hev hd
  · refine ⟨{ base := (uhc_dwc2_lock_enable hw { dev with base := B }).base
              priv := { dev.priv with
                dynamic := { port_state := dev.priv.dynamic.port_state
                             last_event := .UHC_PORT_EVENT_DISCONNECTION
                             flags := { dev.priv.dynamic.flags with
                               lock_enabled := true
                               conn_dev_ena := false
                               event_pending := true } }
                drv_evt := dev.priv.drv_evt ||| BIT UHC_DWC2_EVENT_PORT }
              upstream := dev.upstream }, ?_, rfl, rfl⟩
    simp [uhc_dwc2_isr_handler, hev, h2, uhc_dwc2_decode_hprt, uhc_dwc2_lock_enable]
  · rw [hev] at hch
    simp at hch

/-- The interrupt handler on a DISABLED core event with the port ENABLED and no
disable requested: the port state becomes RECOVERY and the event ERROR is left
pending and posted. -/
theorem isr_handler_port_error (hw : usb_dwc2_hw) (dev : device)
    (gintsts hprt hprt_sts haint hprt_spd : Nat) (hcint : Nat → Nat)
    (hstate : dev.priv.dynamic.port_state = .UHC_PORT_STATE_ENABLED)
    (hwd : dev.priv.dynamic.flags.waiting_disable = false)
    (hev : (uhc_dwc2_decode_intr hw dev gintsts hprt hprt_sts haint).1
        = .UHC_DWC2_CORE_EVENT_DISABLED) :
    ∃ d1 : device,
      uhc_dwc2_isr_handler hw dev gintsts hprt hprt_sts haint hprt_spd hcint = some d1
      ∧ d1.priv = { dev.priv with
                    dynamic := { port_state := .UHC_PORT_STATE_RECOVERY
                                 last_event := .UHC_PORT_EVENT_ERROR
                                 flags := { dev.priv.dynamic.flags with
                                   conn_dev_ena := false
                                   event_pending := true } }
                    drv_evt := dev.priv.drv_evt ||| BIT UHC_DWC2_EVENT_PORT }
      ∧ d1.upstream = dev.upstream := by
  obtain ⟨B, _, h⟩ := decode_intr_shape hw dev gintsts hprt hprt_sts haint
  rcases h with ⟨h2, _⟩ | ⟨_, hcd⟩ | ⟨_, hch⟩
  · refine ⟨{ base := B
              priv := { dev.priv with
                dynamic := { port_state := .UHC_PORT_STATE_RECOVERY
                             last_event := .UHC_PORT_EVENT_ERROR
                             flags := { dev.priv.dynamic.flags with
                               conn_dev_ena := false
                               event_pending := true } }
                drv_evt := dev.priv.drv_evt ||| BIT UHC_DWC2_EVENT_PORT }
              upstream := dev.upstream }, ?_, rfl, rfl⟩
    simp [uhc_dwc2_isr_handler, hev, h2, uhc_dwc2_decode_hprt, hstate, hwd]
  · rw [hev] at hcd
    simp at hcd
  · rw [hev] at hch
    simp at hch

/-- The worker on a pending ERROR event with the port in RECOVERY: the event is
consumed and nothing else is done. -/
theorem handle_port_events_error_recovery (hw : usb_dwc2_hw) (d : device)
    (rd : port_event_reads)
    (hp : d.priv.dynamic.flags.event_pending = true)
    (he : d.priv.dynamic.last_event = .UHC_PORT_EVENT_ERROR)
    (hs : d.priv.dynamic.port_state = .UHC_PORT_STATE_RECOVERY) :
    uhc_dwc2_handle_port_events hw d rd
      = some { d with priv := { d.priv with dynamic := { d.priv.dynamic with
          flags := { d.priv.dynamic.flags with event_pending := false } } } } := by
  have hg : uhc_dwc2_get_port_event hw d rd.debounce_settle rd.debounce_hprt rd.lock_hprt
      = (.UHC_PORT_EVENT_ERROR,
         { d with priv := { d.priv with dynamic := { d.priv.dynamic with
            flags := { d.priv.dynamic.flags with event_pending := false } } } }) := by
    simp [uhc_dwc2_get_port_event, hp, he]
  unfold uhc_dwc2_handle_port_events
  rw [hg]
  simp only [hs]

/-- The worker on a pending DISCONNECTION event with the port ENABLED: the
device-removed event is submitted, then the port recovery runs. -/
theorem handle_port_events_disconnection (hw : usb_dwc2_hw) (d : device) (rd : port_event_reads)
    (hp : d.priv.dynamic.flags.event_pending = true)
    (he : d.priv.dynamic.last_event = .UHC_PORT_EVENT_DISCONNECTION)
    (hs : d.priv.dynamic.port_state = .UHC_PORT_STATE_ENABLED) :
    uhc_dwc2_get_port_event hw d rd.debounce_settle rd.debounce_hprt rd.lock_hprt
        = (.UHC_PORT_EVENT_DISCONNECTION,
           { d with priv := { d.priv with dynamic := { d.priv.dynamic with
              flags := { d.priv.dynamic.flags with event_pending := false } } } })
    ∧ uhc_dwc2_handle_port_events hw d rd
        = (uhc_dwc2_port_recovery hw
            (uhc_dwc2_submit_dev_gone
              (uhc_dwc2_get_port_event hw d rd.debounce_settle rd.debounce_hprt rd.lock_hprt).2)
            rd.recovery).map Prod.snd := by
  have hg : uhc_dwc2_get_port_event hw d rd.debounce_settle rd.debounce_hprt rd.lock_hprt
      = (.UHC_PORT_EVENT_DISCONNECTION,
         { d with priv := { d.priv with dynamic := { d.priv.dynamic with
            flags := { d.priv.dynamic.flags with event_pending := false } } } }) := by
    simp [uhc_dwc2_get_port_event, hp, he]
  refine ⟨hg, ?_⟩
  unfold uhc_dwc2_handle_port_events
  rw [hg]
  simp only [hs]
  cases uhc_dwc2_port_recovery hw _ rd.recovery <;> rfl

/-- C18: the disconnect of an ENABLED port, handled by the interrupt handler and
then by the worker with the port recovery succeeding, leaves the channel table
as it was before the disconnect: `num_allocated` and every slot keep their
values, so a channel allocated to the control pipe stays allocated and
`num_allocated` is not reset to 0. -/
theorem disconnect_keeps_channels_allocated (hw : usb_dwc2_hw) (dev : device)
    (gintsts hprt hprt_sts haint hprt_spd : Nat) (hcint : Nat → Nat) (rd : port_event_reads)
    (hstate : dev.priv.dynamic.port_state = .UHC_PORT_STATE_ENABLED)
    (hint : gintsts &&& hw.USB_DWC2_GINTSTS_DISCONNINT ≠ 0)
    (hq1 : rd.recovery.quirk_irq_disable = 0) (hq2 : rd.recovery.quirk_irq_enable = 0)
    (hr : (uhc_dwc2_core_soft_reset hw dev rd.recovery.reset).map Prod.fst = some 0) :
    ∃ d1 d2 : device,
      uhc_dwc2_isr_handler hw dev gintsts hprt hprt_sts haint hprt_spd hcint = some d1
      ∧ uhc_dwc2_handle_port_events hw d1 rd = some d2
      ∧ d2.priv.dynamic.port_state = .UHC_PORT_STATE_DISCONNECTED
      ∧ d2.priv.channels.num_allocated = dev.priv.channels.num_allocated
      ∧ d2.priv.channels.hdls = dev.priv.channels.hdls := by
  obtain ⟨d1, hisr, hpriv, _⟩ :=
    isr_handler_disconnect hw dev gintsts hprt hprt_sts haint hprt_spd hcint hint
  have hp : d1.priv.dynamic.flags.event_pending = true := by rw [hpriv]
  have he : d1.priv.dynamic.last_event = .UHC_PORT_EVENT_DISCONNECTION := by rw [hpriv]
  have hs : d1.priv.dynamic.port_state = .UHC_PORT_STATE_ENABLED := by
    rw [hpriv]
    exact hstate
  obtain ⟨hg, hh⟩ := handle_port_events_disconnection hw d1 rd hp he hs
  have hch : (uhc_dwc2_submit_dev_gone
      (uhc_dwc2_get_port_event hw d1 rd.debounce_settle rd.debounce_hprt
        rd.lock_hprt).2).priv.channels = dev.priv.channels := by
    rw [hg]
    show d1.priv.channels = dev.priv.channels
    rw [hpriv]
  obtain ⟨B2, hrec⟩ := port_recovery_ok hw dev
    (uhc_dwc2_submit_dev_gone
      (uhc_dwc2_get_port_event hw d1 rd.debounce_settle rd.debounce_hprt rd.lock_hprt).2)
    rd.recovery hq1 hq2 hr
  have hd2 := hh
  rw [hrec] at hd2
  refine ⟨d1, _, hisr, hd2, rfl, ?_, ?_⟩
  · show (uhc_dwc2_submit_dev_gone _).priv.channels.num_allocated = _
    rw [hch]
  · show (uhc_dwc2_submit_dev_gone _).priv.channels.hdls = _
    rw [hch]

theorem disconnect_keeps_channels_allocated_witness :
    ∃ d1 d2 : device,
      uhc_dwc2_isr_handler sample_hw sample_dev (BIT 29) 0 0 0 0 (fun _ => 0) = some d1
      ∧ uhc_dwc2_handle_port_events sample_hw d1 sample_port_event_reads = some d2
      ∧ d2.priv.dynamic.port_state = .UHC_PORT_STATE_DISCONNECTED
      ∧ d2.priv.channels.num_allocated = 1
      ∧ d2.priv.channels.hdls = some [some 0x1000, none, none, none, none, none, none, none] :=
  disconnect_keeps_channels_allocated sample_hw sample_dev (BIT 29) 0 0 0 0 (fun _ => 0)
    sample_port_event_reads rfl (by decide) rfl rfl rfl

/-- C17: with the port ENABLED and no disable requested, a DISABLED core event
(enable change with the port-enable bit reading 0) makes the interrupt handler
set `port_state` to RECOVERY and leave an ERROR event pending; the worker then
finds a port state it does not handle: it submits nothing upstream and runs no
recovery, so the port stays in RECOVERY. -/
theorem port_error_leaves_port_in_recovery (hw : usb_dwc2_hw) (dev : device)
    (gintsts hprt hprt_sts haint hprt_spd : Nat) (hcint : Nat → Nat) (rd : port_event_reads)
    (hstate : dev.priv.dynamic.port_state = .UHC_PORT_STATE_ENABLED)
    (hwd : dev.priv.dynamic.flags.waiting_disable = false)
    (hev : (uhc_dwc2_decode_intr hw dev gintsts hprt hprt_sts haint).1
        = .UHC_DWC2_CORE_EVENT_DISABLED) :
    ∃ d1 d2 : device,
      uhc_dwc2_isr_handler hw dev gintsts hprt hprt_sts haint hprt_spd hcint = some d1
      ∧ d1.priv.dynamic.last_event = .UHC_PORT_EVENT_ERROR
      ∧ d1.priv.dynamic.flags.event_pending = true
      ∧ d1.priv.dynamic.port_state = .UHC_PORT_STATE_RECOVERY
      ∧ uhc_dwc2_handle_port_events hw d1 rd = some d2
      ∧ d2.upstream = dev.upstream
      ∧ d2.priv.dynamic.port_state = .UHC_PORT_STATE_RECOVERY := by
  obtain ⟨d1, hisr, hpriv, hup⟩ :=
    isr_handler_port_error hw dev gintsts hprt hprt_sts haint hprt_spd hcint hstate hwd hev
  have hp : d1.priv.dynamic.flags.event_pending = true := by rw [hpriv]
  have he : d1.priv.dynamic.last_event = .UHC_PORT_EVENT_ERROR := by rw [hpriv]
  have hs : d1.priv.dynamic.port_state = .UHC_PORT_STATE_RECOVERY := by rw [hpriv]
  exact ⟨d1, _, hisr, he, hp, hs, handle_port_events_error_recovery hw d1 rd hp he hs, hup, hs⟩

theorem port_error_leaves_port_in_recovery_witness :
    ∃ d1 d2 : device,
      uhc_dwc2_isr_handler sample_hw sample_dev (BIT 24) (BIT 3) 0 0 0 (fun _ => 0) = some d1
      ∧ d1.priv.dynamic.last_event = .UHC_PORT_EVENT_ERROR
      ∧ d1.priv.dynamic.flags.event_pending = true
      ∧ d1.priv.dynamic.port_state = .UHC_PORT_STATE_RECOVERY
      ∧ uhc_dwc2_handle_port_events sample_hw d1 sample_port_event_reads = some d2
      ∧ d2.upstream = []
      ∧ d2.priv.dynamic.port_state = .UHC_PORT_STATE_RECOVERY :=
  port_error_leaves_port_in_recovery sample_hw sample_dev (BIT 24) (BIT 3) 0 0 0 (fun _ => 0)
    sample_port_event_reads rfl rfl rfl

/-- C11: when the worker handles a pending CONNECTION event and the
connection-status bit reads 0 after the debounce delay, the event
`uhc_dwc2_get_port_event` returns is still CONNECTION, so
`uhc_dwc2_handle_port_events` resets the port: the state the worker leaves is the
one `uhc_dwc2_port_reset` produces from the debounced state, whose `port_state`
DISCONNECTED the reset overwrites with RESETTING while it asserts the reset
signal. -/
theorem connection_without_device_resets_port (hw : usb_dwc2_hw) (dev : device)
    (rd : port_event_reads)
    (hp : dev.priv.dynamic.flags.event_pending = true)
    (he : dev.priv.dynamic.last_event = .UHC_PORT_EVENT_CONNECTION)
    (hc : hw.prtconnsts rd.debounce_hprt = false) :
    (uhc_dwc2_get_port_event hw dev rd.debounce_settle rd.debounce_hprt rd.lock_hprt).1
        = .UHC_PORT_EVENT_CONNECTION
    ∧ (uhc_dwc2_get_port_event hw dev rd.debounce_settle rd.debounce_hprt
          rd.lock_hprt).2.priv.dynamic.port_state = .UHC_PORT_STATE_DISCONNECTED
    ∧ uhc_dwc2_handle_port_events hw dev rd
        = some (uhc_dwc2_port_reset hw
            (uhc_dwc2_get_port_event hw dev rd.debounce_settle rd.debounce_hprt rd.lock_hprt).2
            rd.reset_hprt1 rd.reset_hprt2 rd.reset_hold rd.reset_recovery).2 := by
  have h1 : (uhc_dwc2_get_port_event hw dev rd.debounce_settle rd.debounce_hprt rd.lock_hprt).1
      = .UHC_PORT_EVENT_CONNECTION := by
    simp [uhc_dwc2_get_port_event, hp, he]
  refine ⟨h1, ?_, ?_⟩
  · simp [uhc_dwc2_get_port_event, hp, he, uhc_dwc2_port_debounce, uhc_dwc2_lock_disable,
      dwc2_ll_hprt_get_conn_status, hc]
  · unfold uhc_dwc2_handle_port_events
    simp only [h1]

theorem connection_without_device_resets_port_witness :
    (uhc_dwc2_isr_handler sample_hw sample_dev_unplugged (BIT 24) (BIT 1) 0 0 0
        (fun _ => 0)).map (fun d => d.priv.dynamic) = some sample_dev_connecting.priv.dynamic
    ∧ sample_hw.prtconnsts sample_port_event_reads.debounce_hprt = false
    ∧ (uhc_dwc2_handle_port_events sample_hw sample_dev_connecting sample_port_event_reads).map
        (fun d => d.priv.dynamic.port_state) = some .UHC_PORT_STATE_RESETTING
    ∧ (port_reset_after_hold sample_hw
        (uhc_dwc2_get_port_event sample_hw sample_dev_connecting id 0 0).2 0 id).base.hprt
        = BIT 8 :=
  ⟨rfl, rfl,
   by rw [(connection_without_device_resets_port sample_hw sample_dev_connecting
        sample_port_event_reads rfl rfl rfl).2.2]; rfl,
   rfl⟩

/-! ## Port interrupt read -/

/-- C25: for every HPRT value `r` read, `dwc2_ll_hprt_intr_read_and_clear` returns
`r & 0x2A`, in which the port-enable bit (bit 2) is never set, and writes back
`r` with the port-enable bit cleared: bit 2 of the value written is 0 and each
other bit of the 32 is the bit of `r`. -/
theorem hprt_intr_read_and_clear_spares_enable (dwc2 : usb_dwc2_reg) (r : Nat) :
    (dwc2_ll_hprt_intr_read_and_clear dwc2 r).1 = r &&& 0x2A
    ∧ (dwc2_ll_hprt_intr_read_and_clear dwc2 r).1.testBit 2 = false
    ∧ (dwc2_ll_hprt_intr_read_and_clear dwc2 r).2.hprt = r &&& NOT32 0x04
    ∧ (dwc2_ll_hprt_intr_read_and_clear dwc2 r).2.hprt.testBit 2 = false
    ∧ ∀ k : Nat, (dwc2_ll_hprt_intr_read_and_clear dwc2 r).2.hprt.testBit k
        = (r.testBit k && (decide (k < 32) && !decide (k = 2))) := by
  have hbits : ∀ k : Nat, (r &&& NOT32 0x04).testBit k
      = (r.testBit k && (decide (k < 32) && !decide (k = 2))) := by
    intro k
    have h4 : (4 : Nat).testBit k = decide (2 = k) :=
      show (2 ^ 2).testBit k = decide (2 = k) from Nat.testBit_two_pow
    rw [Nat.testBit_and, testBit_NOT32, h4]
    by_cases hk : k = 2
    · subst hk
      simp
    · have hk2 : ¬ 2 = k := fun h => hk h.symm
      simp [hk, hk2]
  have h1 : (dwc2_ll_hprt_intr_read_and_clear dwc2 r).1 = r &&& 0x2A := by
    show r &&& (USB_DWC2_LL_HPRT_W1C_MSK &&& NOT32 USB_DWC2_LL_HPRT_ENA_MSK) = r &&& 0x2A
    rw [hprt_intr_bits]
  refine ⟨h1, ?_, rfl, ?_, hbits⟩
  · rw [h1, Nat.testBit_and]
    have : (0x2A : Nat).testBit 2 = false := by decide
    simp [this]
  · show (r &&& NOT32 0x04).testBit 2 = false
    rw [hbits 2]
    simp

/-! ## Packet count -/

theorem ceil_div_le_self (size mps : Nat) (hs : 1 ≤ size) (hm : 1 ≤ mps) :
    (size + mps - 1) / mps ≤ size := by
  apply Nat.div_le_of_le_mul
  obtain ⟨a, rfl⟩ : ∃ a, size = a + 1 := ⟨size - 1, by omega⟩
  obtain ⟨b, rfl⟩ : ∃ b, mps = b + 1 := ⟨mps - 1, by omega⟩
  have h : (b + 1) * (a + 1) = b * a + b + a + 1 := by ring
  rw [h]
  omega

/-- C26, the claim as stated fails: with a maximum packet size of 256, a value the
11-bit field of the pipe holds, the 8-bit parameter of `calc_packet_count` is 0
and a payload of 8 bytes divides by zero; with 300 the parameter is 44 and a
payload of 600 bytes gives 14 packets, where 600 / 300 rounded up is 2. -/
theorem packet_count_above_8_bit_mps :
    calc_packet_count 8 256 = none
    ∧ calc_packet_count 600 300 = some 14
    ∧ packet_count_reference 600 300 = 2 := by
  refine ⟨?_, ?_, ?_⟩ <;> decide

/-- C26, amended: for every 16-bit payload size and every maximum packet size the
8-bit parameter of `calc_packet_count` holds other than 0 (1..255), the function
returns 1 for an empty payload and the size divided by the maximum packet size,
rounded up, otherwise; it does not divide by zero. -/
theorem packet_count_within_8_bit_mps (size mps : Nat)
    (hsize : size < 65536) (hlo : 1 ≤ mps) (hhi : mps ≤ 255) :
    calc_packet_count size mps = some (packet_count_reference size mps)
    ∧ (size = 0 → packet_count_reference size mps = 1)
    ∧ (size ≠ 0 →
        size ≤ packet_count_reference size mps * mps
        ∧ packet_count_reference size mps * mps < size + mps) := by
  have hs : size % 65536 = size := Nat.mod_eq_of_lt hsize
  have hm : mps % 256 = mps := Nat.mod_eq_of_lt (by omega)
  refine ⟨?_, ?_, ?_⟩
  · unfold calc_packet_count packet_count_reference
    simp only [hs, hm]
    by_cases h0 : size = 0
    · simp [h0]
    · have hmz : ¬ mps = 0 := by omega
      have hle := ceil_div_le_self size mps (by omega) hlo
      simp only [h0, hmz, if_false]
      generalize (size + mps - 1) / mps = n at hle ⊢
      rw [to_u16_of_lt _ (by omega) (by omega)]
      simp
  · intro h0
    simp [packet_count_reference, h0]
  · intro h0
    have hd := Nat.div_add_mod (size + mps - 1) mps
    have hr := Nat.mod_lt (size + mps - 1) (show 0 < mps by omega)
    simp only [packet_count_reference, h0, if_false]
    rw [Nat.mul_comm ((size + mps - 1) / mps) mps]
    constructor <;> omega

theorem packet_count_within_8_bit_mps_witness :
    calc_packet_count 8 64 = some 1 ∧ calc_packet_count 65 64 = some 2 :=
  ⟨(packet_count_within_8_bit_mps 8 64 (by decide) (by decide) (by decide)).1.trans
      (by decide),
   (packet_count_within_8_bit_mps 65 64 (by decide) (by decide) (by decide)).1.trans
      (by decide)⟩

/-! ## Channel errors, halts and the transfer buffer -/

/-- C21: when the channel state machine yields an Error or a HaltRequest event,
`uhc_dwc2_decode_chan` returns PIPE_EVENT_NONE and leaves `last_event` of the
pipe as it was: a channel error changes nothing in the pipe, a completed halt
request sets the pipe state to HALTED.  The outcome is not reported as
PIPE_EVENT_ERROR or PIPE_EVENT_HALTED. -/
theorem decode_chan_error_and_halt_unreported (d : usb_dwc2_reg) (p : pipe_t) (v : Nat) :
    (v &&& CHAN_INTRS_ERROR_MSK ≠ 0 →
      (uhc_dwc2_hal_chan_decode_intr d p.chan_obj v).map Prod.fst
          = some .DWC2_CHAN_EVENT_ERROR
      ∧ ∃ d1, uhc_dwc2_decode_chan d p v = some (.PIPE_EVENT_NONE, d1, p))
    ∧ (v &&& CHAN_INTRS_ERROR_MSK = 0 → v &&& USB_DWC2_HCINT_CHHLTD ≠ 0 →
        p.chan_obj.halt_requested = true →
      (uhc_dwc2_hal_chan_decode_intr d p.chan_obj v).map Prod.fst
          = some .DWC2_CHAN_EVENT_HALT_REQ
      ∧ ∃ d1 p1, uhc_dwc2_decode_chan d p v = some (.PIPE_EVENT_NONE, d1, p1)
          ∧ p1.last_event = p.last_event
          ∧ p1.state = .UHC_PIPE_STATE_HALTED) := by
  constructor
  · intro he
    have hh : uhc_dwc2_hal_chan_decode_intr d p.chan_obj v
        = some (.DWC2_CHAN_EVENT_ERROR,
                chan_regs_update d p.chan_obj.regs
                  (fun r => (dwc2_ll_hcint_read_and_clear_intrs r v).2), p.chan_obj) := by
      simp [uhc_dwc2_hal_chan_decode_intr, dwc2_ll_hcint_read_and_clear_intrs, he]
    refine ⟨by rw [hh]; rfl,
      chan_regs_update d p.chan_obj.regs
        (fun r => (dwc2_ll_hcint_read_and_clear_intrs r v).2), ?_⟩
    unfold uhc_dwc2_decode_chan
    rw [hh]
  · intro he hc hq
    have hh : uhc_dwc2_hal_chan_decode_intr d p.chan_obj v
        = some (.DWC2_CHAN_EVENT_HALT_REQ,
                chan_regs_update d p.chan_obj.regs
                  (fun r => (dwc2_ll_hcint_read_and_clear_intrs r v).2),
                { p.chan_obj with halt_requested := false, active := false }) := by
      simp [uhc_dwc2_hal_chan_decode_intr, dwc2_ll_hcint_read_and_clear_intrs, he, hc, hq]
    refine ⟨by rw [hh]; rfl,
      chan_regs_update d p.chan_obj.regs
        (fun r => (dwc2_ll_hcint_read_and_clear_intrs r v).2),
      { p with chan_obj := { p.chan_obj with halt_requested := false, active := false },
               state := .UHC_PIPE_STATE_HALTED }, ?_, rfl, rfl⟩
    unfold uhc_dwc2_decode_chan
    rw [hh]

theorem decode_chan_error_and_halt_unreported_witness :
    (∃ d1, uhc_dwc2_decode_chan sample_dev.base sample_pipe 10
        = some (.PIPE_EVENT_NONE, d1, sample_pipe))
    ∧ sample_pipe.last_event = .PIPE_EVENT_NONE
    ∧ (∃ d1 p1, uhc_dwc2_decode_chan sample_dev.base sample_pipe_halting 2
        = some (.PIPE_EVENT_NONE, d1, p1)
        ∧ p1.last_event = sample_pipe_halting.last_event
        ∧ p1.state = .UHC_PIPE_STATE_HALTED)
    ∧ sample_pipe_halting.last_event = .PIPE_EVENT_NONE :=
  ⟨((decode_chan_error_and_halt_unreported sample_dev.base sample_pipe 10).1
      (by decide)).2,
   rfl,
   ((decode_chan_error_and_halt_unreported sample_dev.base sample_pipe_halting 2).2
      (by decide) (by decide) rfl).2,
   rfl⟩

/-- C22: for every setup packet of a non-periodic transfer on endpoint 0,
`uhc_dwc2_submit_ctrl_xfer` returns 0 and leaves in the buffer of the pipe the
submitted transfer, the stage marker 0, `data_stg_in` equal to what
`usb_reqtype_is_to_host` returns for the setup packet (bit 7 of bmRequestType)
and `data_stg_skip` equal to `wLength == 0`. -/
theorem submit_ctrl_xfer_fills_buffer (dev : device) (xfer : uhc_transfer) (h0 : Nat)
    (hmps : dev.priv.pipe.ep_char.mps % 256 ≠ 0)
    (hep : (xfer.ep &&& NOT32 0x80) % 256 = 0)
    (hint : xfer.interval = 0) :
    ∃ dev1, uhc_dwc2_submit_ctrl_xfer dev xfer h0 = some (0, dev1)
      ∧ dev1.priv.pipe.buffer.xfer = xfer
      ∧ dev1.priv.pipe.buffer.ctrl.cur_stg = 0
      ∧ dev1.priv.pipe.buffer.ctrl.data_stg_in = usb_reqtype_is_to_host xfer.setup_pkt
      ∧ dev1.priv.pipe.buffer.ctrl.data_stg_in = xfer.setup_pkt.bmRequestType.testBit 7
      ∧ dev1.priv.pipe.buffer.ctrl.data_stg_skip = decide (xfer.setup_pkt.wLength = 0) := by
  obtain ⟨dev1, hsub, _, _, _, hcur, hin, hskip, _, _, hx, _⟩ :=
    submit_ctrl_xfer_ep0 dev xfer h0 hmps hep hint
  exact ⟨dev1, hsub, hx, hcur, hin, hin, hskip⟩

theorem submit_ctrl_xfer_fills_buffer_witness :
    ∃ dev1, uhc_dwc2_submit_ctrl_xfer sample_dev sample_get_descriptor 0 = some (0, dev1)
      ∧ dev1.priv.pipe.buffer.xfer = sample_get_descriptor
      ∧ dev1.priv.pipe.buffer.ctrl.cur_stg = 0
      ∧ dev1.priv.pipe.buffer.ctrl.data_stg_in = true
      ∧ dev1.priv.pipe.buffer.ctrl.data_stg_skip = false := by
  obtain ⟨dev1, h1, h2, h3, _, h5, h6⟩ :=
    submit_ctrl_xfer_fills_buffer sample_dev sample_get_descriptor 0 (by decide) (by decide) rfl
  exact ⟨dev1, h1, h2, h3, h5, h6⟩

/-- C23: `uhc_dwc2_submit_ctrl_xfer` records a deferred address change
(`set_addr` = 1, `new_addr` = `wValue & 0x7F`) exactly when the request code
`bRequest` of the setup packet is 5, whatever the request-type byte: the type,
direction and recipient of the request are not examined, so a class or vendor
request with request code 5 records an address change as the standard Set
Address request does. -/
theorem set_addr_recorded_for_every_request_5 (dev : device) (xfer : uhc_transfer) (h0 : Nat)
    (hmps : dev.priv.pipe.ep_char.mps % 256 ≠ 0)
    (hep : (xfer.ep &&& NOT32 0x80) % 256 = 0)
    (hint : xfer.interval = 0) :
    ∃ dev1, uhc_dwc2_submit_ctrl_xfer dev xfer h0 = some (0, dev1)
      ∧ dev1.priv.pipe.buffer.ctrl.set_addr = decide (xfer.setup_pkt.bRequest = 5)
      ∧ (xfer.setup_pkt.bRequest = 5 →
          dev1.priv.pipe.buffer.ctrl.new_addr = xfer.setup_pkt.wValue &&& 0x7F)
      ∧ (is_standard_set_address xfer.setup_pkt →
          dev1.priv.pipe.buffer.ctrl.set_addr = true) := by
  obtain ⟨dev1, hsub, _, _, _, _, _, _, hsa, hna, _⟩ :=
    submit_ctrl_xfer_ep0 dev xfer h0 hmps hep hint
  refine ⟨dev1, hsub, hsa, hna, fun hstd => ?_⟩
  rw [hsa]
  exact decide_eq_true hstd.2

theorem set_addr_recorded_for_every_request_5_witness :
    ¬ is_standard_set_address sample_vendor_request_5.setup_pkt
    ∧ ∃ dev1, uhc_dwc2_submit_ctrl_xfer sample_dev sample_vendor_request_5 0 = some (0, dev1)
        ∧ dev1.priv.pipe.buffer.ctrl.set_addr = true
        ∧ dev1.priv.pipe.buffer.ctrl.new_addr = 7 := by
  obtain ⟨dev1, h1, h2, h3, _⟩ :=
    set_addr_recorded_for_every_request_5 sample_dev sample_vendor_request_5 0 (by decide)
      (by decide) rfl
  exact ⟨by decide, dev1, h1, h2, h3 rfl⟩

/-! ## A control transfer without data stage, end to end -/

theorem submit_ctrl_xfer_counters (dev : device) (xfer : uhc_transfer) (h0 : Nat)
    (hmps : dev.priv.pipe.ep_char.mps % 256 ≠ 0)
    (hep : (xfer.ep &&& NOT32 0x80) % 256 = 0)
    (hint : xfer.interval = 0)
    (hidle : dev.priv.pipe.flags.has_urb = false) :
    ∃ dev1, uhc_dwc2_submit_ctrl_xfer dev xfer h0 = some (0, dev1)
      ∧ dev1.priv.pipe.num_urb_pending = dev.priv.pipe.num_urb_pending + 1
      ∧ dev1.priv.pipe.flags.has_urb = true
      ∧ dev1.priv.num_pipes_idle = to_u8 ((dev.priv.num_pipes_idle : Int) - 1)
      ∧ dev1.priv.num_pipes_queued = to_u8 ((dev.priv.num_pipes_queued : Int) + 1) := by
  have hpk : ∃ pk, calc_packet_count 8 dev.priv.pipe.ep_char.mps = some pk := by
    unfold calc_packet_count
    simp [hmps]
  obtain ⟨pk, hpk⟩ := hpk
  unfold uhc_dwc2_submit_ctrl_xfer
  simp only [hep, hint, hpk, ne_eq, not_true_eq_false, decide_False, Bool.false_eq_true,
    if_false, if_true, Nat.zero_and, zero_ne_one]
  refine ⟨_, rfl, ?_⟩
  by_cases hs : xfer.setup_pkt.bRequest = USB_SREQ_SET_ADDRESS <;>
  simp [hidle, hs]

theorem net_buf_add_zero (b : net_buf) (hb : b.len < 65536) : net_buf_add b 0 = some b := by
  rw [net_buf_add_room b 0 (Nat.zero_le _)]
  have h : to_u16 ((b.len + 0 : Nat) : Int) = b.len := by
    rw [to_u16_of_lt _ (by omega) (by omega)]
    simp
  rw [h]

/-- The channel-complete interrupt after the Setup stage of a transfer without
data stage: the Status stage is programmed and the pipe keeps its counters and
flags. -/
theorem decode_chan_status_after_setup (d : usb_dwc2_reg) (p : pipe_t) (v : Nat)
    (htype : p.ep_char.type = .UHC_DWC2_XFER_TYPE_CTRL)
    (hq : p.chan_obj.halt_requested = false)
    (hv : chan_complete_intr v)
    (hcur : p.buffer.ctrl.cur_stg = 0)
    (hskip : p.buffer.ctrl.data_stg_skip = true) :
    ∃ d1, uhc_dwc2_decode_chan d p v
        = some (.PIPE_EVENT_NONE, d1,
            { p with
              chan_obj := { p.chan_obj with active := false }
              buffer := { p.buffer with
                xfer := { p.buffer.xfer with
                  buf := p.buffer.xfer.buf.bind (fun b => net_buf_add b 0) }
                ctrl := { p.buffer.ctrl with cur_stg := 2 } } })
      ∧ programmed_stage (d1.host_chans p.chan_obj.regs) = (CTRL_STAGE_DATA1, true, 0) := by
  rw [decode_chan_complete d p v hv hq]
  have hnd : _buffer_check_done { p with chan_obj := { p.chan_obj with active := false } }
      = false := by
    simp [_buffer_check_done, htype, hcur]
  simp only [hnd, Bool.not_false, if_true]
  unfold _buffer_exec
  cases hb : p.buffer.xfer.buf <;>
  · simp only [hcur, hskip, hb, net_buf_add_room _ 0 (Nat.zero_le _), Option.map_some',
      Option.bind_eq_bind, Option.none_bind, Option.some_bind, if_true]
    refine ⟨_, rfl, ?_⟩
    simp [programmed_stage, chan_regs_update_same, dwc2_ll_hcchar_en_channel,
      dwc2_ll_hcdma_set_buffer_addr, dwc2_ll_hctsiz_do_ping, dwc2_ll_hctsiz_prep_transfer,
      dwc2_ll_hcchar_set_dir]

theorem handle_pipe_events_urb_done (dev : device)
    (hev : dev.priv.pipe.last_event = .PIPE_EVENT_URB_DONE) :
    (uhc_dwc2_handle_pipe_events dev).upstream
        = dev.upstream ++ [uhc_upstream.xfer_return dev.priv.pipe.buffer.xfer 0]
    ∧ (uhc_dwc2_handle_pipe_events dev).priv.pipe.flags.has_urb = false
    ∧ (uhc_dwc2_handle_pipe_events dev).priv.pipe.num_urb_pending
        = dev.priv.pipe.num_urb_pending - 1
    ∧ (uhc_dwc2_handle_pipe_events dev).priv.num_pipes_idle
        = to_u8 ((dev.priv.num_pipes_idle : Int) + 1)
    ∧ (uhc_dwc2_handle_pipe_events dev).priv.num_pipes_queued
        = to_u8 ((dev.priv.num_pipes_queued : Int) - 1) := by
  unfold uhc_dwc2_handle_pipe_events
  cases hsa : dev.priv.pipe.buffer.ctrl.set_addr <;> simp [hev, hsa]

theorem to_u8_dec_inc (n : Nat) (h : n < 256) :
    to_u8 ((to_u8 ((n : Int) - 1) : Int) + 1) = n := by
  unfold to_u8
  omega

theorem to_u8_inc_dec (n : Nat) (h : n < 256) :
    to_u8 ((to_u8 ((n : Int) + 1) : Int) - 1) = n := by
  unfold to_u8
  omega

theorem xfer_buf_add_zero (xfer : uhc_transfer)
    (hb16 : ∀ b, xfer.buf = some b → b.len < 65536) :
    { xfer with buf := xfer.buf.bind (fun b => net_buf_add b 0) } = xfer := by
  rcases xfer with ⟨sp, spa, buf, ep, iv⟩
  cases buf with
  | none => rfl
  | some b =>
    have hb : b.len < 65536 := hb16 b rfl
    simp [net_buf_add_zero b hb]

/-- C24: a control transfer on endpoint 0 with wLength = 0, submitted to an idle
pipe and driven by two channel-complete interrupts: the submission programs the
Setup stage, the first completion yields no pipe event and programs a
zero-length Status stage with direction IN, the second yields URB_DONE and
programs nothing more; handling URB_DONE returns the transfer upstream with
status 0 and leaves `has_urb` clear and `num_urb_pending`, `num_pipes_idle` and
`num_pipes_queued` at their values before the submission. -/
theorem zero_length_ctrl_xfer_end_to_end (dev : device) (xfer : uhc_transfer)
    (h0 v1 v2 : Nat)
    (htype : dev.priv.pipe.ep_char.type = .UHC_DWC2_XFER_TYPE_CTRL)
    (hhalt : dev.priv.pipe.chan_obj.halt_requested = false)
    (hmps : dev.priv.pipe.ep_char.mps % 256 ≠ 0)
    (hep : (xfer.ep &&& NOT32 0x80) % 256 = 0)
    (hint : xfer.interval = 0)
    (hlen : xfer.setup_pkt.wLength = 0)
    (hidle : dev.priv.pipe.flags.has_urb = false)
    (hi8 : dev.priv.num_pipes_idle < 256) (hq8 : dev.priv.num_pipes_queued < 256)
    (hb16 : ∀ b, xfer.buf = some b → b.len < 65536)
    (hv1 : chan_complete_intr v1) (hv2 : chan_complete_intr v2) :
    ∃ dev1 d2 p2 d3 p3,
      uhc_dwc2_submit_ctrl_xfer dev xfer h0 = some (0, dev1)
      ∧ programmed_stage (dev1.base.host_chans dev.priv.pipe.chan_obj.regs)
          = (CTRL_STAGE_SETUP, false, 8)
      ∧ uhc_dwc2_decode_chan dev1.base dev1.priv.pipe v1 = some (.PIPE_EVENT_NONE, d2, p2)
      ∧ programmed_stage (d2.host_chans dev.priv.pipe.chan_obj.regs)
          = (CTRL_STAGE_DATA1, true, 0)
      ∧ uhc_dwc2_decode_chan d2 p2 v2 = some (.PIPE_EVENT_URB_DONE, d3, p3)
      ∧ programmed_stage (d3.host_chans dev.priv.pipe.chan_obj.regs)
          = (CTRL_STAGE_DATA1, true, 0)
      ∧ (uhc_dwc2_handle_pipe_events
            { dev1 with base := d3, priv := { dev1.priv with pipe := p3 } }).upstream
          = dev.upstream ++ [uhc_upstream.xfer_return xfer 0]
      ∧ (uhc_dwc2_handle_pipe_events
            { dev1 with base := d3, priv := { dev1.priv with pipe := p3 } }
          ).priv.pipe.flags.has_urb = false
      ∧ (uhc_dwc2_handle_pipe_events
            { dev1 with base := d3, priv := { dev1.priv with pipe := p3 } }
          ).priv.pipe.num_urb_pending = dev.priv.pipe.num_urb_pending
      ∧ (uhc_dwc2_handle_pipe_events
            { dev1 with base := d3, priv := { dev1.priv with pipe := p3 } }
          ).priv.num_pipes_idle = dev.priv.num_pipes_idle
      ∧ (uhc_dwc2_handle_pipe_events
            { dev1 with base := d3, priv := { dev1.priv with pipe := p3 } }
          ).priv.num_pipes_queued = dev.priv.num_pipes_queued := by
  obtain ⟨dev1, hsub, hst, _, _, hcur0, _, hskip, _, _, hx, hch, hepc, _, hup⟩ :=
    submit_ctrl_xfer_ep0 dev xfer h0 hmps hep hint
  obtain ⟨dev1b, hsubb, hnum, _, hidl, hque⟩ :=
    submit_ctrl_xfer_counters dev xfer h0 hmps hep hint hidle
  have hsame : dev1b = dev1 := by
    rw [hsub] at hsubb
    simp only [Option.some.injEq, Prod.mk.injEq, true_and] at hsubb
    exact hsubb.symm
  subst hsame
  have hskip1 : dev1b.priv.pipe.buffer.ctrl.data_stg_skip = true := by simp [hskip, hlen]
  obtain ⟨d2, hd2, hs2⟩ :=
    decode_chan_status_after_setup dev1b.base dev1b.priv.pipe v1 (by rw [hepc]; exact htype)
      (by rw [hch]; exact hhalt) hv1 hcur0 hskip1
  rw [hch] at hs2
  have hd3 := decode_chan_done d2
    { dev1b.priv.pipe with
      chan_obj := { dev1b.priv.pipe.chan_obj with active := false }
      buffer := { dev1b.priv.pipe.buffer with
        xfer := { dev1b.priv.pipe.buffer.xfer with
          buf := dev1b.priv.pipe.buffer.xfer.buf.bind (fun b => net_buf_add b 0) }
        ctrl := { dev1b.priv.pipe.buffer.ctrl with cur_stg := 2 } } } v2
    (by show dev1b.priv.pipe.chan_obj.halt_requested = false
        rw [hch]
        exact hhalt) hv2 rfl
  have hh := handle_pipe_events_urb_done
    { dev1b with
      base := chan_regs_update d2 dev1b.priv.pipe.chan_obj.regs (fun r => { r with hcint := v2 })
      priv := { dev1b.priv with pipe :=
        { dev1b.priv.pipe with
          chan_obj := { dev1b.priv.pipe.chan_obj with active := false }
          buffer := { dev1b.priv.pipe.buffer with
            xfer := { dev1b.priv.pipe.buffer.xfer with
              buf := dev1b.priv.pipe.buffer.xfer.buf.bind (fun b => net_buf_add b 0) }
            ctrl := { dev1b.priv.pipe.buffer.ctrl with cur_stg := 2 } }
          last_event := .PIPE_EVENT_URB_DONE } } } rfl
  obtain ⟨hh1, hh2, hh3, hh4, hh5⟩ := hh
  refine ⟨dev1b, d2, _, _, _, hsub, hst, hd2, hs2, hd3, ?_, ?_, hh2, ?_, ?_, ?_⟩
  · show programmed_stage
        ((chan_regs_update d2 dev1b.priv.pipe.chan_obj.regs
            (fun r => { r with hcint := v2 })).host_chans dev.priv.pipe.chan_obj.regs) = _
    rw [hch, chan_regs_update_same, ← hs2]
    rfl
  · refine hh1.trans ?_
    show dev1b.upstream ++ [uhc_upstream.xfer_return
        { dev1b.priv.pipe.buffer.xfer with
          buf := dev1b.priv.pipe.buffer.xfer.buf.bind (fun b => net_buf_add b 0) } 0] = _
    rw [hup, hx, xfer_buf_add_zero xfer hb16]
  · refine hh3.trans ?_
    show dev1b.priv.pipe.num_urb_pending - 1 = _
    rw [hnum]
    omega
  · refine hh4.trans ?_
    show to_u8 ((dev1b.priv.num_pipes_idle : Int) + 1) = _
    rw [hidl]
    exact to_u8_dec_inc _ hi8
  · refine hh5.trans ?_
    show to_u8 ((dev1b.priv.num_pipes_queued : Int) - 1) = _
    rw [hque]
    exact to_u8_inc_dec _ hq8

theorem zero_length_ctrl_xfer_end_to_end_witness :
    ∃ dev1 d3 p3,
      uhc_dwc2_submit_ctrl_xfer sample_dev sample_set_configuration 0 = some (0, dev1)
      ∧ (uhc_dwc2_handle_pipe_events
            { dev1 with base := d3, priv := { dev1.priv with pipe := p3 } }).upstream
          = [uhc_upstream.xfer_return sample_set_configuration 0]
      ∧ (uhc_dwc2_handle_pipe_events
            { dev1 with base := d3, priv := { dev1.priv with pipe := p3 } }
          ).priv.pipe.flags.has_urb = false
      ∧ (uhc_dwc2_handle_pipe_events
            { dev1 with base := d3, priv := { dev1.priv with pipe := p3 } }
          ).priv.num_pipes_idle = 1 := by
  obtain ⟨dev1, d2, p2, d3, p3, h1, _, _, _, _, _, h7, h8, _, h10, _⟩ :=
    zero_length_ctrl_xfer_end_to_end sample_dev sample_set_configuration 0 2 2 rfl rfl
      (by decide) (by decide) rfl rfl rfl (by decide) (by decide)
      (by intro b hb; cases hb) (by decide) (by decide)
  exact ⟨dev1, d3, p3, h1, h7, h8, h10⟩

/-! ## Channel loop of the interrupt handler -/

theorem ffs_from_lowest (x k : Nat) (hbit : x.testBit k = true) :
    ∀ (fuel i : Nat), i ≤ k → k < i + fuel →
      (∀ j, i ≤ j → j < k → x.testBit j = false) → ffs_from x i fuel = k + 1 := by
  intro fuel
  induction fuel with
  | zero =>
    intro i hik hk _
    omega
  | succ n ih =>
    intro i hik hk hlow
    unfold ffs_from
    by_cases hi : i = k
    · subst hi
      simp [hbit]
    · have hlt : i < k := by omega
      rw [hlow i (Nat.le_refl i) hlt]
      simp only [Bool.false_eq_true, if_false]
      exact ih (i + 1) (by omega) (by omega) (fun j hj hjk => hlow j (by omega) hjk)

theorem builtin_ffs_lowest (x k : Nat) (hk : k < 32) (hbit : x.testBit k = true)
    (hlow : ∀ j, j < k → x.testBit j = false) : builtin_ffs x = k + 1 :=
  ffs_from_lowest x k hbit 32 0 (Nat.zero_le k) (by omega) (fun j _ hjk => hlow j hjk)

/-- C27: on a channel event whose lowest pending bit `k` belongs to a free slot
of the channel table, the channel loop of `uhc_dwc2_isr_handler` ends at its
first pull: `uhc_dwc2_get_chan_pending_intr` clears bit `k` and returns the NULL
of the slot, which the loop takes for the end of the pending channels.  The
higher pending bits stay set, no channel is serviced and no pipe event is
posted, also when a higher pending bit belongs to an allocated channel. -/
theorem chan_loop_stops_at_free_slot (hw : usb_dwc2_hw) (dev : device)
    (gintsts hprt hprt_sts haint hprt_spd : Nat) (hcint : Nat → Nat)
    (t : List (Option Nat)) (k : Nat)
    (hev : (uhc_dwc2_decode_intr hw dev gintsts hprt hprt_sts haint).1
        = .UHC_DWC2_CORE_EVENT_CHAN)
    (ht : dev.priv.channels.hdls = some t)
    (hk : k < 32)
    (hbit : haint.testBit k = true)
    (hlow : ∀ j, j < k → haint.testBit j = false)
    (hfree : t[k]? = some none) :
    ∃ d : device,
      uhc_dwc2_isr_handler hw dev gintsts hprt hprt_sts haint hprt_spd hcint = some d
      ∧ d.priv.channels.pending_intrs_msk = haint &&& NOT32 (1 <<< k)
      ∧ (∀ j, j < 32 → j ≠ k →
          d.priv.channels.pending_intrs_msk.testBit j = haint.testBit j)
      ∧ d.priv.channels.hdls = some t
      ∧ d.priv.pipe = dev.priv.pipe
      ∧ d.priv.drv_evt = dev.priv.drv_evt := by
  have hffs : builtin_ffs haint = k + 1 :=
    builtin_ffs_lowest haint k hk hbit hlow
  have hbits : ∀ j, j < 32 → j ≠ k →
      (haint &&& NOT32 (1 <<< k)).testBit j = haint.testBit j := by
    intro j hj hjk
    have h1 : (1 <<< k : Nat).testBit j = decide (k = j) := by
      rw [Nat.one_shiftLeft]
      exact Nat.testBit_two_pow
    have hkj : ¬ k = j := fun h => hjk h.symm
    rw [Nat.testBit_and, testBit_NOT32, h1]
    simp [hj, hkj]
  obtain ⟨B, _, h⟩ := decode_intr_shape hw dev gintsts hprt hprt_sts haint
  rcases h with ⟨_, _, _, hn⟩ | ⟨_, hcd⟩ | ⟨h2, _⟩
  · exact absurd hev hn
  · rw [hev] at hcd
    simp at hcd
  · refine ⟨{ base := B
              priv := { dev.priv with channels := { dev.priv.channels with
                pending_intrs_msk := haint &&& NOT32 (1 <<< k) } }
              upstream := dev.upstream }, ?_, rfl, hbits, ht, rfl, rfl⟩
    simp [uhc_dwc2_isr_handler, hev, h2, uhc_dwc2_get_chan_pending_intr, ht, hffs, hfree,
      isr_chan_loop, dwc2_ll_haint_get_chan_intrs]

theorem chan_loop_stops_at_free_slot_witness :
    (∃ d : device,
      uhc_dwc2_isr_handler sample_hw sample_dev_slot1 (BIT 25) 0 0 3 0 (fun _ => 2) = some d
      ∧ d.priv.channels.pending_intrs_msk = 2
      ∧ d.priv.channels.hdls = some [none, some 0x1000, none, none, none, none, none, none]
      ∧ d.priv.pipe = sample_dev_slot1.priv.pipe
      ∧ d.priv.drv_evt = 0)
    ∧ (uhc_dwc2_isr_handler sample_hw sample_dev (BIT 25) 0 0 6 0 (fun _ => 2)).map
        (fun d => d.priv.channels.pending_intrs_msk) = some 4 := by
  obtain ⟨d, h1, h2, _, h4, h5, h6⟩ :=
    chan_loop_stops_at_free_slot sample_hw sample_dev_slot1 (BIT 25) 0 0 3 0 (fun _ => 2)
      [none, some 0x1000, none, none, none, none, none, none] 0 rfl rfl (by decide) rfl
      (fun j hj => absurd hj (Nat.not_lt_zero j)) rfl
  exact ⟨⟨d, h1, h2, h4, h5, h6⟩, rfl⟩

/-! ## Worker thread -/

theorem config_fixed_dma_fifo_eq (const_cfg : uhc_dwc2_constant_config_t)
    (fifo : uhc_dwc2_fifo_config_t)
    (hD : const_cfg.fifo_depth < 65536)
    (hge : 2 * const_cfg.num_channels + 164 ≤ const_cfg.fifo_depth) :
    (uhc_dwc2_config_fixed_dma_fifo const_cfg fifo).2
      = { top := const_cfg.fifo_depth - const_cfg.num_channels, nptxfsiz := 32,
          rxfsiz := 132 + const_cfg.num_channels,
          ptxfsiz := const_cfg.fifo_depth - 2 * const_cfg.num_channels - 164 } := by
  have htop : to_u16 ((const_cfg.fifo_depth : Int) - const_cfg.num_channels)
      = const_cfg.fifo_depth - const_cfg.num_channels := by
    rw [to_u16_of_lt _ (by omega) (by omega)]
    omega
  have hnp : to_u16 ((2 * (EPSIZE_BULK_FS / 4) : Nat) : Int) = 32 := by
    decide
  have hrx : to_u16 ((2 * (256 / 4 + 2) + const_cfg.num_channels : Nat) : Int)
      = 132 + const_cfg.num_channels := by
    rw [to_u16_of_lt _ (by omega) (by omega)]
    omega
  have hptx : to_u16 (((const_cfg.fifo_depth - const_cfg.num_channels : Nat) : Int)
        - (((32 : Nat) : Int) + ((132 + const_cfg.num_channels : Nat) : Int)))
      = const_cfg.fifo_depth - 2 * const_cfg.num_channels - 164 := by
    rw [to_u16_of_lt _ (by omega) (by omega)]
    omega
  unfold uhc_dwc2_config_fixed_dma_fifo
  simp only [htop, hnp, hrx, hptx]

theorem set_fifo_config_top (hw : usb_dwc2_hw) (dwc2 : usb_dwc2_reg)
    (fifo : uhc_dwc2_fifo_config_t)
    (hsum : fifo.nptxfsiz + fifo.rxfsiz + fifo.ptxfsiz = fifo.top)
    (htop : fifo.top < 65536) :
    (dwc2_hal_set_fifo_config hw dwc2 fifo).2 = { fifo with top := 0 } := by
  have h1 : to_u16 ((fifo.top : Int) - fifo.rxfsiz) = fifo.top - fifo.rxfsiz := by
    rw [to_u16_of_lt _ (by omega) (by omega)]
    omega
  have h2 : to_u16 (((fifo.top - fifo.rxfsiz : Nat) : Int) - fifo.nptxfsiz)
      = fifo.top - fifo.rxfsiz - fifo.nptxfsiz := by
    rw [to_u16_of_lt _ (by omega) (by omega)]
    omega
  have h3 : to_u16 (((fifo.top - fifo.rxfsiz - fifo.nptxfsiz : Nat) : Int) - fifo.ptxfsiz)
      = 0 := by
    rw [to_u16_of_lt _ (by omega) (by omega)]
    omega
  unfold dwc2_hal_set_fifo_config
  simp only [h1, h2, h3]

theorem to_u32_or_ne_zero (a top : Nat) (h0 : top ≠ 0) (h16 : top < 65536) :
    to_u32 ((a ||| top : Nat)) ≠ 0 := by
  obtain ⟨j, hj⟩ := Nat.ne_zero_implies_bit_true h0
  have hj32 : j < 32 := by
    by_contra hge
    have hlt : top < 2 ^ j :=
      lt_of_lt_of_le h16 (by
        have : (2 : Nat) ^ 16 ≤ 2 ^ j := Nat.pow_le_pow_right (by decide) (by omega)
        simpa using this)
    rw [Nat.testBit_lt_two_pow hlt] at hj
    cases hj
  have hb : ((a ||| top) % 2 ^ 32).testBit j = true := by
    rw [Nat.testBit_mod_two_pow, Nat.testBit_or, hj]
    simp [hj32]
  have hu : to_u32 ((a ||| top : Nat)) = (a ||| top) % 2 ^ 32 := by
    unfold to_u32
    omega
  rw [hu]
  intro hz
  rw [hz] at hb
  simp at hb

/-- C29: programming a layout produced by `uhc_dwc2_config_fixed_dma_fifo` (FIFO
depth D with 2N + 164 ≤ D < 65536) is not repeatable: `dwc2_hal_set_fifo_config`
consumes `top` of the layout record, leaving it 0 where it was D - N, so the
record is changed by the call, and a second call on the record writes 0 to
GDFIFOCFG where the first wrote a value that is not 0. -/
theorem set_fifo_config_consumes_layout (hw : usb_dwc2_hw) (dwc2 dwc2b : usb_dwc2_reg)
    (const_cfg : uhc_dwc2_constant_config_t) (fifo0 : uhc_dwc2_fifo_config_t)
    (hD : const_cfg.fifo_depth < 65536)
    (hge : 2 * const_cfg.num_channels + 164 ≤ const_cfg.fifo_depth) :
    (uhc_dwc2_config_fixed_dma_fifo const_cfg fifo0).2.top
        = const_cfg.fifo_depth - const_cfg.num_channels
    ∧ 0 < (uhc_dwc2_config_fixed_dma_fifo const_cfg fifo0).2.top
    ∧ (dwc2_hal_set_fifo_config hw dwc2 (uhc_dwc2_config_fixed_dma_fifo const_cfg fifo0).2).2.top
        = 0
    ∧ (dwc2_hal_set_fifo_config hw dwc2 (uhc_dwc2_config_fixed_dma_fifo const_cfg fifo0).2).2
        ≠ (uhc_dwc2_config_fixed_dma_fifo const_cfg fifo0).2
    ∧ (dwc2_hal_set_fifo_config hw dwc2
          (uhc_dwc2_config_fixed_dma_fifo const_cfg fifo0).2).1.gdfifocfg ≠ 0
    ∧ (dwc2_hal_set_fifo_config hw dwc2b
          (dwc2_hal_set_fifo_config hw dwc2
            (uhc_dwc2_config_fixed_dma_fifo const_cfg fifo0).2).2).1.gdfifocfg = 0 := by
  have hk := config_fixed_dma_fifo_eq const_cfg fifo0 hD hge
  have ht := set_fifo_config_top hw dwc2 (uhc_dwc2_config_fixed_dma_fifo const_cfg fifo0).2
    (by rw [hk]
        show 32 + (132 + const_cfg.num_channels)
            + (const_cfg.fifo_depth - 2 * const_cfg.num_channels - 164)
          = const_cfg.fifo_depth - const_cfg.num_channels
        omega)
    (by rw [hk]
        show const_cfg.fifo_depth - const_cfg.num_channels < 65536
        omega)
  have htop : (uhc_dwc2_config_fixed_dma_fifo const_cfg fifo0).2.top
      = const_cfg.fifo_depth - const_cfg.num_channels := by rw [hk]
  have hpos : 0 < (uhc_dwc2_config_fixed_dma_fifo const_cfg fifo0).2.top := by
    rw [htop]
    omega
  refine ⟨htop, hpos, by rw [ht], ?_, ?_, ?_⟩
  · intro heq
    have h := congrArg uhc_dwc2_fifo_config_t.top heq
    rw [ht] at h
    simp only at h
    omega
  · show to_u32 ((_ ||| (uhc_dwc2_config_fixed_dma_fifo const_cfg fifo0).2.top : Nat)) ≠ 0
    exact to_u32_or_ne_zero _ _ (by omega) (by rw [htop]; omega)
  · rw [ht]
    show to_u32 (((0 <<< hw.USB_DWC2_GDFIFOCFG_EPINFOBASEADDR_POS) ||| 0 : Nat)) = 0
    simp [to_u32]

theorem set_fifo_config_consumes_layout_witness :
    (uhc_dwc2_config_fixed_dma_fifo sample_const_cfg sample_dev.priv.fifo).2
        = { top := 248, nptxfsiz := 32, rxfsiz := 140, ptxfsiz := 76 }
    ∧ (dwc2_hal_set_fifo_config sample_hw sample_regs
          (uhc_dwc2_config_fixed_dma_fifo sample_const_cfg sample_dev.priv.fifo).2).2.top = 0
    ∧ (dwc2_hal_set_fifo_config sample_hw sample_regs
          (uhc_dwc2_config_fixed_dma_fifo sample_const_cfg sample_dev.priv.fifo).2).1.gdfifocfg
        = 16253176
    ∧ (dwc2_hal_set_fifo_config sample_hw sample_regs
          (dwc2_hal_set_fifo_config sample_hw sample_regs
            (uhc_dwc2_config_fixed_dma_fifo sample_const_cfg
              sample_dev.priv.fifo).2).2).1.gdfifocfg = 0
    ∧ (dwc2_hal_set_fifo_config sample_hw sample_regs
          (uhc_dwc2_config_fixed_dma_fifo sample_const_cfg sample_dev.priv.fifo).2).1.gnptxfsiz
        = 2097228
    ∧ (dwc2_hal_set_fifo_config sample_hw sample_regs
          (dwc2_hal_set_fifo_config sample_hw sample_regs
            (uhc_dwc2_config_fixed_dma_fifo sample_const_cfg
              sample_dev.priv.fifo).2).2).1.gnptxfsiz = 2162516 :=
  ⟨rfl,
   (set_fifo_config_consumes_layout sample_hw sample_regs sample_regs sample_const_cfg
      sample_dev.priv.fifo (by decide) (by decide)).2.2.1,
   rfl,
   (set_fifo_config_consumes_layout sample_hw sample_regs sample_regs sample_const_cfg
      sample_dev.priv.fifo (by decide) (by decide)).2.2.2.2.2,
   rfl, rfl⟩

/-! ## Channel table after a pipe allocation -/

theorem chan_alloc_fresh (dev : device) (chan_ptr : Nat) (chan_obj : uhc_dwc2_channel_t)
    (context hcint : Nat)
    (ht : dev.priv.channels.hdls = some (List.replicate dev.priv.const_cfg.num_channels none))
    (r : Bool × device × uhc_dwc2_channel_t)
    (hr : uhc_dwc2_chan_alloc dev chan_ptr chan_obj context hcint = some r)
    (hok : r.1 = true) :
    r.2.1.priv.channels.num_allocated = dev.priv.channels.num_allocated + 1
    ∧ r.2.1.priv.channels.hdls
        = some ((List.replicate dev.priv.const_cfg.num_channels none).set 0 (some chan_ptr))
    ∧ 0 < dev.priv.const_cfg.num_channels
    ∧ r.2.2.active = false ∧ r.2.2.halt_requested = false
    ∧ r.2.1.priv.const_cfg = dev.priv.const_cfg := by
  unfold uhc_dwc2_chan_alloc at hr
  simp only [ht] at hr
  by_cases hfull : dev.priv.channels.num_allocated = dev.priv.const_cfg.num_channels
  · simp only [hfull, if_true, Option.some.injEq] at hr
    subst hr
    cases hok
  · simp only [hfull, if_false] at hr
    cases hN : dev.priv.const_cfg.num_channels with
    | zero =>
      simp [hN, chan_alloc_scan] at hr
    | succ n =>
      have hscan : chan_alloc_scan (List.replicate (n + 1) none) (n + 1) 0 (n + 1)
          = some (some 0) := by
        simp [chan_alloc_scan, List.replicate]
      simp only [hN, hscan, Option.some.injEq] at hr
      subst hr
      simp

theorem pipe_alloc_channels (dev : device) (pipe_config : uhc_pipe_config_t)
    (rd : pipe_alloc_reads) (r : Int × device)
    (hr : uhc_dwc2_pipe_alloc dev pipe_config rd = some r) (hok : r.1 = 0) :
    r.2.priv.channels.num_allocated = dev.priv.channels.num_allocated + 1
    ∧ ∃ chan_ptr, r.2.priv.channels.hdls
        = some ((List.replicate dev.priv.const_cfg.num_channels none).set 0 (some chan_ptr))
      ∧ 0 < dev.priv.const_cfg.num_channels := by
  unfold uhc_dwc2_pipe_alloc at hr
  cases hcm : rd.chan_mem with
  | none =>
    simp only [hcm, Option.some.injEq] at hr
    subst hr
    simp [ENOMEM] at hok
  | some cm =>
    obtain ⟨chan_ptr, chan_obj⟩ := cm
    simp only [hcm] at hr
    cases hbm : rd.buf_mem with
    | none =>
      simp only [hbm, Option.some.injEq] at hr
      subst hr
      simp [ENOMEM] at hok
    | some buffer =>
      simp only [hbm] at hr
      cases hconn : dev.priv.dynamic.flags.conn_dev_ena with
      | false =>
        simp only [hconn, Bool.not_false, if_true, Option.some.injEq] at hr
        subst hr
        simp [ENODEV] at hok
      | true =>
        simp only [hconn, Bool.not_true, Bool.false_eq_true, if_false] at hr
        cases hmem : rd.hdls_mem with
        | false =>
          by_cases hN : dev.priv.const_cfg.num_channels = 0
          · simp [hmem, hN, uhc_dwc2_chan_alloc] at hr
          · simp [hmem, hN] at hr
        | true =>
          simp only [hmem, Bool.not_true, Bool.false_eq_true, false_and, if_false, if_true] at hr
          by_cases hbig : 255 < dev.priv.const_cfg.num_channels
          · simp [hbig] at hr
          · simp only [hbig, if_false] at hr
            split at hr
            · cases hr
            · rename_i ok d2 c2 heq
              cases ok with
              | false =>
                simp only [Bool.not_false, if_true, Option.some.injEq] at hr
                subst hr
                simp [ENOMEM] at hok
              | true =>
                obtain ⟨h1, h2, h3, _, _, _⟩ := chan_alloc_fresh _ _ _ _ _ rfl _ heq rfl
                simp only [Bool.not_true, Bool.false_eq_true, if_false] at hr
                split at hr
                · cases hr
                · simp only [Option.some.injEq] at hr
                  subst hr
                  exact ⟨h1, chan_ptr, h2, h3⟩

theorem occupied_fresh_set (N p : Nat) (hN : 0 < N) :
    occupied_slots ((List.replicate N none).set 0 (some p)) = 1 := by
  obtain ⟨n, rfl⟩ : ∃ n, N = n + 1 := ⟨N - 1, by omega⟩
  simp [occupied_slots, List.replicate_succ, List.countP_cons, List.countP_replicate]

/-- C30: a successful `uhc_dwc2_pipe_alloc` replaces the channel table by a fresh
one, in which the channel it allocates is the only occupied slot, and adds 1 to
`num_allocated` without resetting it: after the call `num_allocated` equals the
number of occupied slots only when it was 0 before, so after an earlier
allocation the count exceeds the occupied slots. -/
theorem pipe_alloc_counts_earlier_allocations (dev : device) (pipe_config : uhc_pipe_config_t)
    (rd : pipe_alloc_reads)
    (h : (uhc_dwc2_pipe_alloc dev pipe_config rd).map Prod.fst = some 0) :
    ∃ (d : device) (t : List (Option Nat)),
      uhc_dwc2_pipe_alloc dev pipe_config rd = some (0, d)
      ∧ d.priv.channels.hdls = some t
      ∧ occupied_slots t = 1
      ∧ d.priv.channels.num_allocated = dev.priv.channels.num_allocated + 1
      ∧ (d.priv.channels.num_allocated = occupied_slots t
          ↔ dev.priv.channels.num_allocated = 0) := by
  cases hr : uhc_dwc2_pipe_alloc dev pipe_config rd with
  | none =>
    rw [hr] at h
    simp at h
  | some r =>
    rw [hr] at h
    simp only [Option.map_some', Option.some.injEq] at h
    obtain ⟨hnum, p, ht, hN⟩ := pipe_alloc_channels dev pipe_config rd r hr h
    have hocc := occupied_fresh_set dev.priv.const_cfg.num_channels p hN
    obtain ⟨ret, d⟩ := r
    simp only at h hnum ht
    subst h
    refine ⟨d, _, rfl, ht, hocc, hnum, ?_⟩
    rw [hnum, hocc]
    omega

theorem pipe_alloc_counts_earlier_allocations_witness :
    (∃ (d : device) (t : List (Option Nat)),
      uhc_dwc2_pipe_alloc sample_dev { dev_speed := 1, dev_addr := 0 }
          sample_port_event_reads.pipe_alloc = some (0, d)
      ∧ d.priv.channels.hdls = some t
      ∧ occupied_slots t = 1
      ∧ d.priv.channels.num_allocated = 2)
    ∧ (uhc_dwc2_pipe_alloc sample_dev_full { dev_speed := 1, dev_addr := 0 }
          sample_port_event_reads.pipe_alloc).map
        (fun r => (r.1, r.2.priv.channels.hdls)) = some (- ENOMEM, some [none]) := by
  obtain ⟨d, t, h1, h2, h3, h4, _⟩ :=
    pipe_alloc_counts_earlier_allocations sample_dev { dev_speed := 1, dev_addr := 0 }
      sample_port_event_reads.pipe_alloc rfl
  exact ⟨⟨d, t, h1, h2, h3, h4⟩, rfl⟩

end Dwc2
